import Mathlib

/-!
# Buffer checks, tile planning, packing and unpacking of `curved.cpp`

A shallow embedding of the host-side part of `curved_wrapped` (file
`src/curved.cpp`): the checks on the two buffer descriptors, the tile counts,
the loop that copies the input image into the tiled accelerator buffer, the
loops that produce the colour matrix and the tone curve, the loop that copies
the accelerator's interleaved output back into the image, and the call as a
whole, from the sizing of unallocated descriptors to the value returned.

Conventions of the embedding.

* A C integer variable is a mathematical integer (`Int`) holding the value of
  the variable; every operation of the source is followed by the reduction to
  the type the C expression has: `wrap32` for `int32_t`, `wrapU32` for
  `uint32_t`, `wrap64` for `int64_t`.  Signed overflow, which C leaves
  undefined, is taken as two's-complement wrap-around.
* A `for` loop over `0 .. n-1` is `forLoop n body`, a left fold over
  `List.range n`; the loop state is passed explicitly.
* Memory reached through a pointer is a function from the element offset to
  the element stored there.
* Floating-point operations, the OpenCL runtime and the accelerator are
  parameters of the model.  Where a statement takes the arithmetic of the matrix
  or of the curve exactly, the floating-point operations are the exact ones on
  rational numbers (`float_ops.exact`), the constants having the values of their
  bit patterns.
-/

namespace Curved

/-! ## Machine integers -/

/-- Value kept by an `int32_t` when the mathematical result is `x`. -/
def wrap32 (x : Int) : Int := (x + 2147483648) % 4294967296 - 2147483648

/-- Value kept by a `uint32_t` when the mathematical result is `x`. -/
def wrapU32 (x : Int) : Int := x % 4294967296

/-- Value kept by an `int64_t` when the mathematical result is `x`. -/
def wrap64 (x : Int) : Int :=
  (x + 9223372036854775808) % 18446744073709551616 - 9223372036854775808

/-- The values an `int32_t` can hold. -/
def isInt32 (x : Int) : Prop := -2147483648 ≤ x ∧ x ≤ 2147483647

instance (x : Int) : Decidable (isInt32 x) := by unfold isInt32; infer_instance

/-! ## Constants (lines 20-27) -/

def TILE_SIZE_DIM0 : Int := 128
def TILE_SIZE_DIM1 : Int := 128
def STENCIL_DIM0 : Int := 23
def STENCIL_DIM1 : Int := 19

/-! ## Error codes and reporting functions (lines 89-148) -/

def halide_error_code_success : Int := 0
def halide_error_code_bad_elem_size : Int := -3
def halide_error_code_access_out_of_bounds : Int := -4
def halide_error_code_buffer_allocation_too_large : Int := -5
def halide_error_code_buffer_extents_too_large : Int := -6
def halide_error_code_constraint_violated : Int := -8

/-- The buffer a report is about: `curved_y` is the output (`var_processed_buffer`),
`p0` the input (`var_input_buffer`); the source passes the name as a string. -/
inductive buffer_name where
  | curved_y
  | p0
  deriving DecidableEq, Repr

/-- Return value of `halide_error_bad_elem_size`; the message goes to `error_report`. -/
def halide_error_bad_elem_size (_func_name : buffer_name)
    (_elem_size_given _correct_elem_size : Int) : Int :=
  halide_error_code_bad_elem_size

/-- Return value of `halide_error_constraint_violated`. -/
def halide_error_constraint_violated (_var : buffer_name) (_val _constrained_val : Int) : Int :=
  halide_error_code_constraint_violated

/-- Return value of `halide_error_buffer_allocation_too_large`. -/
def halide_error_buffer_allocation_too_large (_buffer_name : buffer_name)
    (_allocation_size _max_size : Int) : Int :=
  halide_error_code_buffer_allocation_too_large

/-- Return value of `halide_error_buffer_extents_too_large`. -/
def halide_error_buffer_extents_too_large (_buffer_name : buffer_name)
    (_actual_size _max_size : Int) : Int :=
  halide_error_code_buffer_extents_too_large

/-- Return value of `halide_error_access_out_of_bounds`. -/
def halide_error_access_out_of_bounds (_func_name : buffer_name)
    (_dimension _min_touched _max_touched _min_valid _max_valid : Int) : Int :=
  halide_error_code_access_out_of_bounds

/-- A call of one of the reporting functions, with the arguments it is given. -/
inductive error_call where
  | bad_elem_size (func_name : buffer_name) (elem_size_given correct_elem_size : Int)
  | constraint_violated (var : buffer_name) (val constrained_val : Int)
  | buffer_allocation_too_large (name : buffer_name) (allocation_size max_size : Int)
  | buffer_extents_too_large (name : buffer_name) (actual_size max_size : Int)
  | access_out_of_bounds (func_name : buffer_name)
      (dimension min_touched max_touched min_valid max_valid : Int)
  deriving DecidableEq, Repr

/-- The code the reporting call returns, which `curved_wrapped` returns in turn. -/
def error_call.returned : error_call → Int
  | .bad_elem_size f g c => halide_error_bad_elem_size f g c
  | .constraint_violated v x c => halide_error_constraint_violated v x c
  | .buffer_allocation_too_large n a m => halide_error_buffer_allocation_too_large n a m
  | .buffer_extents_too_large n a m => halide_error_buffer_extents_too_large n a m
  | .access_out_of_bounds f d a b c e => halide_error_access_out_of_bounds f d a b c e

/-! ## Buffer descriptors -/

/-- Modelled from the spec: the declaration of `buffer_t`, which is in `curved.h` and
not among the sources.  The fields are the ones `curved_wrapped` reads: a device
handle, a host pointer (`0` is `NULL`), and `min`, `extent`, `stride` of up to four
axes and `elem_size`, all `int32_t`. -/
structure buffer_t where
  dev : Nat
  host : Nat
  extent_0 : Int
  extent_1 : Int
  extent_2 : Int
  extent_3 : Int
  stride_0 : Int
  stride_1 : Int
  stride_2 : Int
  stride_3 : Int
  min_0 : Int
  min_1 : Int
  min_2 : Int
  min_3 : Int
  elem_size : Int
  deriving DecidableEq, Repr

/-- Every numeric field of the descriptor is a value of its C type `int32_t`. -/
def buffer_t.wellTyped (b : buffer_t) : Prop :=
  isInt32 b.extent_0 ∧ isInt32 b.extent_1 ∧ isInt32 b.extent_2 ∧ isInt32 b.extent_3 ∧
  isInt32 b.stride_0 ∧ isInt32 b.stride_1 ∧ isInt32 b.stride_2 ∧ isInt32 b.stride_3 ∧
  isInt32 b.min_0 ∧ isInt32 b.min_1 ∧ isInt32 b.min_2 ∧ isInt32 b.min_3 ∧
  isInt32 b.elem_size

instance (b : buffer_t) : Decidable b.wellTyped := by
  unfold buffer_t.wellTyped; infer_instance

/-- The flag `host_and_dev_are_null` (lines 153, 246): the descriptor is unallocated. -/
def host_and_dev_are_null (b : buffer_t) : Bool := b.host == 0 && b.dev == 0

/-! ## The checks of `curved_wrapped` (lines 291-401)

`inp` is `var_input_buffer`, `out` is `var_processed_buffer`; the definitions carry the
names of the temporaries of the source. -/

def assign_6 (out : buffer_t) : Bool := out.elem_size == 1
def assign_8 (inp : buffer_t) : Bool := inp.elem_size == 2

def assign_10 (inp out : buffer_t) : Bool := decide (inp.min_0 ≤ out.min_0)
def assign_11 (out : buffer_t) : Int := wrap32 (out.min_0 + out.extent_0)
def assign_12 (inp out : buffer_t) : Int := wrap32 (assign_11 out - inp.extent_0)
def assign_13 (inp out : buffer_t) : Int := wrap32 (assign_12 inp out + 2)
def assign_14 (inp out : buffer_t) : Bool := decide (assign_13 inp out ≤ inp.min_0)
def assign_15 (inp out : buffer_t) : Bool := assign_10 inp out && assign_14 inp out
def assign_16 (out : buffer_t) : Int := wrap32 (out.min_0 + out.extent_0)
def assign_17 (out : buffer_t) : Int := wrap32 (assign_16 out + 1)
def assign_18 (inp : buffer_t) : Int := wrap32 (inp.min_0 + inp.extent_0)
def assign_19 (inp : buffer_t) : Int := wrap32 (assign_18 inp + -1)

def assign_21 (inp out : buffer_t) : Bool := decide (inp.min_1 ≤ out.min_1)
def assign_22 (out : buffer_t) : Int := wrap32 (out.min_1 + out.extent_1)
def assign_23 (inp out : buffer_t) : Int := wrap32 (assign_22 out - inp.extent_1)
def assign_24 (inp out : buffer_t) : Int := wrap32 (assign_23 inp out + 2)
def assign_25 (inp out : buffer_t) : Bool := decide (assign_24 inp out ≤ inp.min_1)
def assign_26 (inp out : buffer_t) : Bool := assign_21 inp out && assign_25 inp out
def assign_27 (out : buffer_t) : Int := wrap32 (out.min_1 + out.extent_1)
def assign_28 (out : buffer_t) : Int := wrap32 (assign_27 out + 1)
def assign_29 (inp : buffer_t) : Int := wrap32 (inp.min_1 + inp.extent_1)
def assign_30 (inp : buffer_t) : Int := wrap32 (assign_29 inp + -1)

def assign_32 (out : buffer_t) : Bool := out.stride_0 == 1
def assign_34 (inp : buffer_t) : Bool := inp.stride_0 == 1

def assign_36 (out : buffer_t) : Int := wrap64 out.extent_1
def assign_37 (out : buffer_t) : Int := wrap64 out.extent_0
def assign_38 (out : buffer_t) : Int := wrap64 (assign_36 out * assign_37 out)
def assign_39 (inp : buffer_t) : Int := wrap64 inp.extent_1
def assign_40 (inp : buffer_t) : Int := wrap64 inp.extent_0
def assign_41 (inp : buffer_t) : Int := wrap64 (assign_39 inp * assign_40 inp)
def assign_42 : Int := wrap64 2147483647
def assign_43 (out : buffer_t) : Bool := decide (assign_37 out ≤ assign_42)
def assign_47 (out : buffer_t) : Int := wrap64 out.extent_1
def assign_48 (out : buffer_t) : Int := wrap64 out.stride_1
def assign_49 (out : buffer_t) : Int := wrap64 (assign_47 out * assign_48 out)
def assign_51 (out : buffer_t) : Bool := decide (assign_49 out ≤ wrap64 2147483647)
def assign_58 (out : buffer_t) : Bool := decide (assign_38 out ≤ wrap64 2147483647)
def assign_61 (inp : buffer_t) : Int := wrap64 inp.extent_0
def assign_63 (inp : buffer_t) : Bool := decide (assign_61 inp ≤ wrap64 2147483647)
def assign_67 (inp : buffer_t) : Int := wrap64 inp.extent_1
def assign_68 (inp : buffer_t) : Int := wrap64 inp.stride_1
def assign_69 (inp : buffer_t) : Int := wrap64 (assign_67 inp * assign_68 inp)
def assign_71 (inp : buffer_t) : Bool := decide (assign_69 inp ≤ wrap64 2147483647)
def assign_78 (inp : buffer_t) : Bool := decide (assign_41 inp ≤ wrap64 2147483647)

/-- The block of checks of `curved_wrapped`, lines 291-401, entered when both
descriptors are allocated: `some c` when the function returns through the reporting
call `c` (its result is `c.returned`), `none` when every check passes and control
reaches the tiling stage at line 403. -/
def curved_wrapped_checks (inp out : buffer_t) : Option error_call :=
  if !assign_6 out then
    some (.bad_elem_size .curved_y out.elem_size 1)
  else if !assign_8 inp then
    some (.bad_elem_size .p0 inp.elem_size 2)
  else if !assign_15 inp out then
    some (.access_out_of_bounds .p0 0 out.min_0 (assign_17 out) inp.min_0 (assign_19 inp))
  else if !assign_26 inp out then
    some (.access_out_of_bounds .p0 1 out.min_1 (assign_28 out) inp.min_1 (assign_30 inp))
  else if !assign_32 out then
    some (.constraint_violated .curved_y out.stride_0 1)
  else if !assign_34 inp then
    some (.constraint_violated .p0 inp.stride_0 1)
  else if !assign_43 out then
    some (.buffer_allocation_too_large .curved_y (wrap64 out.extent_0) (wrap64 2147483647))
  else if !assign_51 out then
    some (.buffer_allocation_too_large .curved_y
      (wrap64 (wrap64 out.extent_1 * wrap64 out.stride_1)) (wrap64 2147483647))
  else if !assign_58 out then
    some (.buffer_extents_too_large .curved_y (assign_38 out) (wrap64 2147483647))
  else if !assign_63 inp then
    some (.buffer_allocation_too_large .p0 (wrap64 inp.extent_0) (wrap64 2147483647))
  else if !assign_71 inp then
    some (.buffer_allocation_too_large .p0
      (wrap64 (wrap64 inp.extent_1 * wrap64 inp.stride_1)) (wrap64 2147483647))
  else if !assign_78 inp then
    some (.buffer_extents_too_large .p0 (assign_41 inp) (wrap64 2147483647))
  else
    none

/-! ## Tile counts (lines 404-405) -/

/-- The variable `tile_num_dim0`; the quotient of an `int32_t` by 106 needs no reduction. -/
def tile_num_dim0 (var_processed_extent_0 : Int) : Int :=
  Int.tdiv (wrap32 (wrap32 (var_processed_extent_0 + TILE_SIZE_DIM0) - STENCIL_DIM0))
    (TILE_SIZE_DIM0 - STENCIL_DIM0 + 1)

/-- The variable `tile_num_dim1`. -/
def tile_num_dim1 (var_processed_extent_1 : Int) : Int :=
  Int.tdiv (wrap32 (wrap32 (var_processed_extent_1 + TILE_SIZE_DIM1) - STENCIL_DIM1))
    (TILE_SIZE_DIM1 - STENCIL_DIM1 + 1)

/-! ## The tiled buffers (lines 406-407) -/

/-- Line 406: the number of elements asked of `new uint8_t[...]` for `var_processed_buf`,
the value of the `int` expression
`tile_num_dim0*tile_num_dim1*((TILE_SIZE_DIM0)*(TILE_SIZE_DIM1)/21*64)`, from the two
tile counts. -/
def var_processed_buf_length (tile_num_dim0 tile_num_dim1 : Int) : Int :=
  wrap32 (wrap32 (tile_num_dim0 * tile_num_dim1)
    * (TILE_SIZE_DIM0 * TILE_SIZE_DIM1 / 21 * 64))

/-- Line 407: the number of elements asked of `new uint16_t[...]` for `var_input_buf`,
the value of the `int` expression
`tile_num_dim0*tile_num_dim1*(TILE_SIZE_DIM0)*(TILE_SIZE_DIM1)`, from the two tile
counts. -/
def var_input_buf_length (tile_num_dim0 tile_num_dim1 : Int) : Int :=
  wrap32 (wrap32 (wrap32 (tile_num_dim0 * tile_num_dim1) * TILE_SIZE_DIM0) * TILE_SIZE_DIM1)

/-! ## Loops -/

/-- The loop `for (t = 0; t < n; ++t) body`, with the state passed through. -/
def forLoop {σ : Type} (n : Int) (body : Int → σ → σ) (s : σ) : σ :=
  (List.range n.toNat).foldl (fun (s : σ) (t : Nat) => body (t : Int) s) s

/-! ## Packing: the tiling loop (lines 410-433) -/

namespace Pack

/-- Line 412: rows of the input copied for the tile row `tile_index_dim1`. -/
def actual_tile_size_dim1 (inp out : buffer_t) (tile_index_dim1 : Int) : Int :=
  wrapU32 (if tile_index_dim1 = wrap32 (tile_num_dim1 out.extent_1 - 1)
    then wrap32 (inp.extent_1 - wrap32 ((TILE_SIZE_DIM1 - STENCIL_DIM1 + 1) * tile_index_dim1))
    else TILE_SIZE_DIM1)

/-- Line 415: columns of the input copied for the tile column `tile_index_dim0`. -/
def actual_tile_size_dim0 (inp out : buffer_t) (tile_index_dim0 : Int) : Int :=
  wrapU32 (if tile_index_dim0 = wrap32 (tile_num_dim0 out.extent_0 - 1)
    then wrap32 (inp.extent_0 - wrap32 ((TILE_SIZE_DIM0 - STENCIL_DIM0 + 1) * tile_index_dim0))
    else TILE_SIZE_DIM0)

/-- Line 425: column of the source pixel in the original image. -/
def p (tile_index_dim0 i : Int) : Int :=
  wrapU32 (wrap32 (tile_index_dim0 * (TILE_SIZE_DIM0 - STENCIL_DIM0 + 1)) + i)

/-- Line 426: row of the source pixel in the original image. -/
def q (tile_index_dim1 j : Int) : Int :=
  wrapU32 (wrap32 (tile_index_dim1 * (TILE_SIZE_DIM1 - STENCIL_DIM1 + 1)) + j)

/-- Line 427: offset written in the tiled input buffer. -/
def tiled_offset (tile_num_dim0 tile_index_dim1 tile_index_dim0 j i : Int) : Int :=
  wrapU32 (wrapU32 (wrap32 (wrap32 (wrap32 (wrap32 (tile_index_dim1 * tile_num_dim0)
    + tile_index_dim0) * TILE_SIZE_DIM0) * TILE_SIZE_DIM1) + wrapU32 (j * TILE_SIZE_DIM0)) + i)

/-- Line 428: offset read in the original image. -/
def original_offset (inp : buffer_t) (p q : Int) : Int :=
  wrapU32 (wrapU32 (p * inp.stride_0) + wrapU32 (q * inp.stride_1))

end Pack

/-- The tiling loop of `curved_wrapped`, lines 410-433: from the contents
`var_input` of the input image and the initial contents of the freshly allocated
`var_input_buf` to the contents of `var_input_buf` after the loop. -/
def tiling {α : Type} (inp out : buffer_t) (var_input : Int → α)
    (var_input_buf : Int → α) : Int → α :=
  forLoop (tile_num_dim1 out.extent_1) (fun tile_index_dim1 buf =>
    forLoop (tile_num_dim0 out.extent_0) (fun tile_index_dim0 buf =>
      forLoop (Pack.actual_tile_size_dim1 inp out tile_index_dim1) (fun j buf =>
        forLoop (Pack.actual_tile_size_dim0 inp out tile_index_dim0) (fun i buf =>
          Function.update buf
            (Pack.tiled_offset (tile_num_dim0 out.extent_0) tile_index_dim1 tile_index_dim0 j i)
            (var_input (Pack.original_offset inp (Pack.p tile_index_dim0 i)
              (Pack.q tile_index_dim1 j))))
          buf) buf) buf) var_input_buf

/-! ## Unpacking: the loop after the read-back (lines 793-821) -/

namespace Unpack

/-- Line 795: rows of the output written for the tile row `tile_index_dim1`. -/
def actual_tile_size_dim1 (out : buffer_t) (tile_index_dim1 : Int) : Int :=
  wrapU32 (if tile_index_dim1 = wrap32 (tile_num_dim1 out.extent_1 - 1)
    then wrap32 (out.extent_1 - wrap32 ((TILE_SIZE_DIM1 - STENCIL_DIM1 + 1) * tile_index_dim1))
    else TILE_SIZE_DIM1 - STENCIL_DIM1 + 1)

/-- Line 798: columns of the output written for the tile column `tile_index_dim0`. -/
def actual_tile_size_dim0 (out : buffer_t) (tile_index_dim0 : Int) : Int :=
  wrapU32 (if tile_index_dim0 = wrap32 (tile_num_dim0 out.extent_0 - 1)
    then wrap32 (out.extent_0 - wrap32 ((TILE_SIZE_DIM0 - STENCIL_DIM0 + 1) * tile_index_dim0))
    else TILE_SIZE_DIM0 - STENCIL_DIM0 + 1)

/-- Line 811: column of the pixel in the output image. -/
def p (tile_index_dim0 i : Int) : Int :=
  wrapU32 (wrap32 (tile_index_dim0 * (TILE_SIZE_DIM0 - STENCIL_DIM0 + 1)) + i)

/-- Line 812: row of the pixel in the output image. -/
def q (tile_index_dim1 j : Int) : Int :=
  wrapU32 (wrap32 (tile_index_dim1 * (TILE_SIZE_DIM1 - STENCIL_DIM1 + 1)) + j)

/-- Line 814: offset read in the tiled output buffer; pixels are grouped by 21 into
blocks of 64 slots, three channels a pixel. -/
def tiled_offset (tile_num_dim0 tile_index_dim1 tile_index_dim0 k j i : Int) : Int :=
  wrapU32 (wrapU32 (wrapU32 (
    wrap32 (wrap32 (wrap32 (tile_index_dim1 * tile_num_dim0) + tile_index_dim0)
      * (TILE_SIZE_DIM1 * TILE_SIZE_DIM0 / 21 * 64))
    + wrapU32 (wrapU32 (wrapU32 (j * TILE_SIZE_DIM0) + i) / 21 * 64))
    + wrapU32 (wrapU32 (wrapU32 (j * TILE_SIZE_DIM0) + i) % 21 * 3)) + k)

/-- Line 815: offset written in the output image. -/
def original_offset (out : buffer_t) (p q r : Int) : Int :=
  wrapU32 (wrapU32 (wrapU32 (p * out.stride_0) + wrapU32 (q * out.stride_1))
    + wrapU32 (r * out.stride_2))

end Unpack

/-- The unpacking loop of `curved_wrapped`, lines 793-821: from the contents
`var_processed_buf` read back from the accelerator and the contents of the output
image before the loop to the contents of the output image after it. -/
def untiling {β : Type} (out : buffer_t) (var_processed_buf : Int → β)
    (var_processed : Int → β) : Int → β :=
  forLoop (tile_num_dim1 out.extent_1) (fun tile_index_dim1 img =>
    forLoop (tile_num_dim0 out.extent_0) (fun tile_index_dim0 img =>
      forLoop 3 (fun k img =>
        forLoop (Unpack.actual_tile_size_dim1 out tile_index_dim1) (fun j img =>
          forLoop (Unpack.actual_tile_size_dim0 out tile_index_dim0) (fun i img =>
            Function.update img
              (Unpack.original_offset out (Unpack.p tile_index_dim0 i)
                (Unpack.q tile_index_dim1 j) k)
              (var_processed_buf (Unpack.tiled_offset (tile_num_dim0 out.extent_0)
                tile_index_dim1 tile_index_dim0 k j i)))
            img) img) img) img) var_processed

/-- The value `curved_wrapped` returns when it returns before the tiling stage, for
descriptors that are both allocated (lines 287-401): the result of the first reporting
call, `none` when control reaches line 403. -/
def curved_wrapped_validation (inp out : buffer_t) : Option Int :=
  (curved_wrapped_checks inp out).map error_call.returned

/-! ## Rewriting a descriptor (lines 69-87) -/

/-- The function `halide_rewrite_buffer`: the descriptor after the call.  The argument
`elem_size` is not used by the source, and `dev`, `host` and `elem_size` of the
descriptor are not assigned. -/
def halide_rewrite_buffer (b : buffer_t) (_elem_size : Int)
    (min0 extent0 stride0 min1 extent1 stride1 min2 extent2 stride2
      min3 extent3 stride3 : Int) : buffer_t :=
  { b with
    min_0 := min0, min_1 := min1, min_2 := min2, min_3 := min3,
    extent_0 := extent0, extent_1 := extent1, extent_2 := extent2, extent_3 := extent3,
    stride_0 := stride0, stride_1 := stride1, stride_2 := stride2, stride_3 := stride3 }

/-! ## Floating-point arithmetic

The single-precision operations of the source are not evaluated: they are a parameter of
the model, one field for each operation the source uses. -/

/-- The `float` operations used by `curved_wrapped`, on a type `F` of `float` values. -/
structure float_ops (F : Type) where
  /-- The function `float_from_bits` (lines 32-42). -/
  float_from_bits : Int → F
  /-- The operator `+`. -/
  add : F → F → F
  /-- The operator `-`. -/
  sub : F → F → F
  /-- The operator `*`. -/
  mul : F → F → F
  /-- The operator `/`. -/
  div : F → F → F
  /-- The comparison `<`. -/
  lt : F → F → Bool
  /-- The function `pow_f32` (line 44), that is `powf`. -/
  pow_f32 : F → F → F
  /-- The conversion `(float)` of an `int32_t`. -/
  of_int32 : Int → F
  /-- The conversion `(int16_t)` of a `float`. -/
  to_int16 : F → Int
  /-- The conversion `(uint8_t)` of a `float`. -/
  to_uint8 : F → Int

/-- Value kept by a `uint8_t` when the mathematical result is `x`. -/
def wrapU8 (x : Int) : Int := x % 256

/-- Value kept by an `int16_t` when the mathematical result is `x`. -/
def wrap16 (x : Int) : Int := (x + 32768) % 65536 - 32768

/-- The macro `min` (line 29) on `float` values. -/
def float_ops.min {F : Type} (fl : float_ops F) (a b : F) : F := if fl.lt a b then a else b

/-- The macro `max` (line 30) on `float` values. -/
def float_ops.max {F : Type} (fl : float_ops F) (a b : F) : F := if fl.lt b a then a else b

/-! ## The colour matrix (lines 435-466) -/

/-- The index `var_221` written in `var_matrix` for row `y` and column `v0`. -/
def var_221 (var_matrix_s0_y var_matrix_s0_v0 : Int) : Int :=
  wrap32 (var_matrix_s0_v0 + wrap32 (var_matrix_s0_y * 4))

/-- The index `var_226` (and `var_236`) read in a reference matrix with descriptor `m`. -/
def var_226 (m : buffer_t) (var_matrix_s0_y var_matrix_s0_v0 : Int) : Int :=
  wrap32 (wrap32 (var_matrix_s0_v0 + wrap32 (var_matrix_s0_y * m.stride_1))
    - wrap32 (m.min_0 + wrap32 (m.min_1 * m.stride_1)))

/-- The entry `var_242` stored for row `y` and column `v0` (lines 448-463). -/
def var_242 {F : Type} (fl : float_ops F) (var_color_temp : F)
    (var_m3200_buffer var_m7000_buffer : buffer_t) (var_m3200 var_m7000 : Int → F)
    (var_matrix_s0_y var_matrix_s0_v0 : Int) : Int :=
  let var_227 := var_m3200 (var_226 var_m3200_buffer var_matrix_s0_y var_matrix_s0_v0)
  let var_228 := fl.div (fl.float_from_bits 1065353216) var_color_temp
  let var_229 := fl.mul var_228 (fl.float_from_bits 1169700325)
  let var_230 := fl.sub (fl.float_from_bits 1072417307) var_229
  let var_231 := fl.mul var_227 var_230
  let var_237 := var_m7000 (var_226 var_m7000_buffer var_matrix_s0_y var_matrix_s0_v0)
  let var_238 := fl.add var_229 (fl.float_from_bits 3210187830)
  let var_239 := fl.mul var_237 var_238
  let var_240 := fl.add var_231 var_239
  let var_241 := fl.mul var_240 (fl.float_from_bits 1132462080)
  wrap16 (fl.to_int16 var_241)

/-- The loops that produce `var_matrix`: from the contents of the array before the
loops to its contents after them. -/
def produce_matrix {F : Type} (fl : float_ops F) (var_color_temp : F)
    (var_m3200_buffer var_m7000_buffer : buffer_t) (var_m3200 var_m7000 : Int → F)
    (var_matrix : Int → Int) : Int → Int :=
  forLoop 3 (fun var_matrix_s0_y mat =>
    forLoop 4 (fun var_matrix_s0_v0 mat =>
      Function.update mat (var_221 var_matrix_s0_y var_matrix_s0_v0)
        (var_242 fl var_color_temp var_m3200_buffer var_m7000_buffer var_m3200 var_m7000
          var_matrix_s0_y var_matrix_s0_v0))
      mat) var_matrix

/-- The weight `var_230` that multiplies the entry of `m3200` (lines 448-450). -/
def var_230 {F : Type} (fl : float_ops F) (var_color_temp : F) : F :=
  let var_228 := fl.div (fl.float_from_bits 1065353216) var_color_temp
  let var_229 := fl.mul var_228 (fl.float_from_bits 1169700325)
  fl.sub (fl.float_from_bits 1072417307) var_229

/-- The weight `var_238` that multiplies the entry of `m7000` (lines 448-449 and 458). -/
def var_238 {F : Type} (fl : float_ops F) (var_color_temp : F) : F :=
  let var_228 := fl.div (fl.float_from_bits 1065353216) var_color_temp
  let var_229 := fl.mul var_228 (fl.float_from_bits 1169700325)
  fl.add var_229 (fl.float_from_bits 3210187830)

/-! ## The tone curve (lines 468-511) -/

/-- The value `var_275` of the curve at the level `var_curve_s0_v0` before the black
and white levels are forced (lines 472-504). -/
def var_275 {F : Type} (fl : float_ops F) (var_gamma var_contrast : F)
    (var_blackLevel var_whiteLevel : Int) (var_curve_s0_v0 : Int) : Int :=
  let var_243 := wrap32 (var_curve_s0_v0 - var_blackLevel)
  let var_244 := fl.of_int32 var_243
  let var_245 := wrap32 (var_whiteLevel - var_blackLevel)
  let var_246 := fl.of_int32 var_245
  let var_247 := fl.div (fl.float_from_bits 1065353216) var_246
  let var_248 := fl.mul var_244 var_247
  let var_249 := fl.min var_248 (fl.float_from_bits 1065353216)
  let var_250 := fl.max var_249 (fl.float_from_bits 0)
  let var_251 := fl.div (fl.float_from_bits 1065353216) var_gamma
  let var_252 := fl.pow_f32 var_250 var_251
  let var_253 := fl.mul var_contrast (fl.float_from_bits 1008981770)
  let var_254 := fl.pow_f32 (fl.float_from_bits 1073741824) var_253
  let var_256 := fl.sub (fl.float_from_bits 1065353216) var_252
  let var_257 := fl.sub (fl.float_from_bits 1073741824) var_254
  let var_258 := fl.mul var_257 (fl.float_from_bits 1073741824)
  let var_259 := fl.sub (fl.float_from_bits 1073741824) var_258
  let var_260 := fl.mul var_259 var_256
  let var_261 := fl.sub var_260 var_254
  let var_262 := fl.add var_261 (fl.float_from_bits 1073741824)
  let var_263 := fl.mul var_256 var_262
  let var_264 := fl.sub (fl.float_from_bits 1065353216) var_263
  let var_265 := fl.mul var_259 var_252
  let var_266 := fl.sub var_265 var_254
  let var_267 := fl.add var_266 (fl.float_from_bits 1073741824)
  let var_268 := fl.mul var_252 var_267
  let var_269 := fl.lt (fl.float_from_bits 1056964608) var_252
  let var_270 := if var_269 then var_264 else var_268
  let var_271 := fl.mul var_270 (fl.float_from_bits 1132396544)
  let var_272 := fl.add var_271 (fl.float_from_bits 1056964608)
  let var_273 := fl.min var_272 (fl.float_from_bits 1132396544)
  let var_274 := fl.max var_273 (fl.float_from_bits 0)
  wrapU8 (fl.to_uint8 var_274)

/-- The entry `var_280` stored in `var_curve` at the level `var_curve_s0_v0`
(lines 505-509). -/
def var_280 {F : Type} (fl : float_ops F) (var_gamma var_contrast : F)
    (var_blackLevel var_whiteLevel : Int) (var_curve_s0_v0 : Int) : Int :=
  let var_255 := wrapU8 255
  let var_276 := decide (var_whiteLevel < var_curve_s0_v0)
  let var_277 := wrapU8 (if var_276 then var_255
    else var_275 fl var_gamma var_contrast var_blackLevel var_whiteLevel var_curve_s0_v0)
  let var_278 := wrapU8 0
  let var_279 := decide (var_blackLevel < var_curve_s0_v0)
  wrapU8 (if var_279 then var_277 else var_278)

/-- The loop that produces `var_curve`: from the contents of the array before the loop
to its contents after it. -/
def produce_curve {F : Type} (fl : float_ops F) (var_gamma var_contrast : F)
    (var_blackLevel var_whiteLevel : Int) (var_curve : Int → Int) : Int → Int :=
  forLoop 1024 (fun var_curve_s0_v0 curve =>
    Function.update curve var_curve_s0_v0
      (var_280 fl var_gamma var_contrast var_blackLevel var_whiteLevel var_curve_s0_v0))
    var_curve

/-! ## The whole call (lines 150-827 and 829-963)

The OpenCL runtime and the accelerator are outside the program: what they answer in one
call is a parameter of the model.  The memory reached through the host pointers of the
input image, of the two reference matrices and of the output image is kept apart, one
function for each. -/

/-- The arguments of `curved_wrapped` and of `curved`, with the contents of the memory
behind the host pointers of the four descriptors; `xclbin` is left to the environment. -/
structure arguments (F α β : Type) where
  var_color_temp : F
  var_gamma : F
  var_contrast : F
  var_blackLevel : Int
  var_whiteLevel : Int
  var_input_buffer : buffer_t
  var_m3200_buffer : buffer_t
  var_m7000_buffer : buffer_t
  var_processed_buffer : buffer_t
  var_input : Int → α
  var_m3200 : Int → F
  var_m7000 : Int → F
  var_processed : Int → β

/-- What is outside the program during one call: the contents of freshly allocated
arrays, the results of the OpenCL calls, and the accelerator. -/
structure environment (α β : Type) where
  /-- Contents of `new uint16_t[...]` (line 407) before the tiling loop. -/
  var_input_buf : Int → α
  /-- Contents of `var_matrix` (line 435) before it is produced. -/
  var_matrix : Int → Int
  /-- Contents of `var_curve` (line 468) before it is produced. -/
  var_curve : Int → Int
  /-- Every call from `clGetPlatformIDs` to `clCreateBuffer` (lines 540-694) and the
  loading of the binary succeed; otherwise the process exits. -/
  setup_succeeds : Bool
  /-- Result of the first `clEnqueueWriteBuffer` (line 701, the matrix). -/
  write_matrix_err : Int
  /-- Result of the second `clEnqueueWriteBuffer` (line 702, the curve). -/
  write_curve_err : Int
  /-- Result of the third `clEnqueueWriteBuffer` (line 703, the tiled input). -/
  write_input_err : Int
  /-- The bitwise or of the results of the ten `clSetKernelArg` (lines 716-727). -/
  set_kernel_arg_err : Int
  /-- Result of `clEnqueueTask` (line 745). -/
  enqueue_task_err : Int
  /-- Result of `clEnqueueReadBuffer` (line 760). -/
  read_buffer_err : Int
  /-- Contents of `var_processed_buf` after the read-back, from what the host handed to
  the accelerator: matrix, curve, tiled input, the two tile counts, and the extents and
  mins of the output on axes 0 and 1. -/
  kernel : (Int → Int) → (Int → Int) → (Int → α) → Int → Int → Int → Int → Int → Int →
    (Int → β)

/-- The steps of a call that are visible from outside or mark a stage of it, in the
order they happen. -/
inductive event where
  /-- A reporting function is called (lines 293-399). -/
  | report (c : error_call)
  /-- A `new[]` of lines 406-407 is asked for a negative number of elements and throws
  an exception of class `std::bad_alloc`, which nothing catches. -/
  | bad_alloc
  /-- The tiled buffers are allocated and the tiling loop runs (lines 404-433). -/
  | tiling
  /-- The matrix and the curve are produced (lines 435-511). -/
  | tables
  /-- The matrix is written to the device (line 701). -/
  | write_matrix
  /-- The curve is written to the device (line 702). -/
  | write_curve
  /-- The tiled input is written to the device (line 703). -/
  | write_input
  /-- The kernel is run (line 745). -/
  | enqueue_task
  /-- The tiled output is read back (line 760). -/
  | read_buffer
  /-- The unpacking loop runs (lines 793-821). -/
  | untiling
  deriving DecidableEq, Repr

/-- The end of a call: the value returned, or `none` when the process ends without
returning, in `exit(EXIT_FAILURE)` or by an exception of `new[]` that nothing catches;
the two descriptors the call may rewrite, the contents of the output image, and the
steps taken. -/
structure final_state (β : Type) where
  result : Option Int
  var_input_buffer : buffer_t
  var_processed_buffer : buffer_t
  var_processed : Int → β
  trace : List event

/-- The function `curved_wrapped` from the tiling stage on (lines 403-826), entered when
both descriptors are allocated and every check has passed.  A `new[]` whose `int`
length is negative throws before any loop runs; a `new[]` of a length that is not
negative is taken to find the memory. -/
def curved_wrapped_offload {F α β : Type} (fl : float_ops F) (env : environment α β)
    (a : arguments F α β) : final_state β :=
  let inp := a.var_input_buffer
  let out := a.var_processed_buffer
  let exits (t : List event) : final_state β :=
    { result := none, var_input_buffer := inp, var_processed_buffer := out,
      var_processed := a.var_processed, trace := t }
  -- line 406: `new uint8_t[...]`
  if var_processed_buf_length (tile_num_dim0 out.extent_0) (tile_num_dim1 out.extent_1) < 0
  then exits [.bad_alloc]
  -- line 407: `new uint16_t[...]`
  else if var_input_buf_length (tile_num_dim0 out.extent_0) (tile_num_dim1 out.extent_1) < 0
  then exits [.bad_alloc]
  else
  let var_input_buf := tiling inp out a.var_input env.var_input_buf
  let var_matrix := produce_matrix fl a.var_color_temp a.var_m3200_buffer a.var_m7000_buffer
    a.var_m3200 a.var_m7000 env.var_matrix
  let var_curve := produce_curve fl a.var_gamma a.var_contrast a.var_blackLevel
    a.var_whiteLevel env.var_curve
  let t0 : List event := [.tiling, .tables]
  if !env.setup_succeeds then exits t0
  else
    let t1 := t0 ++ [.write_matrix, .write_curve, .write_input]
    -- lines 701-704: `err` is assigned three times and tested once
    let err := env.write_input_err
    if err ≠ 0 then exits t1
    else if env.set_kernel_arg_err ≠ 0 then exits t1
    else
      let t2 := t1 ++ [.enqueue_task]
      if env.enqueue_task_err ≠ 0 then exits t2
      else
        let t3 := t2 ++ [.read_buffer]
        if env.read_buffer_err ≠ 0 then exits t3
        else
          let var_processed_buf := env.kernel var_matrix var_curve var_input_buf
            (tile_num_dim0 out.extent_0) (tile_num_dim1 out.extent_1)
            out.extent_0 out.extent_1 out.min_0 out.min_1
          { result := some 0, var_input_buffer := inp, var_processed_buffer := out,
            var_processed := untiling out var_processed_buf a.var_processed,
            trace := t3 ++ [.untiling] }

/-- The function `curved_wrapped` (lines 150-827). -/
def curved_wrapped {F α β : Type} (fl : float_ops F) (env : environment α β)
    (a : arguments F α β) : final_state β :=
  let inp := a.var_input_buffer
  let out := a.var_processed_buffer
  let var_processed_buffer :=
    if host_and_dev_are_null out then
      halide_rewrite_buffer out 2 out.min_0 out.extent_0 1 out.min_1 out.extent_1
        out.extent_0 0 0 0 0 0 0
    else out
  let var_input_buffer :=
    if host_and_dev_are_null inp then
      let assign_1 := wrap32 (out.extent_0 + 2)
      let assign_2 := wrap32 (out.extent_1 + 2)
      halide_rewrite_buffer inp 2 out.min_0 assign_1 1 out.min_1 assign_2 assign_1
        0 0 0 0 0 0
    else inp
  let assign_4 := host_and_dev_are_null out || host_and_dev_are_null inp
  let assign_5 := !assign_4
  if assign_5 then
    match curved_wrapped_checks inp out with
    | some c =>
      { result := some c.returned, var_input_buffer := var_input_buffer,
        var_processed_buffer := var_processed_buffer, var_processed := a.var_processed,
        trace := [.report c] }
    | none => curved_wrapped_offload fl env a
  else
    { result := some 0, var_input_buffer := var_input_buffer,
      var_processed_buffer := var_processed_buffer, var_processed := a.var_processed,
      trace := [] }

/-- The function `curved` (lines 829-963): it calls `curved_wrapped` and returns its
result, through either branch of the test `assign_81 == 0`. -/
def curved {F α β : Type} (fl : float_ops F) (env : environment α β)
    (a : arguments F α β) : final_state β :=
  let s := curved_wrapped fl env a
  match s.result with
  | some assign_81 =>
    let assign_82 := assign_81 == 0
    if !assign_82 then { s with result := some assign_81 } else { s with result := some 0 }
  | none => s

/-! ## The order of the checks, as the specification words it -/

/-- The twelve checks in the order of the specification: element sizes (output, input),
bounds (axis 0, axis 1), fast-axis strides (output, input), size limits (output, input),
each with the report made when it fails. -/
def checks_in_order (inp out : buffer_t) : List (Bool × error_call) :=
  [ (assign_6 out, .bad_elem_size .curved_y out.elem_size 1),
    (assign_8 inp, .bad_elem_size .p0 inp.elem_size 2),
    (assign_15 inp out,
      .access_out_of_bounds .p0 0 out.min_0 (assign_17 out) inp.min_0 (assign_19 inp)),
    (assign_26 inp out,
      .access_out_of_bounds .p0 1 out.min_1 (assign_28 out) inp.min_1 (assign_30 inp)),
    (assign_32 out, .constraint_violated .curved_y out.stride_0 1),
    (assign_34 inp, .constraint_violated .p0 inp.stride_0 1),
    (assign_43 out,
      .buffer_allocation_too_large .curved_y (wrap64 out.extent_0) (wrap64 2147483647)),
    (assign_51 out, .buffer_allocation_too_large .curved_y
      (wrap64 (wrap64 out.extent_1 * wrap64 out.stride_1)) (wrap64 2147483647)),
    (assign_58 out, .buffer_extents_too_large .curved_y (assign_38 out) (wrap64 2147483647)),
    (assign_63 inp,
      .buffer_allocation_too_large .p0 (wrap64 inp.extent_0) (wrap64 2147483647)),
    (assign_71 inp, .buffer_allocation_too_large .p0
      (wrap64 (wrap64 inp.extent_1 * wrap64 inp.stride_1)) (wrap64 2147483647)),
    (assign_78 inp, .buffer_extents_too_large .p0 (assign_41 inp) (wrap64 2147483647)) ]

/-- The report of the first check of the list that fails, if one does. -/
def first_failing : List (Bool × error_call) → Option error_call
  | [] => none
  | (ok, report) :: rest => if ok then first_failing rest else some report

/-! ## The loops as lists of writes -/

/-- The memory after the writes of the list, each an offset and a value, were made in
order. -/
def applyWrites {β : Type} (ws : List (Int × β)) (m : Int → β) : Int → β :=
  ws.foldl (fun m w => Function.update m w.1 w.2) m

/-- The writes of a loop of `n` iterations whose iteration `t` makes the writes `f t`. -/
def loopWrites {β : Type} (n : Int) (f : Int → List (Int × β)) : List (Int × β) :=
  (List.range n.toNat).flatMap (fun (t : Nat) => f (t : Int))

/-- The writes of the tiling loop, in the order they are made. -/
def tilingWrites {α : Type} (inp out : buffer_t) (var_input : Int → α) : List (Int × α) :=
  loopWrites (tile_num_dim1 out.extent_1) fun tile_index_dim1 =>
    loopWrites (tile_num_dim0 out.extent_0) fun tile_index_dim0 =>
      loopWrites (Pack.actual_tile_size_dim1 inp out tile_index_dim1) fun j =>
        loopWrites (Pack.actual_tile_size_dim0 inp out tile_index_dim0) fun i =>
          [(Pack.tiled_offset (tile_num_dim0 out.extent_0) tile_index_dim1 tile_index_dim0 j i,
            var_input (Pack.original_offset inp (Pack.p tile_index_dim0 i)
              (Pack.q tile_index_dim1 j)))]

/-- The writes of the unpacking loop, in the order they are made. -/
def untilingWrites {β : Type} (out : buffer_t) (var_processed_buf : Int → β) :
    List (Int × β) :=
  loopWrites (tile_num_dim1 out.extent_1) fun tile_index_dim1 =>
    loopWrites (tile_num_dim0 out.extent_0) fun tile_index_dim0 =>
      loopWrites 3 fun k =>
        loopWrites (Unpack.actual_tile_size_dim1 out tile_index_dim1) fun j =>
          loopWrites (Unpack.actual_tile_size_dim0 out tile_index_dim0) fun i =>
            [(Unpack.original_offset out (Unpack.p tile_index_dim0 i)
                (Unpack.q tile_index_dim1 j) k,
              var_processed_buf (Unpack.tiled_offset (tile_num_dim0 out.extent_0)
                tile_index_dim1 tile_index_dim0 k j i))]

/-! ## Notions used in the statements -/

/-- The quotient `ceil_div a b` as the specification defines it: `n` is the least
integer with `n * b ≥ a`. -/
def is_ceil_div (a b n : Int) : Prop := a ≤ n * b ∧ ∀ m : Int, a ≤ m * b → n ≤ m

/-- The sums formed by the bounds check of axis 0 and by its report (lines 302-311),
taken over the integers, are values of `int32_t`: the check runs without wrap-around. -/
def bounds_exact_0 (inp out : buffer_t) : Prop :=
  isInt32 (out.min_0 + out.extent_0) ∧ isInt32 (out.min_0 + out.extent_0 - inp.extent_0) ∧
  isInt32 (out.min_0 + out.extent_0 - inp.extent_0 + 2) ∧
  isInt32 (out.min_0 + out.extent_0 + 1) ∧
  isInt32 (inp.min_0 + inp.extent_0) ∧ isInt32 (inp.min_0 + inp.extent_0 - 1)

/-- The sums formed by the bounds check of axis 1 and by its report (lines 316-325),
taken over the integers, are values of `int32_t`. -/
def bounds_exact_1 (inp out : buffer_t) : Prop :=
  isInt32 (out.min_1 + out.extent_1) ∧ isInt32 (out.min_1 + out.extent_1 - inp.extent_1) ∧
  isInt32 (out.min_1 + out.extent_1 - inp.extent_1 + 2) ∧
  isInt32 (out.min_1 + out.extent_1 + 1) ∧
  isInt32 (inp.min_1 + inp.extent_1) ∧ isInt32 (inp.min_1 + inp.extent_1 - 1)

instance (inp out : buffer_t) : Decidable (bounds_exact_0 inp out) := by
  unfold bounds_exact_0; infer_instance

instance (inp out : buffer_t) : Decidable (bounds_exact_1 inp out) := by
  unfold bounds_exact_1; infer_instance

/-- The index space of the tiling loop: tile row `ty`, tile column `tx`, and the local
row `j` and column `i` below the sizes computed at lines 412 and 415. -/
def Pack.iterates (inp out : buffer_t) (ty tx j i : Int) : Prop :=
  0 ≤ ty ∧ ty < tile_num_dim1 out.extent_1 ∧ 0 ≤ tx ∧ tx < tile_num_dim0 out.extent_0 ∧
  0 ≤ j ∧ j < Pack.actual_tile_size_dim1 inp out ty ∧
  0 ≤ i ∧ i < Pack.actual_tile_size_dim0 inp out tx

instance (inp out : buffer_t) (ty tx j i : Int) :
    Decidable (Pack.iterates inp out ty tx j i) := by
  unfold Pack.iterates; infer_instance

/-- The index space of the unpacking loop: tile row `ty`, tile column `tx`, and the
local row `j` and column `i` below the sizes computed at lines 795 and 798. -/
def Unpack.iterates (out : buffer_t) (ty tx j i : Int) : Prop :=
  0 ≤ ty ∧ ty < tile_num_dim1 out.extent_1 ∧ 0 ≤ tx ∧ tx < tile_num_dim0 out.extent_0 ∧
  0 ≤ j ∧ j < Unpack.actual_tile_size_dim1 out ty ∧
  0 ≤ i ∧ i < Unpack.actual_tile_size_dim0 out tx

instance (out : buffer_t) (ty tx j i : Int) : Decidable (Unpack.iterates out ty tx j i) := by
  unfold Unpack.iterates; infer_instance

/-- The validator error kinds of the specification. -/
inductive ErrorKind where
  | BadElementSize
  | ConstraintViolated
  | AccessOutOfBounds
  | BufferAllocationTooLarge
  | BufferExtentsTooLarge
  deriving DecidableEq, Repr

/-- The kind of error a reporting call stands for. -/
def error_call.kind : error_call → ErrorKind
  | .bad_elem_size _ _ _ => .BadElementSize
  | .constraint_violated _ _ _ => .ConstraintViolated
  | .buffer_allocation_too_large _ _ _ => .BufferAllocationTooLarge
  | .buffer_extents_too_large _ _ _ => .BufferExtentsTooLarge
  | .access_out_of_bounds _ _ _ _ _ _ => .AccessOutOfBounds

/-- The code the specification's interface gives to an error kind. -/
def ErrorKind.code : ErrorKind → Int
  | .BadElementSize => -3
  | .AccessOutOfBounds => -4
  | .BufferAllocationTooLarge => -5
  | .BufferExtentsTooLarge => -6
  | .ConstraintViolated => -8

/-- Two descriptors agree on allocation status, `min`, `extent`, `stride` and
`elem_size`. -/
def same_shape (b b' : buffer_t) : Prop :=
  host_and_dev_are_null b = host_and_dev_are_null b' ∧
  b.min_0 = b'.min_0 ∧ b.min_1 = b'.min_1 ∧ b.min_2 = b'.min_2 ∧ b.min_3 = b'.min_3 ∧
  b.extent_0 = b'.extent_0 ∧ b.extent_1 = b'.extent_1 ∧ b.extent_2 = b'.extent_2 ∧
  b.extent_3 = b'.extent_3 ∧
  b.stride_0 = b'.stride_0 ∧ b.stride_1 = b'.stride_1 ∧ b.stride_2 = b'.stride_2 ∧
  b.stride_3 = b'.stride_3 ∧
  b.elem_size = b'.elem_size

instance (b b' : buffer_t) : Decidable (same_shape b b') := by
  unfold same_shape; infer_instance

/-- The descriptor `b` once the caller has given it storage, the host pointer `host` and
the device handle `dev`, and the element size `elem_size`; `min`, `extent` and `stride`
are kept. -/
def buffer_t.with_storage (b : buffer_t) (host dev : Nat) (elem_size : Int) : buffer_t :=
  { b with host := host, dev := dev, elem_size := elem_size }

/-! ## Exact arithmetic

The statements on the values of the matrix and of the curve take the arithmetic of the
source exactly: the `float` values are rational numbers, the constants have the values
of their bit patterns, and no operation rounds. -/

/-- The value of the `float` whose bit pattern is `bits`, which `float_from_bits`
(lines 32-42) returns: one sign bit, eight bits of biased exponent, 23 bits of fraction
(IEEE 754 binary32; the patterns of infinities and NaN are not told apart). -/
def binary32_value (bits : Int) : ℚ :=
  let sign := bits / 2147483648 % 2
  let exponent := bits / 8388608 % 256
  let fraction := bits % 8388608
  let magnitude : ℚ :=
    if exponent = 0 then (fraction : ℚ) * 2 ^ (-149 : Int)
    else ((8388608 + fraction : Int) : ℚ) * 2 ^ (exponent - 150)
  if sign = 1 then -magnitude else magnitude

/-- The conversion of a `float` to an integer type, `(int16_t)(x)` or `(uint8_t)(x)`,
before the reduction to the type: the fraction is discarded. -/
def truncate (x : ℚ) : Int := if 0 ≤ x then ⌊x⌋ else -⌊-x⌋

/-- The operations of `fl` are the exact ones on rational numbers.  Of `powf` only two
facts are kept, `powf(x, 1) = x` and `powf(x, 0) = 1`. -/
structure float_ops.exact (fl : float_ops ℚ) : Prop where
  float_from_bits : ∀ bits : Int, fl.float_from_bits bits = binary32_value bits
  add : ∀ x y : ℚ, fl.add x y = x + y
  sub : ∀ x y : ℚ, fl.sub x y = x - y
  mul : ∀ x y : ℚ, fl.mul x y = x * y
  div : ∀ x y : ℚ, y ≠ 0 → fl.div x y = x / y
  lt : ∀ x y : ℚ, fl.lt x y = decide (x < y)
  pow_one : ∀ x : ℚ, fl.pow_f32 x 1 = x
  pow_zero : ∀ x : ℚ, fl.pow_f32 x 0 = 1
  of_int32 : ∀ n : Int, fl.of_int32 n = (n : ℚ)
  to_int16 : ∀ x : ℚ, fl.to_int16 x = truncate x
  to_uint8 : ∀ x : ℚ, fl.to_uint8 x = truncate x

/-- The blend weight as the specification words it, `a = 1/color_temp * 5894.74 -
1.84211`, the two constants being the `float` constants of the source. -/
def spec_blend_weight (color_temp : ℚ) : ℚ :=
  1 / color_temp * binary32_value 1169700325 - binary32_value 1072417307

/-- The matrix entry as the specification words it,
`256 * (m3200[y][v] * a + m7000[y][v] * (1 - a))` for the blend weight `a`, before the
conversion to `int16_t`. -/
def spec_matrix_value (a m3200 m7000 : ℚ) : ℚ := 256 * (m3200 * a + m7000 * (1 - a))

/-- The tone curve between the black and the white level as the specification words it
for gamma 1 and contrast 0: `floor(255 * (v - blackLevel) / (whiteLevel - blackLevel) +
1/2)`. -/
def spec_linear_curve (blackLevel whiteLevel v : Int) : Int :=
  ⌊255 * ((v : ℚ) - blackLevel) / ((whiteLevel : ℚ) - blackLevel) + 1 / 2⌋

/-! ## Descriptors used as examples -/

/-- An allocated output image of 3 columns, one row and three channels whose channel
stride is 2147483647. -/
def example_out_far_channels : buffer_t :=
  { dev := 0, host := 4096, extent_0 := 3, extent_1 := 1, extent_2 := 3, extent_3 := 0,
    stride_0 := 1, stride_1 := 3, stride_2 := 2147483647, stride_3 := 0,
    min_0 := 0, min_1 := 0, min_2 := 0, min_3 := 0, elem_size := 1 }

/-- An allocated input image of 5 columns and 3 rows: the 3x1 output and a margin of 2. -/
def example_inp_5x3 : buffer_t :=
  { dev := 0, host := 8192, extent_0 := 5, extent_1 := 3, extent_2 := 0, extent_3 := 0,
    stride_0 := 1, stride_1 := 5, stride_2 := 0, stride_3 := 0,
    min_0 := 0, min_1 := 0, min_2 := 0, min_3 := 0, elem_size := 2 }

/-- An allocated 4x4 output image with three channels, strides (1, 4, 16). -/
def example_out_4x4 : buffer_t :=
  { dev := 0, host := 4096, extent_0 := 4, extent_1 := 4, extent_2 := 3, extent_3 := 0,
    stride_0 := 1, stride_1 := 4, stride_2 := 16, stride_3 := 0,
    min_0 := 0, min_1 := 0, min_2 := 0, min_3 := 0, elem_size := 1 }

/-- An allocated 6x6 input image, strides (1, 6): the 4x4 output and a margin of 2. -/
def example_inp_6x6 : buffer_t :=
  { dev := 0, host := 8192, extent_0 := 6, extent_1 := 6, extent_2 := 0, extent_3 := 0,
    stride_0 := 1, stride_1 := 6, stride_2 := 0, stride_3 := 0,
    min_0 := 0, min_1 := 0, min_2 := 0, min_3 := 0, elem_size := 2 }

/-- An allocated 3x5 input image: too narrow for the 4x4 output. -/
def example_inp_3x5 : buffer_t :=
  { dev := 0, host := 8192, extent_0 := 3, extent_1 := 5, extent_2 := 0, extent_3 := 0,
    stride_0 := 1, stride_1 := 3, stride_2 := 0, stride_3 := 0,
    min_0 := 0, min_1 := 0, min_2 := 0, min_3 := 0, elem_size := 2 }

/-- An allocated output image of 2147483574 columns (106 times 20259279) and one row,
whose first column is column 74. -/
def example_out_wide : buffer_t :=
  { dev := 0, host := 4096, extent_0 := 2147483574, extent_1 := 1, extent_2 := 3,
    extent_3 := 0, stride_0 := 1, stride_1 := 2147483574, stride_2 := 0, stride_3 := 0,
    min_0 := 74, min_1 := 0, min_2 := 0, min_3 := 0, elem_size := 1 }

/-- An allocated input image of one column and 3 rows. -/
def example_inp_narrow : buffer_t :=
  { dev := 0, host := 8192, extent_0 := 1, extent_1 := 3, extent_2 := 0, extent_3 := 0,
    stride_0 := 1, stride_1 := 1, stride_2 := 0, stride_3 := 0,
    min_0 := 0, min_1 := 0, min_2 := 0, min_3 := 0, elem_size := 2 }

/-- An allocated output descriptor of 2147483574 columns whose extent on axis 1 is -1. -/
def example_out_wide_flat : buffer_t :=
  { dev := 0, host := 4096, extent_0 := 2147483574, extent_1 := -1, extent_2 := 3,
    extent_3 := 0, stride_0 := 1, stride_1 := 2147483574, stride_2 := 0, stride_3 := 0,
    min_0 := 0, min_1 := 0, min_2 := 0, min_3 := 0, elem_size := 1 }

/-- An allocated input image of 2147483576 columns and one row. -/
def example_inp_wide_flat : buffer_t :=
  { dev := 0, host := 8192, extent_0 := 2147483576, extent_1 := 1, extent_2 := 0,
    extent_3 := 0, stride_0 := 1, stride_1 := 2147483576, stride_2 := 0, stride_3 := 0,
    min_0 := 0, min_1 := 0, min_2 := 0, min_3 := 0, elem_size := 2 }

/-- An allocated output image of 212 columns (two full tiles) and 110 rows (one). -/
def example_out_212x110 : buffer_t :=
  { dev := 0, host := 4096, extent_0 := 212, extent_1 := 110, extent_2 := 3,
    extent_3 := 0, stride_0 := 1, stride_1 := 212, stride_2 := 23320, stride_3 := 0,
    min_0 := 0, min_1 := 0, min_2 := 0, min_3 := 0, elem_size := 1 }

/-- An allocated output image of 107 columns and one row: two tile columns. -/
def example_out_107x1 : buffer_t :=
  { dev := 0, host := 4096, extent_0 := 107, extent_1 := 1, extent_2 := 3, extent_3 := 0,
    stride_0 := 1, stride_1 := 107, stride_2 := 107, stride_3 := 0,
    min_0 := 0, min_1 := 0, min_2 := 0, min_3 := 0, elem_size := 1 }

/-- An allocated input image of 109 columns and 3 rows: the 107x1 output and a margin
of 2, the least the bounds checks accept. -/
def example_inp_109x3 : buffer_t :=
  { dev := 0, host := 8192, extent_0 := 109, extent_1 := 3, extent_2 := 0, extent_3 := 0,
    stride_0 := 1, stride_1 := 109, stride_2 := 0, stride_3 := 0,
    min_0 := 0, min_1 := 0, min_2 := 0, min_3 := 0, elem_size := 2 }

/-- An allocated output image of one pixel. -/
def example_out_1x1 : buffer_t :=
  { dev := 0, host := 4096, extent_0 := 1, extent_1 := 1, extent_2 := 3, extent_3 := 0,
    stride_0 := 1, stride_1 := 1, stride_2 := 1, stride_3 := 0,
    min_0 := 0, min_1 := 0, min_2 := 0, min_3 := 0, elem_size := 1 }

/-- An allocated input image of 129 columns and 3 rows: wider than a tile. -/
def example_inp_129x3 : buffer_t :=
  { dev := 0, host := 8192, extent_0 := 129, extent_1 := 3, extent_2 := 0, extent_3 := 0,
    stride_0 := 1, stride_1 := 129, stride_2 := 0, stride_3 := 0,
    min_0 := 0, min_1 := 0, min_2 := 0, min_3 := 0, elem_size := 2 }

/-- An allocated 3x5 input image with a wrong element size: too narrow for the 4x4
output as well. -/
def example_inp_wrong_size : buffer_t :=
  { dev := 0, host := 8192, extent_0 := 3, extent_1 := 5, extent_2 := 0, extent_3 := 0,
    stride_0 := 1, stride_1 := 3, stride_2 := 0, stride_3 := 0,
    min_0 := 0, min_1 := 0, min_2 := 0, min_3 := 0, elem_size := 4 }

/-- An allocated 32768x32768 input image of 16-bit elements, strides (1, 32768). -/
def example_inp_32768 : buffer_t :=
  { dev := 0, host := 8192, extent_0 := 32768, extent_1 := 32768, extent_2 := 0,
    extent_3 := 0, stride_0 := 1, stride_1 := 32768, stride_2 := 0, stride_3 := 0,
    min_0 := 0, min_1 := 0, min_2 := 0, min_3 := 0, elem_size := 2 }

/-- An unallocated 4x4 output descriptor with three channels, as a sizing request. -/
def example_out_unallocated : buffer_t :=
  { dev := 0, host := 0, extent_0 := 4, extent_1 := 4, extent_2 := 3, extent_3 := 0,
    stride_0 := 1, stride_1 := 4, stride_2 := 16, stride_3 := 0,
    min_0 := 0, min_1 := 0, min_2 := 0, min_3 := 0, elem_size := 1 }

/-- The 6x6 input image at another host address. -/
def example_inp_6x6_moved : buffer_t := { example_inp_6x6 with host := 12288 }

/-- A reference matrix descriptor: 4 columns and 3 rows of `float`. -/
def example_matrix_buffer : buffer_t :=
  { dev := 0, host := 16384, extent_0 := 4, extent_1 := 3, extent_2 := 0, extent_3 := 0,
    stride_0 := 1, stride_1 := 4, stride_2 := 0, stride_3 := 0,
    min_0 := 0, min_1 := 0, min_2 := 0, min_3 := 0, elem_size := 4 }

/-- A stand-in for the `float` operations, on the integers, used where the values of
the operations play no part. -/
def example_float_ops : float_ops Int :=
  { float_from_bits := fun bits => bits, add := fun x y => x + y, sub := fun x y => x - y,
    mul := fun x y => x * y, div := fun x y => x / y, lt := fun x y => decide (x < y),
    pow_f32 := fun x _ => x, of_int32 := fun x => x, to_int16 := fun x => x,
    to_uint8 := fun x => x }

/-- An environment in which every OpenCL call succeeds and the accelerator gives back
zeroes. -/
def example_environment : environment Int Int :=
  { var_input_buf := fun _ => 0, var_matrix := fun _ => 0, var_curve := fun _ => 0,
    setup_succeeds := true, write_matrix_err := 0, write_curve_err := 0,
    write_input_err := 0, set_kernel_arg_err := 0, enqueue_task_err := 0,
    read_buffer_err := 0, kernel := fun _ _ _ _ _ _ _ _ _ _ => 0 }

/-- An environment in which the setup of the device fails. -/
def example_environment_down : environment Int Int :=
  { example_environment with setup_succeeds := false }

/-- Arguments of a call with the given input and output descriptors: colour temperature
3200, gamma 1, contrast 0, black level 0, white level 1023, as in the example of the
specification, an input image of zeroes. -/
def example_arguments (inp out : buffer_t) : arguments Int Int Int :=
  { var_color_temp := 3200, var_gamma := 1, var_contrast := 0,
    var_blackLevel := 0, var_whiteLevel := 1023,
    var_input_buffer := inp, var_m3200_buffer := example_matrix_buffer,
    var_m7000_buffer := example_matrix_buffer, var_processed_buffer := out,
    var_input := fun _ => 0, var_m3200 := fun _ => 0, var_m7000 := fun _ => 0,
    var_processed := fun _ => 7 }

/-- Other arguments with the given descriptors: other scalars, other matrices, other
pixels. -/
def example_arguments_other (inp out : buffer_t) : arguments Int Int Int :=
  { var_color_temp := 7000, var_gamma := 2, var_contrast := 50,
    var_blackLevel := 25, var_whiteLevel := 900,
    var_input_buffer := inp, var_m3200_buffer := example_inp_6x6,
    var_m7000_buffer := example_matrix_buffer, var_processed_buffer := out,
    var_input := fun o => o, var_m3200 := fun o => o, var_m7000 := fun _ => 1,
    var_processed := fun _ => 9 }

/-- An allocated 200x200 input image, strides (1, 200). -/
def example_inp_200x200 : buffer_t :=
  { dev := 0, host := 8192, extent_0 := 200, extent_1 := 200, extent_2 := 0, extent_3 := 0,
    stride_0 := 1, stride_1 := 200, stride_2 := 0, stride_3 := 0,
    min_0 := 0, min_1 := 0, min_2 := 0, min_3 := 0, elem_size := 2 }

/-- An unallocated input descriptor, all fields 0 but the element size. -/
def example_inp_unallocated : buffer_t :=
  { dev := 0, host := 0, extent_0 := 0, extent_1 := 0, extent_2 := 0, extent_3 := 0,
    stride_0 := 0, stride_1 := 0, stride_2 := 0, stride_3 := 0,
    min_0 := 0, min_1 := 0, min_2 := 0, min_3 := 0, elem_size := 2 }

/-- An unallocated output descriptor asking for 2147483647 columns and one row. -/
def example_out_full_width : buffer_t :=
  { dev := 0, host := 0, extent_0 := 2147483647, extent_1 := 1, extent_2 := 0,
    extent_3 := 0, stride_0 := 1, stride_1 := 2147483647, stride_2 := 0, stride_3 := 0,
    min_0 := 0, min_1 := 0, min_2 := 0, min_3 := 0, elem_size := 1 }

/-- An unallocated output descriptor asking for the region of 50000x50000 pixels that
starts at column -7 and row 12. -/
def example_out_50000 : buffer_t :=
  { dev := 0, host := 0, extent_0 := 50000, extent_1 := 50000, extent_2 := 0,
    extent_3 := 0, stride_0 := 0, stride_1 := 0, stride_2 := 0, stride_3 := 0,
    min_0 := -7, min_1 := 12, min_2 := 0, min_3 := 0, elem_size := 0 }

/-- An environment in which the write of the colour matrix to the device fails with
`CL_OUT_OF_RESOURCES` (-5) and every other OpenCL call succeeds. -/
def example_environment_matrix_write_fails : environment Int Int :=
  { example_environment with write_matrix_err := -5 }

/-- An environment in which the write of the tone curve to the device fails with
`CL_OUT_OF_RESOURCES` (-5) and every other OpenCL call succeeds. -/
def example_environment_curve_write_fails : environment Int Int :=
  { example_environment with write_curve_err := -5 }

/-- An environment in which the write of the tiled input to the device fails with
`CL_OUT_OF_RESOURCES` (-5) and every other OpenCL call succeeds. -/
def example_environment_input_write_fails : environment Int Int :=
  { example_environment with write_input_err := -5 }

/-- An allocated 23000x23000 output image with three channels. -/
def example_out_23000 : buffer_t :=
  { dev := 0, host := 4096, extent_0 := 23000, extent_1 := 23000, extent_2 := 3,
    extent_3 := 0, stride_0 := 1, stride_1 := 23000, stride_2 := 529000000, stride_3 := 0,
    min_0 := 0, min_1 := 0, min_2 := 0, min_3 := 0, elem_size := 1 }

/-- An allocated 23002x23002 input image: the 23000x23000 output and a margin of 2. -/
def example_inp_23002 : buffer_t :=
  { dev := 0, host := 8192, extent_0 := 23002, extent_1 := 23002, extent_2 := 0,
    extent_3 := 0, stride_0 := 1, stride_1 := 23002, stride_2 := 0, stride_3 := 0,
    min_0 := 0, min_1 := 0, min_2 := 0, min_3 := 0, elem_size := 2 }

/-- An allocated output image of one column and 28835841 rows (110 times 262144, and
one more). -/
def example_out_tall : buffer_t :=
  { dev := 0, host := 4096, extent_0 := 1, extent_1 := 28835841, extent_2 := 3,
    extent_3 := 0, stride_0 := 1, stride_1 := 1, stride_2 := 28835841, stride_3 := 0,
    min_0 := 0, min_1 := 0, min_2 := 0, min_3 := 0, elem_size := 1 }

/-- An allocated input image of 23 columns and 28835859 rows: the one-column output of
28835841 rows and the halo of 22 columns and 18 rows. -/
def example_inp_tall : buffer_t :=
  { dev := 0, host := 8192, extent_0 := 23, extent_1 := 28835859, extent_2 := 0,
    extent_3 := 0, stride_0 := 1, stride_1 := 23, stride_2 := 0, stride_3 := 0,
    min_0 := 0, min_1 := 0, min_2 := 0, min_3 := 0, elem_size := 2 }

/-- An allocated 26x22 input image: the 4x4 output and the halo of 22 columns and 18
rows. -/
def example_inp_26x22 : buffer_t :=
  { dev := 0, host := 8192, extent_0 := 26, extent_1 := 22, extent_2 := 0, extent_3 := 0,
    stride_0 := 1, stride_1 := 26, stride_2 := 0, stride_3 := 0,
    min_0 := 0, min_1 := 0, min_2 := 0, min_3 := 0, elem_size := 2 }

/-- Exact operations on rational numbers.  A power whose exponent is an integer is the
exact one; other powers are not rational in general and are given the value 0: they
play no part where these operations are used. -/
def example_exact_float_ops : float_ops ℚ :=
  { float_from_bits := binary32_value, add := fun x y => x + y, sub := fun x y => x - y,
    mul := fun x y => x * y, div := fun x y => x / y, lt := fun x y => decide (x < y),
    pow_f32 := fun x y => if y.den = 1 then x ^ y.num else 0,
    of_int32 := fun n => (n : ℚ), to_int16 := truncate, to_uint8 := truncate }

/-- An allocated output image of 9120134 columns and one row: 86039 tile columns. -/
def example_out_long : buffer_t :=
  { dev := 0, host := 4096, extent_0 := 9120134, extent_1 := 1, extent_2 := 3,
    extent_3 := 0, stride_0 := 1, stride_1 := 9120134, stride_2 := 9120134, stride_3 := 0,
    min_0 := 0, min_1 := 0, min_2 := 0, min_3 := 0, elem_size := 1 }

/-- An allocated input image of 9120136 columns and 3 rows: the output of 9120134
columns and one row and a margin of 2. -/
def example_inp_long : buffer_t :=
  { dev := 0, host := 8192, extent_0 := 9120136, extent_1 := 3, extent_2 := 0,
    extent_3 := 0, stride_0 := 1, stride_1 := 9120136, stride_2 := 0, stride_3 := 0,
    min_0 := 0, min_1 := 0, min_2 := 0, min_3 := 0, elem_size := 2 }

/-- An allocated 4x4 output image whose rows are 1073741824 elements apart. -/
def example_out_far_rows : buffer_t :=
  { dev := 0, host := 4096, extent_0 := 4, extent_1 := 4, extent_2 := 3, extent_3 := 0,
    stride_0 := 1, stride_1 := 1073741824, stride_2 := 0, stride_3 := 0,
    min_0 := 0, min_1 := 0, min_2 := 0, min_3 := 0, elem_size := 1 }

/-! ## Theorems -/

theorem wrap32_of_isInt32 {x : Int} (h : isInt32 x) : wrap32 x = x := by
  unfold isInt32 at h; unfold wrap32; omega

/-! ### The order of the checks -/

/-- C3: the checks of `curved_wrapped` report the first failing check in the order
element sizes, bounds, fast-axis strides, size limits; the result is -3 exactly when an
element size is wrong, -4 exactly when the element sizes are right and a bounds check
fails, -8 exactly when element sizes and bounds are right and a fast-axis stride is not
1, a size-limit code only when the six earlier checks pass, and the checks are passed
exactly when none of the twelve fails. -/
theorem checks_precedence (inp out : buffer_t) :
    curved_wrapped_checks inp out = first_failing (checks_in_order inp out) ∧
    (curved_wrapped_validation inp out = none ↔
      ∀ c ∈ checks_in_order inp out, c.1 = true) ∧
    (curved_wrapped_validation inp out = some (-3) ↔
      (out.elem_size ≠ 1 ∨ inp.elem_size ≠ 2)) ∧
    (curved_wrapped_validation inp out = some (-4) ↔
      (out.elem_size = 1 ∧ inp.elem_size = 2 ∧
        (assign_15 inp out = false ∨ assign_26 inp out = false))) ∧
    (curved_wrapped_validation inp out = some (-8) ↔
      (out.elem_size = 1 ∧ inp.elem_size = 2 ∧
        assign_15 inp out = true ∧ assign_26 inp out = true ∧
        (out.stride_0 ≠ 1 ∨ inp.stride_0 ≠ 1))) ∧
    ((curved_wrapped_validation inp out = some (-5) ∨
        curved_wrapped_validation inp out = some (-6)) →
      (out.elem_size = 1 ∧ inp.elem_size = 2 ∧
        assign_15 inp out = true ∧ assign_26 inp out = true ∧
        out.stride_0 = 1 ∧ inp.stride_0 = 1)) := by
  have e6 : out.elem_size = 1 ↔ assign_6 out = true := by simp [assign_6]
  have e8 : inp.elem_size = 2 ↔ assign_8 inp = true := by simp [assign_8]
  have e32 : out.stride_0 = 1 ↔ assign_32 out = true := by simp [assign_32]
  have e34 : inp.stride_0 = 1 ↔ assign_34 inp = true := by simp [assign_34]
  simp only [ne_eq, e6, e8, e32, e34, curved_wrapped_validation, curved_wrapped_checks,
    checks_in_order]
  cases assign_6 out
  · simp [first_failing, error_call.returned, halide_error_bad_elem_size,
      halide_error_code_bad_elem_size]
  cases assign_8 inp
  · simp [first_failing, error_call.returned, halide_error_bad_elem_size,
      halide_error_code_bad_elem_size]
  cases assign_15 inp out
  · simp [first_failing, error_call.returned, halide_error_access_out_of_bounds,
      halide_error_code_access_out_of_bounds]
  cases assign_26 inp out
  · simp [first_failing, error_call.returned, halide_error_access_out_of_bounds,
      halide_error_code_access_out_of_bounds]
  cases assign_32 out
  · simp [first_failing, error_call.returned, halide_error_constraint_violated,
      halide_error_code_constraint_violated]
  cases assign_34 inp
  · simp [first_failing, error_call.returned, halide_error_constraint_violated,
      halide_error_code_constraint_violated]
  cases assign_43 out
  · simp [first_failing, error_call.returned, halide_error_buffer_allocation_too_large,
      halide_error_code_buffer_allocation_too_large]
  cases assign_51 out
  · simp [first_failing, error_call.returned, halide_error_buffer_allocation_too_large,
      halide_error_code_buffer_allocation_too_large]
  cases assign_58 out
  · simp [first_failing, error_call.returned, halide_error_buffer_extents_too_large,
      halide_error_code_buffer_extents_too_large]
  cases assign_63 inp
  · simp [first_failing, error_call.returned, halide_error_buffer_allocation_too_large,
      halide_error_code_buffer_allocation_too_large]
  cases assign_71 inp
  · simp [first_failing, error_call.returned, halide_error_buffer_allocation_too_large,
      halide_error_code_buffer_allocation_too_large]
  cases assign_78 inp
  · simp [first_failing, error_call.returned, halide_error_buffer_extents_too_large,
      halide_error_code_buffer_extents_too_large]
  simp [first_failing]

/-- C3 (witness): an input with a wrong element size that is out of bounds as well is
reported for its element size. -/
theorem checks_precedence_witness :
    assign_15 example_inp_wrong_size example_out_4x4 = false ∧
    curved_wrapped_validation example_inp_wrong_size example_out_4x4 = some (-3) :=
  ⟨by decide,
   (checks_precedence example_inp_wrong_size example_out_4x4).2.2.1.2 (Or.inr (by decide))⟩

/-! ### The bounds checks -/

theorem assign_15_iff (inp out : buffer_t) (h : bounds_exact_0 inp out) :
    assign_15 inp out = true ↔
      (inp.min_0 ≤ out.min_0 ∧ out.min_0 + out.extent_0 + 1 ≤ inp.min_0 + inp.extent_0 - 1) := by
  obtain ⟨h1, h2, h3, -, -, -⟩ := h
  simp only [assign_15, assign_10, assign_14, assign_13, assign_12, assign_11,
    Bool.and_eq_true, decide_eq_true_eq]
  rw [wrap32_of_isInt32 h1, wrap32_of_isInt32 h2, wrap32_of_isInt32 h3]
  constructor <;> intro ⟨a, b⟩ <;> exact ⟨a, by omega⟩

theorem assign_26_iff (inp out : buffer_t) (h : bounds_exact_1 inp out) :
    assign_26 inp out = true ↔
      (inp.min_1 ≤ out.min_1 ∧ out.min_1 + out.extent_1 + 1 ≤ inp.min_1 + inp.extent_1 - 1) := by
  obtain ⟨h1, h2, h3, -, -, -⟩ := h
  simp only [assign_26, assign_21, assign_25, assign_24, assign_23, assign_22,
    Bool.and_eq_true, decide_eq_true_eq]
  rw [wrap32_of_isInt32 h1, wrap32_of_isInt32 h2, wrap32_of_isInt32 h3]
  constructor <;> intro ⟨a, b⟩ <;> exact ⟨a, by omega⟩

theorem reported_range_0 (inp out : buffer_t) (h : bounds_exact_0 inp out) :
    assign_17 out = out.min_0 + out.extent_0 + 1 ∧
    assign_19 inp = inp.min_0 + inp.extent_0 - 1 := by
  obtain ⟨h1, -, -, h4, h5, h6⟩ := h
  simp only [assign_17, assign_16, assign_19, assign_18]
  rw [wrap32_of_isInt32 h1, wrap32_of_isInt32 h4, wrap32_of_isInt32 h5]
  exact ⟨rfl, wrap32_of_isInt32 h6⟩

theorem reported_range_1 (inp out : buffer_t) (h : bounds_exact_1 inp out) :
    assign_28 out = out.min_1 + out.extent_1 + 1 ∧
    assign_30 inp = inp.min_1 + inp.extent_1 - 1 := by
  obtain ⟨h1, -, -, h4, h5, h6⟩ := h
  simp only [assign_28, assign_27, assign_30, assign_29]
  rw [wrap32_of_isInt32 h1, wrap32_of_isInt32 h4, wrap32_of_isInt32 h5]
  exact ⟨rfl, wrap32_of_isInt32 h6⟩

/-- C10: with correct element sizes and the sums of the bounds checks taken without
32-bit wrap-around, the ranges the report of axis d is given are the touched range from
`out.min[d]` to `out.min[d] + out.extent[d] + 1` and the valid range from `inp.min[d]`
to `inp.min[d] + inp.extent[d] - 1`, and the check of axis d passes exactly when the
touched range lies within the valid range (lower end not below, upper end not above;
as sets of integers whenever the touched range is not empty); otherwise the call
reports an access out of bounds with exactly these ranges for the lowest failing axis
and returns -4. -/
theorem bounds_check_iff_contained (inp out : buffer_t)
    (hout : out.elem_size = 1) (hinp : inp.elem_size = 2)
    (h0 : bounds_exact_0 inp out) (h1 : bounds_exact_1 inp out) :
    (assign_17 out = out.min_0 + out.extent_0 + 1 ∧
      assign_19 inp = inp.min_0 + inp.extent_0 - 1 ∧
      assign_28 out = out.min_1 + out.extent_1 + 1 ∧
      assign_30 inp = inp.min_1 + inp.extent_1 - 1) ∧
    (assign_15 inp out = true ↔
      (inp.min_0 ≤ out.min_0 ∧
        out.min_0 + out.extent_0 + 1 ≤ inp.min_0 + inp.extent_0 - 1)) ∧
    (assign_26 inp out = true ↔
      (inp.min_1 ≤ out.min_1 ∧
        out.min_1 + out.extent_1 + 1 ≤ inp.min_1 + inp.extent_1 - 1)) ∧
    (-1 ≤ out.extent_0 → (assign_15 inp out = true ↔
      Set.Icc out.min_0 (out.min_0 + out.extent_0 + 1) ⊆
        Set.Icc inp.min_0 (inp.min_0 + inp.extent_0 - 1))) ∧
    (-1 ≤ out.extent_1 → (assign_26 inp out = true ↔
      Set.Icc out.min_1 (out.min_1 + out.extent_1 + 1) ⊆
        Set.Icc inp.min_1 (inp.min_1 + inp.extent_1 - 1))) ∧
    (assign_15 inp out = false →
      curved_wrapped_checks inp out = some (.access_out_of_bounds .p0 0
        out.min_0 (out.min_0 + out.extent_0 + 1) inp.min_0 (inp.min_0 + inp.extent_0 - 1))) ∧
    (assign_15 inp out = true → assign_26 inp out = false →
      curved_wrapped_checks inp out = some (.access_out_of_bounds .p0 1
        out.min_1 (out.min_1 + out.extent_1 + 1) inp.min_1 (inp.min_1 + inp.extent_1 - 1))) ∧
    ((assign_15 inp out = false ∨ assign_26 inp out = false) →
      curved_wrapped_validation inp out = some halide_error_code_access_out_of_bounds) ∧
    (assign_15 inp out = true → assign_26 inp out = true →
      curved_wrapped_validation inp out ≠ some halide_error_code_access_out_of_bounds) := by
  have e6 : assign_6 out = true := by simp [assign_6, hout]
  have e8 : assign_8 inp = true := by simp [assign_8, hinp]
  have r0 := reported_range_0 inp out h0
  have r1 := reported_range_1 inp out h1
  have i0 := assign_15_iff inp out h0
  have i1 := assign_26_iff inp out h1
  refine ⟨⟨r0.1, r0.2, r1.1, r1.2⟩, i0, i1, ?_, ?_, ?_, ?_, ?_, ?_⟩
  · intro hne
    rw [i0, Set.Icc_subset_Icc_iff (by omega)]
  · intro hne
    rw [i1, Set.Icc_subset_Icc_iff (by omega)]
  · intro hf
    simp [curved_wrapped_checks, e6, e8, hf, r0.1, r0.2]
  · intro ht hf
    simp [curved_wrapped_checks, e6, e8, ht, hf, r1.1, r1.2]
  · rintro (hf | hf)
    · simp [curved_wrapped_validation, curved_wrapped_checks, e6, e8, hf, error_call.returned,
        halide_error_access_out_of_bounds]
    · cases ht : assign_15 inp out <;>
        simp [curved_wrapped_validation, curved_wrapped_checks, e6, e8, hf, ht,
          error_call.returned, halide_error_access_out_of_bounds]
  · intro ht1 ht2
    simp only [curved_wrapped_validation, curved_wrapped_checks, e6, e8, ht1, ht2]
    cases assign_32 out
    · simp [error_call.returned, halide_error_constraint_violated,
        halide_error_code_constraint_violated, halide_error_code_access_out_of_bounds]
    cases assign_34 inp
    · simp [error_call.returned, halide_error_constraint_violated,
        halide_error_code_constraint_violated, halide_error_code_access_out_of_bounds]
    cases assign_43 out
    · simp [error_call.returned, halide_error_buffer_allocation_too_large,
        halide_error_code_buffer_allocation_too_large, halide_error_code_access_out_of_bounds]
    cases assign_51 out
    · simp [error_call.returned, halide_error_buffer_allocation_too_large,
        halide_error_code_buffer_allocation_too_large, halide_error_code_access_out_of_bounds]
    cases assign_58 out
    · simp [error_call.returned, halide_error_buffer_extents_too_large,
        halide_error_code_buffer_extents_too_large, halide_error_code_access_out_of_bounds]
    cases assign_63 inp
    · simp [error_call.returned, halide_error_buffer_allocation_too_large,
        halide_error_code_buffer_allocation_too_large, halide_error_code_access_out_of_bounds]
    cases assign_71 inp
    · simp [error_call.returned, halide_error_buffer_allocation_too_large,
        halide_error_code_buffer_allocation_too_large, halide_error_code_access_out_of_bounds]
    cases assign_78 inp
    · simp [error_call.returned, halide_error_buffer_extents_too_large,
        halide_error_code_buffer_extents_too_large, halide_error_code_access_out_of_bounds]
    simp

/-- C10 (witness): a 4x4 output inside a 6x6 input, where both checks pass. -/
theorem bounds_check_iff_contained_witness :
    (assign_15 example_inp_6x6 example_out_4x4 = true ↔
      (example_inp_6x6.min_0 ≤ example_out_4x4.min_0 ∧
        example_out_4x4.min_0 + example_out_4x4.extent_0 + 1 ≤
          example_inp_6x6.min_0 + example_inp_6x6.extent_0 - 1)) ∧
    (assign_15 example_inp_3x5 example_out_4x4 = false ∨
        assign_26 example_inp_3x5 example_out_4x4 = false) ∧
    curved_wrapped_validation example_inp_3x5 example_out_4x4 =
      some halide_error_code_access_out_of_bounds :=
  ⟨(bounds_check_iff_contained example_inp_6x6 example_out_4x4 rfl rfl
      (by decide) (by decide)).2.1,
   Or.inl (by decide),
   (bounds_check_iff_contained example_inp_3x5 example_out_4x4 rfl rfl
      (by decide) (by decide)).2.2.2.2.2.2.2.1 (Or.inl (by decide))⟩

/-! ### Tile counts -/

theorem step_dim0 : TILE_SIZE_DIM0 - STENCIL_DIM0 + 1 = 106 := by decide

theorem step_dim1 : TILE_SIZE_DIM1 - STENCIL_DIM1 + 1 = 110 := by decide

theorem tile_num_dim0_eq {E : Int} (h0 : 0 ≤ E) (h1 : E ≤ 2147483542) :
    tile_num_dim0 E = (E + 105) / 106 := by
  have h : wrap32 (wrap32 (E + TILE_SIZE_DIM0) - STENCIL_DIM0) = E + 105 := by
    simp only [wrap32, TILE_SIZE_DIM0, STENCIL_DIM0]; omega
  rw [tile_num_dim0, h, Int.tdiv_eq_ediv (by omega) (by decide)]
  rfl

theorem tile_num_dim1_eq {E : Int} (h0 : 0 ≤ E) (h1 : E ≤ 2147483538) :
    tile_num_dim1 E = (E + 109) / 110 := by
  have h : wrap32 (wrap32 (E + TILE_SIZE_DIM1) - STENCIL_DIM1) = E + 109 := by
    simp only [wrap32, TILE_SIZE_DIM1, STENCIL_DIM1]; omega
  rw [tile_num_dim1, h, Int.tdiv_eq_ediv (by omega) (by decide)]
  rfl

/-- C7 (counterexample): for an extent of 2 the tile count of axis 0 is 1, while the
least `n` with `n * 106 ≥ 2 + 128 - 23 = 107` is 2. -/
theorem tile_count_not_ceil_div_of_padded :
    ¬ is_ceil_div (2 + TILE_SIZE_DIM0 - STENCIL_DIM0) (TILE_SIZE_DIM0 - STENCIL_DIM0 + 1)
      (tile_num_dim0 2) := by
  intro h
  have h1 := h.1
  have e : tile_num_dim0 2 = 1 := by decide
  rw [e] at h1
  simp [TILE_SIZE_DIM0, STENCIL_DIM0] at h1

/-- C7 (amended): for an extent `E ≥ 0` with `E + TILE_SIZE - STENCIL` within `int32_t`,
the tile count is `E + TILE_SIZE - STENCIL` divided by `step` and rounded down, which is
`ceil_div (E, step)`: the least `n` with `n * step ≥ E`. -/
theorem tile_count_is_floor_of_padded (E : Int) (h0 : 0 ≤ E) :
    (E + TILE_SIZE_DIM0 - STENCIL_DIM0 ≤ 2147483647 →
      tile_num_dim0 E =
        (E + TILE_SIZE_DIM0 - STENCIL_DIM0) / (TILE_SIZE_DIM0 - STENCIL_DIM0 + 1) ∧
      is_ceil_div E (TILE_SIZE_DIM0 - STENCIL_DIM0 + 1) (tile_num_dim0 E)) ∧
    (E + TILE_SIZE_DIM1 - STENCIL_DIM1 ≤ 2147483647 →
      tile_num_dim1 E =
        (E + TILE_SIZE_DIM1 - STENCIL_DIM1) / (TILE_SIZE_DIM1 - STENCIL_DIM1 + 1) ∧
      is_ceil_div E (TILE_SIZE_DIM1 - STENCIL_DIM1 + 1) (tile_num_dim1 E)) := by
  constructor
  · intro h
    have hb : E ≤ 2147483542 := by simp only [TILE_SIZE_DIM0, STENCIL_DIM0] at h; omega
    rw [tile_num_dim0_eq h0 hb, step_dim0]
    refine ⟨?_, by omega, fun m hm => by omega⟩
    simp only [TILE_SIZE_DIM0, STENCIL_DIM0]; omega
  · intro h
    have hb : E ≤ 2147483538 := by simp only [TILE_SIZE_DIM1, STENCIL_DIM1] at h; omega
    rw [tile_num_dim1_eq h0 hb, step_dim1]
    refine ⟨?_, by omega, fun m hm => by omega⟩
    simp only [TILE_SIZE_DIM1, STENCIL_DIM1]; omega

/-- C7 (witness): the extent 2, one tile on each axis. -/
theorem tile_count_is_floor_of_padded_witness :
    (0 : Int) ≤ 2 ∧
    (tile_num_dim0 2 = (2 + TILE_SIZE_DIM0 - STENCIL_DIM0) / (TILE_SIZE_DIM0 - STENCIL_DIM0 + 1) ∧
      is_ceil_div 2 (TILE_SIZE_DIM0 - STENCIL_DIM0 + 1) (tile_num_dim0 2)) ∧
    (tile_num_dim1 2 = (2 + TILE_SIZE_DIM1 - STENCIL_DIM1) / (TILE_SIZE_DIM1 - STENCIL_DIM1 + 1) ∧
      is_ceil_div 2 (TILE_SIZE_DIM1 - STENCIL_DIM1 + 1) (tile_num_dim1 2)) :=
  ⟨by decide, (tile_count_is_floor_of_padded 2 (by decide)).1 (by decide),
   (tile_count_is_floor_of_padded 2 (by decide)).2 (by decide)⟩

/-- C8 (counterexample): for the extent 2147483574 the sum `E + 128` leaves `int32_t`
and the tile count of axis 0 comes out as -20259279: it is not the least `n` with
`n * 106 ≥ E`.  Descriptors with this output extent pass every check: with an extent
of -1 on the other axis, where no sum of the checks wraps, and with positive extents,
where the sum `out.min[0] + out.extent[0]` of the bounds check wraps. -/
theorem tile_count_wraps :
    example_out_wide_flat.wellTyped ∧ example_inp_wide_flat.wellTyped ∧
    bounds_exact_0 example_inp_wide_flat example_out_wide_flat ∧
    bounds_exact_1 example_inp_wide_flat example_out_wide_flat ∧
    curved_wrapped_checks example_inp_wide_flat example_out_wide_flat = none ∧
    example_out_wide.wellTyped ∧ example_inp_narrow.wellTyped ∧
    curved_wrapped_checks example_inp_narrow example_out_wide = none ∧
    0 ≤ example_out_wide.extent_0 ∧
    example_out_wide_flat.extent_0 = example_out_wide.extent_0 ∧
    tile_num_dim0 example_out_wide.extent_0 = -20259279 ∧
    ¬ is_ceil_div example_out_wide.extent_0 106 (tile_num_dim0 example_out_wide.extent_0) := by
  have e : tile_num_dim0 example_out_wide.extent_0 = -20259279 := by decide
  refine ⟨by decide, by decide, by decide, by decide, by decide, by decide, by decide,
    by decide, by decide, by decide, e, fun h => ?_⟩
  have h1 := h.1
  rw [e] at h1
  simp only [example_out_wide] at h1
  omega

/-- C8 (amended): for an output extent `E ≥ 0` with `E + TILE_SIZE - STENCIL` within
`int32_t` (`E ≤ 2147483542` on axis 0, `E ≤ 2147483538` on axis 1) the tile count is the
least `n` with `n * step ≥ E`; an image with `1 ≤ E0 ≤ 106` and `1 ≤ E1 ≤ 110` is a
single tile, and `E = 0` gives no tile. -/
theorem tile_count_least (E : Int) (h0 : 0 ≤ E) :
    (E ≤ 2147483542 → is_ceil_div E 106 (tile_num_dim0 E)) ∧
    (E ≤ 2147483538 → is_ceil_div E 110 (tile_num_dim1 E)) ∧
    (1 ≤ E → E ≤ 106 → tile_num_dim0 E = 1) ∧
    (1 ≤ E → E ≤ 110 → tile_num_dim1 E = 1) ∧
    tile_num_dim0 0 = 0 ∧ tile_num_dim1 0 = 0 := by
  refine ⟨fun h => ?_, fun h => ?_, fun a b => ?_, fun a b => ?_, by decide, by decide⟩
  · rw [tile_num_dim0_eq h0 h]
    exact ⟨by omega, fun m hm => by omega⟩
  · rw [tile_num_dim1_eq h0 h]
    exact ⟨by omega, fun m hm => by omega⟩
  · rw [tile_num_dim0_eq h0 (by omega)]; omega
  · rw [tile_num_dim1_eq h0 (by omega)]; omega

/-- C8 (witness): the extent 4 of the 4x4 example gives one tile on each axis, the
least count that covers 4 pixels. -/
theorem tile_count_least_witness :
    (0 : Int) ≤ 4 ∧ is_ceil_div 4 106 (tile_num_dim0 4) ∧ is_ceil_div 4 110 (tile_num_dim1 4) ∧
    tile_num_dim0 4 = 1 ∧ tile_num_dim1 4 = 1 :=
  ⟨by decide, (tile_count_least 4 (by decide)).1 (by decide),
   (tile_count_least 4 (by decide)).2.1 (by decide),
   (tile_count_least 4 (by decide)).2.2.1 (by decide) (by decide),
   (tile_count_least 4 (by decide)).2.2.2.1 (by decide) (by decide)⟩

/-! ### The tiles of the unpacking loop -/

theorem Unpack.size0_eq (out : buffer_t) (h0 : 0 < out.extent_0)
    (h1 : out.extent_0 ≤ 2147483542) (t : Int) (ht0 : 0 ≤ t)
    (ht : t < tile_num_dim0 out.extent_0) :
    Unpack.actual_tile_size_dim0 out t =
      if t < tile_num_dim0 out.extent_0 - 1 then 106 else out.extent_0 - 106 * t := by
  have hn := tile_num_dim0_eq (le_of_lt h0) h1
  simp only [Unpack.actual_tile_size_dim0, step_dim0]
  rw [hn] at ht ⊢
  simp only [wrap32, wrapU32]
  split_ifs <;> omega

theorem Unpack.size1_eq (out : buffer_t) (h0 : 0 < out.extent_1)
    (h1 : out.extent_1 ≤ 2147483538) (t : Int) (ht0 : 0 ≤ t)
    (ht : t < tile_num_dim1 out.extent_1) :
    Unpack.actual_tile_size_dim1 out t =
      if t < tile_num_dim1 out.extent_1 - 1 then 110 else out.extent_1 - 110 * t := by
  have hn := tile_num_dim1_eq (le_of_lt h0) h1
  simp only [Unpack.actual_tile_size_dim1, step_dim1]
  rw [hn] at ht ⊢
  simp only [wrap32, wrapU32]
  split_ifs <;> omega

theorem Unpack.p_eq (t i : Int) (ht0 : 0 ≤ t) (hi0 : 0 ≤ i)
    (h : t * 106 + i ≤ 2147483647) : Unpack.p t i = t * 106 + i := by
  simp only [Unpack.p, step_dim0, wrap32, wrapU32]; omega

theorem Unpack.q_eq (t j : Int) (ht0 : 0 ≤ t) (hj0 : 0 ≤ j)
    (h : t * 110 + j ≤ 2147483647) : Unpack.q t j = t * 110 + j := by
  simp only [Unpack.q, step_dim1, wrap32, wrapU32]; omega

/-- C9 (counterexample): the extent 2147483574 is 106 times 20259279, but the sum
`E + 128` leaves `int32_t` and the tile count of axis 0 comes out as -20259279, not
`E / 106`.  Descriptors with this output extent pass every check (with an extent of -1
on the other axis without any wrap in the checks, with positive extents through the
wrap of `out.min[0] + out.extent[0]`). -/
theorem exact_multiple_wraps :
    curved_wrapped_checks example_inp_wide_flat example_out_wide_flat = none ∧
    curved_wrapped_checks example_inp_narrow example_out_wide = none ∧
    example_out_wide_flat.extent_0 = example_out_wide.extent_0 ∧
    0 < example_out_wide.extent_0 ∧
    example_out_wide.extent_0 % (TILE_SIZE_DIM0 - STENCIL_DIM0 + 1) = 0 ∧
    tile_num_dim0 example_out_wide.extent_0 ≠
      example_out_wide.extent_0 / (TILE_SIZE_DIM0 - STENCIL_DIM0 + 1) := by
  decide

/-- C9 (amended): for an output extent `E > 0` that is a multiple of `step`, with
`E + TILE_SIZE - STENCIL` within `int32_t`, the tile count is `E / step`, at least one,
and the size the last-tile branch computes for the trailing tile, `E - step * (n - 1)`,
is `step`, the size of a regular tile. -/
theorem exact_multiple_tiles (out : buffer_t) :
    (0 < out.extent_0 → out.extent_0 ≤ 2147483542 →
      out.extent_0 % (TILE_SIZE_DIM0 - STENCIL_DIM0 + 1) = 0 →
      tile_num_dim0 out.extent_0 = out.extent_0 / (TILE_SIZE_DIM0 - STENCIL_DIM0 + 1) ∧
      1 ≤ tile_num_dim0 out.extent_0 ∧
      wrap32 (out.extent_0 - wrap32 ((TILE_SIZE_DIM0 - STENCIL_DIM0 + 1) *
        wrap32 (tile_num_dim0 out.extent_0 - 1))) = TILE_SIZE_DIM0 - STENCIL_DIM0 + 1 ∧
      Unpack.actual_tile_size_dim0 out (tile_num_dim0 out.extent_0 - 1) =
        TILE_SIZE_DIM0 - STENCIL_DIM0 + 1) ∧
    (0 < out.extent_1 → out.extent_1 ≤ 2147483538 →
      out.extent_1 % (TILE_SIZE_DIM1 - STENCIL_DIM1 + 1) = 0 →
      tile_num_dim1 out.extent_1 = out.extent_1 / (TILE_SIZE_DIM1 - STENCIL_DIM1 + 1) ∧
      1 ≤ tile_num_dim1 out.extent_1 ∧
      wrap32 (out.extent_1 - wrap32 ((TILE_SIZE_DIM1 - STENCIL_DIM1 + 1) *
        wrap32 (tile_num_dim1 out.extent_1 - 1))) = TILE_SIZE_DIM1 - STENCIL_DIM1 + 1 ∧
      Unpack.actual_tile_size_dim1 out (tile_num_dim1 out.extent_1 - 1) =
        TILE_SIZE_DIM1 - STENCIL_DIM1 + 1) := by
  constructor
  · intro h0 h1 hm
    have hn := tile_num_dim0_eq (le_of_lt h0) h1
    have hs := Unpack.size0_eq out h0 h1 (tile_num_dim0 out.extent_0 - 1)
      (by rw [hn]; omega) (by omega)
    rw [hs]
    rw [step_dim0] at hm ⊢
    rw [hn]
    simp only [wrap32]
    refine ⟨by omega, by omega, by omega, ?_⟩
    split_ifs <;> omega
  · intro h0 h1 hm
    have hn := tile_num_dim1_eq (le_of_lt h0) h1
    have hs := Unpack.size1_eq out h0 h1 (tile_num_dim1 out.extent_1 - 1)
      (by rw [hn]; omega) (by omega)
    rw [hs]
    rw [step_dim1] at hm ⊢
    rw [hn]
    simp only [wrap32]
    refine ⟨by omega, by omega, by omega, ?_⟩
    split_ifs <;> omega

/-- C9 (witness): 212 columns are two tiles of 106, 110 rows are one tile of 110. -/
theorem exact_multiple_tiles_witness :
    tile_num_dim0 example_out_212x110.extent_0 = 212 / 106 ∧
    Unpack.actual_tile_size_dim0 example_out_212x110
      (tile_num_dim0 example_out_212x110.extent_0 - 1) = 106 ∧
    Unpack.actual_tile_size_dim1 example_out_212x110
      (tile_num_dim1 example_out_212x110.extent_1 - 1) = 110 :=
  ⟨((exact_multiple_tiles example_out_212x110).1 (by decide) (by decide) (by decide)).1,
   ((exact_multiple_tiles example_out_212x110).1 (by decide) (by decide) (by decide)).2.2.2,
   ((exact_multiple_tiles example_out_212x110).2 (by decide) (by decide) (by decide)).2.2.2⟩

theorem Unpack.iterates_coords (out : buffer_t)
    (h0 : 0 < out.extent_0) (h0b : out.extent_0 ≤ 2147483542)
    (h1 : 0 < out.extent_1) (h1b : out.extent_1 ≤ 2147483538)
    (ty tx j i : Int) (h : Unpack.iterates out ty tx j i) :
    Unpack.p tx i = tx * 106 + i ∧ Unpack.q ty j = ty * 110 + j ∧
    tx * 106 + i < out.extent_0 ∧ ty * 110 + j < out.extent_1 ∧ i < 106 ∧ j < 110 := by
  have hn0 := tile_num_dim0_eq (le_of_lt h0) h0b
  have hn1 := tile_num_dim1_eq (le_of_lt h1) h1b
  obtain ⟨a1, a2, a3, a4, a5, a6, a7, a8⟩ := h
  rw [Unpack.size1_eq out h1 h1b ty a1 a2] at a6
  rw [Unpack.size0_eq out h0 h0b tx a3 a4] at a8
  rw [hn0] at a4 a8
  rw [hn1] at a2 a6
  have b0 : tx * 106 + i < out.extent_0 ∧ i < 106 := by split_ifs at a8 <;> omega
  have b1 : ty * 110 + j < out.extent_1 ∧ j < 110 := by split_ifs at a6 <;> omega
  exact ⟨Unpack.p_eq tx i a3 a7 (by omega), Unpack.q_eq ty j a1 a5 (by omega),
    b0.1, b1.1, b0.2, b1.2⟩

theorem Unpack.iterates_of_pixel (out : buffer_t)
    (h0 : 0 < out.extent_0) (h0b : out.extent_0 ≤ 2147483542)
    (h1 : 0 < out.extent_1) (h1b : out.extent_1 ≤ 2147483538)
    (p q : Int) (hp0 : 0 ≤ p) (hp : p < out.extent_0) (hq0 : 0 ≤ q) (hq : q < out.extent_1) :
    Unpack.iterates out (q / 110) (p / 106) (q % 110) (p % 106) := by
  have hn0 := tile_num_dim0_eq (le_of_lt h0) h0b
  have hn1 := tile_num_dim1_eq (le_of_lt h1) h1b
  have c0 : 0 ≤ p / 106 := by omega
  have c1 : p / 106 < tile_num_dim0 out.extent_0 := by rw [hn0]; omega
  have d0 : 0 ≤ q / 110 := by omega
  have d1 : q / 110 < tile_num_dim1 out.extent_1 := by rw [hn1]; omega
  refine ⟨d0, d1, c0, c1, by omega, ?_, by omega, ?_⟩
  · rw [Unpack.size1_eq out h1 h1b _ d0 d1, hn1]; split_ifs <;> omega
  · rw [Unpack.size0_eq out h0 h0b _ c0 c1, hn0]; split_ifs <;> omega

/-- For output extents `E0, E1 > 0` with `E + TILE_SIZE - STENCIL` within `int32_t`
(`E0 ≤ 2147483542`, `E1 ≤ 2147483538`), the tiles of the unpacking loop partition the
image: the tile counts are `(E + TILE_SIZE - STENCIL) / step`, tile `t` has size `step`
for `t < n - 1` and `E - step * t` for `t = n - 1`, and its local coordinate `i` is the
pixel coordinate `t * step + i`; every pixel of the image is visited in exactly one
tile at exactly one local coordinate, and no visited coordinate lies outside the
image. -/
theorem tiles_partition_below_bound (out : buffer_t)
    (h0 : 0 < out.extent_0) (h0b : out.extent_0 ≤ 2147483542)
    (h1 : 0 < out.extent_1) (h1b : out.extent_1 ≤ 2147483538) :
    tile_num_dim0 out.extent_0 = (out.extent_0 + TILE_SIZE_DIM0 - STENCIL_DIM0) / 106 ∧
    tile_num_dim1 out.extent_1 = (out.extent_1 + TILE_SIZE_DIM1 - STENCIL_DIM1) / 110 ∧
    (∀ t, 0 ≤ t → t < tile_num_dim0 out.extent_0 →
      Unpack.actual_tile_size_dim0 out t =
        if t < tile_num_dim0 out.extent_0 - 1 then 106 else out.extent_0 - 106 * t) ∧
    (∀ t, 0 ≤ t → t < tile_num_dim1 out.extent_1 →
      Unpack.actual_tile_size_dim1 out t =
        if t < tile_num_dim1 out.extent_1 - 1 then 110 else out.extent_1 - 110 * t) ∧
    (∀ ty tx j i, Unpack.iterates out ty tx j i →
      Unpack.p tx i = tx * 106 + i ∧ Unpack.q ty j = ty * 110 + j ∧
      0 ≤ Unpack.p tx i ∧ Unpack.p tx i < out.extent_0 ∧
      0 ≤ Unpack.q ty j ∧ Unpack.q ty j < out.extent_1) ∧
    (∀ p q, 0 ≤ p → p < out.extent_0 → 0 ≤ q → q < out.extent_1 →
      ∃ ty tx j i, Unpack.iterates out ty tx j i ∧
        Unpack.p tx i = p ∧ Unpack.q ty j = q ∧
        ∀ ty' tx' j' i', Unpack.iterates out ty' tx' j' i' →
          Unpack.p tx' i' = p → Unpack.q ty' j' = q →
          ty' = ty ∧ tx' = tx ∧ j' = j ∧ i' = i) := by
  have hn0 := tile_num_dim0_eq (le_of_lt h0) h0b
  have hn1 := tile_num_dim1_eq (le_of_lt h1) h1b
  have key := Unpack.iterates_coords out h0 h0b h1 h1b
  refine ⟨?_, ?_, Unpack.size0_eq out h0 h0b, Unpack.size1_eq out h1 h1b, ?_, ?_⟩
  · rw [hn0]; simp only [TILE_SIZE_DIM0, STENCIL_DIM0]; omega
  · rw [hn1]; simp only [TILE_SIZE_DIM1, STENCIL_DIM1]; omega
  · intro ty tx j i h
    obtain ⟨e1, e2, e3, e4, -, -⟩ := key ty tx j i h
    obtain ⟨a1, -, a3, -, a5, -, a7, -⟩ := h
    rw [e1, e2]
    have := Int.mul_nonneg a3 (by decide : (0 : Int) ≤ 106)
    have := Int.mul_nonneg a1 (by decide : (0 : Int) ≤ 110)
    exact ⟨rfl, rfl, by omega, e3, by omega, e4⟩
  · intro p q hp0 hp hq0 hq
    have it := Unpack.iterates_of_pixel out h0 h0b h1 h1b p q hp0 hp hq0 hq
    refine ⟨q / 110, p / 106, q % 110, p % 106, it, ?_, ?_, ?_⟩
    · rw [(key _ _ _ _ it).1]; omega
    · rw [(key _ _ _ _ it).2.1]; omega
    · intro ty' tx' j' i' h' hp' hq'
      obtain ⟨e1, e2, -, -, f0, f1⟩ := key ty' tx' j' i' h'
      obtain ⟨a1, a2, a3, a4, a5, a6, a7, a8⟩ := h'
      rw [e1] at hp'
      rw [e2] at hq'
      refine ⟨by omega, by omega, by omega, by omega⟩

/-! ### Loops and lists of writes -/

theorem applyWrites_append {β : Type} (ws ws' : List (Int × β)) (m : Int → β) :
    applyWrites (ws ++ ws') m = applyWrites ws' (applyWrites ws m) := by
  simp [applyWrites, List.foldl_append]

theorem foldl_eq_applyWrites {β : Type} (l : List Nat)
    (body : Int → (Int → β) → (Int → β)) (f : Int → List (Int × β))
    (h : ∀ t m, body t m = applyWrites (f t) m) (m : Int → β) :
    l.foldl (fun (s : Int → β) (t : Nat) => body (t : Int) s) m =
      applyWrites (l.flatMap (fun (t : Nat) => f (t : Int))) m := by
  induction l generalizing m with
  | nil => rfl
  | cons a l ih =>
    rw [List.foldl_cons, ih, List.flatMap_cons, applyWrites_append, h]

theorem forLoop_eq_applyWrites {β : Type} (n : Int)
    (body : Int → (Int → β) → (Int → β)) (f : Int → List (Int × β))
    (h : ∀ t m, body t m = applyWrites (f t) m) (m : Int → β) :
    forLoop n body m = applyWrites (loopWrites n f) m :=
  foldl_eq_applyWrites _ body f h m

theorem mem_loopWrites {β : Type} (n : Int) (f : Int → List (Int × β)) (w : Int × β) :
    w ∈ loopWrites n f ↔ ∃ t : Int, 0 ≤ t ∧ t < n ∧ w ∈ f t := by
  simp only [loopWrites, List.mem_flatMap, List.mem_range]
  constructor
  · rintro ⟨t, ht, hw⟩
    exact ⟨t, by omega, by omega, hw⟩
  · rintro ⟨t, h0, h1, hw⟩
    refine ⟨t.toNat, by omega, ?_⟩
    rwa [Int.toNat_of_nonneg h0]

theorem applyWrites_of_mem {β : Type} (ws : List (Int × β)) (m : Int → β) (a : Int) (v : β)
    (hall : ∀ w ∈ ws, w.1 = a → w.2 = v) (hex : (∃ w ∈ ws, w.1 = a) ∨ m a = v) :
    applyWrites ws m a = v := by
  induction ws generalizing m with
  | nil =>
    rcases hex with ⟨w, hw, -⟩ | h
    · cases hw
    · exact h
  | cons w ws ih =>
    show applyWrites ws (Function.update m w.1 w.2) a = v
    apply ih _ (fun w' hw' => hall w' (List.mem_cons_of_mem _ hw'))
    by_cases hwa : w.1 = a
    · right
      rw [← hwa, Function.update_same]
      exact hall w (List.mem_cons_self _ _) hwa
    · rcases hex with ⟨w', hw', ha'⟩ | h
      · rcases List.mem_cons.1 hw' with rfl | h'
        · exact absurd ha' hwa
        · exact Or.inl ⟨w', h', ha'⟩
      · right
        rw [Function.update_noteq (Ne.symm hwa)]
        exact h

theorem applyWrites_of_not_mem {β : Type} (ws : List (Int × β)) (m : Int → β) (a : Int)
    (h : ∀ w ∈ ws, w.1 ≠ a) : applyWrites ws m a = m a :=
  applyWrites_of_mem ws m a (m a) (fun w hw ha => absurd ha (h w hw)) (Or.inr rfl)

theorem untiling_eq {β : Type} (out : buffer_t) (var_processed_buf var_processed : Int → β) :
    untiling out var_processed_buf var_processed =
      applyWrites (untilingWrites out var_processed_buf) var_processed := by
  unfold untiling untilingWrites
  apply forLoop_eq_applyWrites; intro ty m
  apply forLoop_eq_applyWrites; intro tx m
  apply forLoop_eq_applyWrites; intro k m
  apply forLoop_eq_applyWrites; intro j m
  apply forLoop_eq_applyWrites; intro i m
  rfl

theorem tiling_eq {α : Type} (inp out : buffer_t) (var_input var_input_buf : Int → α) :
    tiling inp out var_input var_input_buf =
      applyWrites (tilingWrites inp out var_input) var_input_buf := by
  unfold tiling tilingWrites
  apply forLoop_eq_applyWrites; intro ty m
  apply forLoop_eq_applyWrites; intro tx m
  apply forLoop_eq_applyWrites; intro j m
  apply forLoop_eq_applyWrites; intro i m
  rfl

theorem mem_untilingWrites {β : Type} (out : buffer_t) (buf : Int → β) (w : Int × β) :
    w ∈ untilingWrites out buf ↔
      ∃ ty tx k j i, Unpack.iterates out ty tx j i ∧ 0 ≤ k ∧ k < 3 ∧
        w = (Unpack.original_offset out (Unpack.p tx i) (Unpack.q ty j) k,
          buf (Unpack.tiled_offset (tile_num_dim0 out.extent_0) ty tx k j i)) := by
  simp only [untilingWrites, mem_loopWrites, List.mem_singleton, Unpack.iterates]
  constructor
  · rintro ⟨ty, a1, a2, tx, a3, a4, k, a5, a6, j, a7, a8, i, a9, a10, rfl⟩
    exact ⟨ty, tx, k, j, i, ⟨a1, a2, a3, a4, a7, a8, a9, a10⟩, a5, a6, rfl⟩
  · rintro ⟨ty, tx, k, j, i, ⟨a1, a2, a3, a4, a7, a8, a9, a10⟩, a5, a6, rfl⟩
    exact ⟨ty, a1, a2, tx, a3, a4, k, a5, a6, j, a7, a8, i, a9, a10, rfl⟩

theorem mem_tilingWrites {α : Type} (inp out : buffer_t) (img : Int → α) (w : Int × α) :
    w ∈ tilingWrites inp out img ↔
      ∃ ty tx j i, Pack.iterates inp out ty tx j i ∧
        w = (Pack.tiled_offset (tile_num_dim0 out.extent_0) ty tx j i,
          img (Pack.original_offset inp (Pack.p tx i) (Pack.q ty j))) := by
  simp only [tilingWrites, mem_loopWrites, List.mem_singleton, Pack.iterates]
  constructor
  · rintro ⟨ty, a1, a2, tx, a3, a4, j, a7, a8, i, a9, a10, rfl⟩
    exact ⟨ty, tx, j, i, ⟨a1, a2, a3, a4, a7, a8, a9, a10⟩, rfl⟩
  · rintro ⟨ty, tx, j, i, ⟨a1, a2, a3, a4, a7, a8, a9, a10⟩, rfl⟩
    exact ⟨ty, a1, a2, tx, a3, a4, j, a7, a8, i, a9, a10, rfl⟩

/-! ### Offsets of the unpacking loop -/

theorem wrap32_modEq (x : Int) : wrap32 x ≡ x [ZMOD 4294967296] := by
  unfold wrap32 Int.ModEq; omega

theorem wrapU32_modEq (x : Int) : wrapU32 x ≡ x [ZMOD 4294967296] := by
  unfold wrapU32 Int.ModEq; omega

theorem slot_size : TILE_SIZE_DIM1 * TILE_SIZE_DIM0 / 21 * 64 = 49920 := by decide

theorem Unpack.tiled_offset_eq (n0 ty tx k j i : Int) (hj0 : 0 ≤ j) (hj : j < 110)
    (hi0 : 0 ≤ i) (hi : i < 106) :
    Unpack.tiled_offset n0 ty tx k j i =
      ((ty * n0 + tx) * 49920 + (j * 128 + i) / 21 * 64 + (j * 128 + i) % 21 * 3 + k)
        % 4294967296 := by
  have hm : wrapU32 (wrapU32 (j * TILE_SIZE_DIM0) + i) = j * 128 + i := by
    simp only [wrapU32, TILE_SIZE_DIM0]; omega
  have hB : wrapU32 ((j * 128 + i) / 21 * 64) = (j * 128 + i) / 21 * 64 := by
    simp only [wrapU32]; omega
  have hC : wrapU32 ((j * 128 + i) % 21 * 3) = (j * 128 + i) % 21 * 3 := by
    simp only [wrapU32]; omega
  have hT : wrap32 (wrap32 (wrap32 (ty * n0) + tx) * 49920) ≡ (ty * n0 + tx) * 49920
      [ZMOD 4294967296] :=
    (wrap32_modEq _).trans
      (((wrap32_modEq _).trans ((wrap32_modEq _).add_right tx)).mul_right 49920)
  have h1 := (wrapU32_modEq _).trans (hT.add_right ((j * 128 + i) / 21 * 64))
  have h2 := (wrapU32_modEq _).trans (h1.add_right ((j * 128 + i) % 21 * 3))
  have h3 := h2.add_right k
  simp only [Unpack.tiled_offset, slot_size, hm, hB, hC]
  exact h3

theorem Unpack.original_offset_eq (out : buffer_t) (p q r : Int) :
    Unpack.original_offset out p q r =
      (p * out.stride_0 + q * out.stride_1 + r * out.stride_2) % 4294967296 := by
  simp only [Unpack.original_offset, wrapU32]
  generalize p * out.stride_0 = A
  generalize q * out.stride_1 = B
  generalize r * out.stride_2 = C
  omega

/-- The element of the output image written for pixel `(p, q)`, channel `k`: the offset
`p * stride0 + q * stride1 + k * stride2` as the 32-bit unsigned value the loop forms. -/
theorem untiling_at_pixel {β : Type} (out : buffer_t) (buf img : Int → β)
    (h0 : 0 < out.extent_0) (h0b : out.extent_0 ≤ 2147483542)
    (h1 : 0 < out.extent_1) (h1b : out.extent_1 ≤ 2147483538)
    (hinj : ∀ p q k p' q' k' : Int, 0 ≤ p → p < out.extent_0 → 0 ≤ q → q < out.extent_1 →
      0 ≤ k → k < 3 → 0 ≤ p' → p' < out.extent_0 → 0 ≤ q' → q' < out.extent_1 →
      0 ≤ k' → k' < 3 →
      (p * out.stride_0 + q * out.stride_1 + k * out.stride_2) % 4294967296 =
        (p' * out.stride_0 + q' * out.stride_1 + k' * out.stride_2) % 4294967296 →
      p = p' ∧ q = q' ∧ k = k')
    (p q k : Int) (hp0 : 0 ≤ p) (hp : p < out.extent_0) (hq0 : 0 ≤ q) (hq : q < out.extent_1)
    (hk0 : 0 ≤ k) (hk : k < 3) :
    untiling out buf img
        ((p * out.stride_0 + q * out.stride_1 + k * out.stride_2) % 4294967296) =
      buf (((q / 110 * tile_num_dim0 out.extent_0 + p / 106) * 49920 +
        (q % 110 * 128 + p % 106) / 21 * 64 + (q % 110 * 128 + p % 106) % 21 * 3 + k)
          % 4294967296) := by
  have key := Unpack.iterates_coords out h0 h0b h1 h1b
  have it := Unpack.iterates_of_pixel out h0 h0b h1 h1b p q hp0 hp hq0 hq
  rw [untiling_eq]
  apply applyWrites_of_mem
  · intro w hw ha
    obtain ⟨ty, tx, k', j, i, h', hk0', hk', rfl⟩ := (mem_untilingWrites out buf w).1 hw
    obtain ⟨e1, e2, e3, e4, e5, e6⟩ := key ty tx j i h'
    obtain ⟨a1, -, a3, -, a5, -, a7, -⟩ := h'
    simp only [Unpack.original_offset_eq, e1, e2] at ha
    have hx0 : 0 ≤ tx * 106 + i := by
      have := Int.mul_nonneg a3 (by decide : (0 : Int) ≤ 106); omega
    have hy0 : 0 ≤ ty * 110 + j := by
      have := Int.mul_nonneg a1 (by decide : (0 : Int) ≤ 110); omega
    obtain ⟨r1, r2, r3⟩ := hinj _ _ _ _ _ _ hx0 e3 hy0 e4 hk0' hk' hp0 hp hq0 hq hk0 hk ha
    have t1 : tx = p / 106 := by omega
    have t2 : i = p % 106 := by omega
    have t3 : ty = q / 110 := by omega
    have t4 : j = q % 110 := by omega
    show buf _ = buf _
    rw [Unpack.tiled_offset_eq _ _ _ _ _ _ a5 e6 a7 e5, t1, t2, t3, t4, r3]
  · left
    refine ⟨_, (mem_untilingWrites out buf _).2
      ⟨q / 110, p / 106, k, q % 110, p % 106, it, hk0, hk, rfl⟩, ?_⟩
    obtain ⟨e1, e2, -⟩ := key _ _ _ _ it
    simp only [Unpack.original_offset_eq, e1, e2]
    congr 1
    have c1 : p / 106 * 106 + p % 106 = p := by omega
    have c2 : q / 110 * 110 + q % 110 = q := by omega
    rw [c1, c2]

/-- An element of the output image that is the offset of no pixel and channel keeps its
value. -/
theorem untiling_elsewhere {β : Type} (out : buffer_t) (buf img : Int → β)
    (h0 : 0 < out.extent_0) (h0b : out.extent_0 ≤ 2147483542)
    (h1 : 0 < out.extent_1) (h1b : out.extent_1 ≤ 2147483538)
    (a : Int)
    (ha : ∀ p q k : Int, 0 ≤ p → p < out.extent_0 → 0 ≤ q → q < out.extent_1 →
      0 ≤ k → k < 3 →
      a ≠ (p * out.stride_0 + q * out.stride_1 + k * out.stride_2) % 4294967296) :
    untiling out buf img a = img a := by
  have key := Unpack.iterates_coords out h0 h0b h1 h1b
  rw [untiling_eq]
  apply applyWrites_of_not_mem
  intro w hw hwa
  obtain ⟨ty, tx, k', j, i, h', hk0', hk', rfl⟩ := (mem_untilingWrites out buf w).1 hw
  obtain ⟨e1, e2, e3, e4, e5, e6⟩ := key ty tx j i h'
  obtain ⟨a1, -, a3, -, a5, -, a7, -⟩ := h'
  simp only [Unpack.original_offset_eq, e1, e2] at hwa
  have hx0 : 0 ≤ tx * 106 + i := by
    have := Int.mul_nonneg a3 (by decide : (0 : Int) ≤ 106); omega
  have hy0 : 0 ≤ ty * 110 + j := by
    have := Int.mul_nonneg a1 (by decide : (0 : Int) ≤ 110); omega
  exact ha _ _ _ hx0 e3 hy0 e4 hk0' hk' hwa.symm

/-- C6 (counterexample): a 3x1 output with strides (1, 3, 2147483647), which passes
every check together with a 5x3 input, gives distinct
offsets `p + 3 q + 2147483647 k` to distinct pixels and channels, but the offset of
pixel (2, 0), channel 2, is 4294967296 and wraps to 0 in `uint32_t`: after the loop
element 0 holds the packed element 8 of that pixel, not the packed element 0 of
pixel (0, 0), channel 0. -/
theorem unpack_offset_wraps :
    example_out_far_channels.wellTyped ∧
    curved_wrapped_checks example_inp_5x3 example_out_far_channels = none ∧
    0 < example_out_far_channels.extent_0 ∧ 0 < example_out_far_channels.extent_1 ∧
    (∀ p q k p' q' k' : Int, 0 ≤ p → p < example_out_far_channels.extent_0 →
      0 ≤ q → q < example_out_far_channels.extent_1 → 0 ≤ k → k < 3 →
      0 ≤ p' → p' < example_out_far_channels.extent_0 →
      0 ≤ q' → q' < example_out_far_channels.extent_1 → 0 ≤ k' → k' < 3 →
      p * example_out_far_channels.stride_0 + q * example_out_far_channels.stride_1 +
          k * example_out_far_channels.stride_2 =
        p' * example_out_far_channels.stride_0 + q' * example_out_far_channels.stride_1 +
          k' * example_out_far_channels.stride_2 →
      p = p' ∧ q = q' ∧ k = k') ∧
    untiling example_out_far_channels (fun o => o) (fun _ => -1)
        (0 * example_out_far_channels.stride_0 + 0 * example_out_far_channels.stride_1 +
          0 * example_out_far_channels.stride_2) = 8 ∧
    untiling example_out_far_channels (fun o => o) (fun _ => -1)
        (0 * example_out_far_channels.stride_0 + 0 * example_out_far_channels.stride_1 +
          0 * example_out_far_channels.stride_2) ≠
      (fun o : Int => o) ((0 / 110 * tile_num_dim0 example_out_far_channels.extent_0 + 0 / 106)
        * (TILE_SIZE_DIM0 * TILE_SIZE_DIM1 / 21 * 64) + (0 % 110 * TILE_SIZE_DIM0 + 0 % 106) / 21 * 64
        + (0 % 110 * TILE_SIZE_DIM0 + 0 % 106) % 21 * 3 + 0) := by
  refine ⟨by decide, by decide, by decide, by decide, ?_, by decide, by decide⟩
  intro p q k p' q' k' a1 a2 a3 a4 a5 a6 b1 b2 b3 b4 b5 b6 h
  simp only [example_out_far_channels] at a2 a4 b2 b4 h
  omega

/-- C6 (amended): for output extents `E0, E1 > 0` with `E + TILE_SIZE - STENCIL` within
`int32_t`, and output strides under which distinct `(p, q, k)` have distinct 32-bit
offsets `(p * stride0 + q * stride1 + k * stride2) mod 2^32`, after the unpacking loop
the element of the output image at the 32-bit offset of pixel `(p, q)`, channel `k`,
equals the element of the tiled output buffer at
`((ty * tile_num_dim0 + tx) * 49920 + ((j * 128 + i) / 21) * 64 + ((j * 128 + i) % 21) * 3 + k) mod 2^32`
with `tx = p / 106`, `i = p % 106`, `ty = q / 110`, `j = q % 110`, where
`49920 = TILE_SIZE0 * TILE_SIZE1 / 21 * 64`, and no other element of the output image is
written; when no image offset leaves `[0, 2^32)` and the tiled buffer has at most
`2^32` elements, both offsets are the exact ones. -/
theorem unpack_postcondition {β : Type} (out : buffer_t)
    (var_processed_buf var_processed : Int → β)
    (h0 : 0 < out.extent_0) (h0b : out.extent_0 ≤ 2147483542)
    (h1 : 0 < out.extent_1) (h1b : out.extent_1 ≤ 2147483538)
    (hinj : ∀ p q k p' q' k' : Int, 0 ≤ p → p < out.extent_0 → 0 ≤ q → q < out.extent_1 →
      0 ≤ k → k < 3 → 0 ≤ p' → p' < out.extent_0 → 0 ≤ q' → q' < out.extent_1 →
      0 ≤ k' → k' < 3 →
      (p * out.stride_0 + q * out.stride_1 + k * out.stride_2) % 4294967296 =
        (p' * out.stride_0 + q' * out.stride_1 + k' * out.stride_2) % 4294967296 →
      p = p' ∧ q = q' ∧ k = k') :
    (∀ p q k : Int, 0 ≤ p → p < out.extent_0 → 0 ≤ q → q < out.extent_1 → 0 ≤ k → k < 3 →
      untiling out var_processed_buf var_processed
          ((p * out.stride_0 + q * out.stride_1 + k * out.stride_2) % 4294967296) =
        var_processed_buf (((q / 110 * tile_num_dim0 out.extent_0 + p / 106) *
            (TILE_SIZE_DIM0 * TILE_SIZE_DIM1 / 21 * 64) +
          (q % 110 * TILE_SIZE_DIM0 + p % 106) / 21 * 64 +
          (q % 110 * TILE_SIZE_DIM0 + p % 106) % 21 * 3 + k) % 4294967296)) ∧
    (∀ a : Int,
      (∀ p q k : Int, 0 ≤ p → p < out.extent_0 → 0 ≤ q → q < out.extent_1 →
        0 ≤ k → k < 3 →
        a ≠ (p * out.stride_0 + q * out.stride_1 + k * out.stride_2) % 4294967296) →
      untiling out var_processed_buf var_processed a = var_processed a) ∧
    ((∀ p q k : Int, 0 ≤ p → p < out.extent_0 → 0 ≤ q → q < out.extent_1 →
        0 ≤ k → k < 3 →
        0 ≤ p * out.stride_0 + q * out.stride_1 + k * out.stride_2 ∧
        p * out.stride_0 + q * out.stride_1 + k * out.stride_2 < 4294967296) →
      tile_num_dim0 out.extent_0 * tile_num_dim1 out.extent_1 *
        (TILE_SIZE_DIM0 * TILE_SIZE_DIM1 / 21 * 64) ≤ 4294967296 →
      ∀ p q k : Int, 0 ≤ p → p < out.extent_0 → 0 ≤ q → q < out.extent_1 →
        0 ≤ k → k < 3 →
        untiling out var_processed_buf var_processed
            (p * out.stride_0 + q * out.stride_1 + k * out.stride_2) =
          var_processed_buf ((q / 110 * tile_num_dim0 out.extent_0 + p / 106) *
              (TILE_SIZE_DIM0 * TILE_SIZE_DIM1 / 21 * 64) +
            (q % 110 * TILE_SIZE_DIM0 + p % 106) / 21 * 64 +
            (q % 110 * TILE_SIZE_DIM0 + p % 106) % 21 * 3 + k)) := by
  have hslot : TILE_SIZE_DIM0 * TILE_SIZE_DIM1 / 21 * 64 = 49920 := by decide
  have hts : TILE_SIZE_DIM0 = 128 := rfl
  rw [hslot, hts]
  have at_pixel := untiling_at_pixel out var_processed_buf var_processed h0 h0b h1 h1b hinj
  refine ⟨at_pixel, untiling_elsewhere out var_processed_buf var_processed h0 h0b h1 h1b, ?_⟩
  intro hoff htot p q k hp0 hp hq0 hq hk0 hk
  have hn0 := tile_num_dim0_eq (le_of_lt h0) h0b
  have hn1 := tile_num_dim1_eq (le_of_lt h1) h1b
  have e := at_pixel p q k hp0 hp hq0 hq hk0 hk
  obtain ⟨o1, o2⟩ := hoff p q k hp0 hp hq0 hq hk0 hk
  rw [Int.emod_eq_of_lt o1 o2] at e
  rw [e]
  congr 1
  apply Int.emod_eq_of_lt
  · have c0 : 0 ≤ p / 106 := by omega
    have d0 : 0 ≤ q / 110 := by omega
    have n0pos : 0 ≤ tile_num_dim0 out.extent_0 := by rw [hn0]; omega
    have := Int.mul_nonneg d0 n0pos
    omega
  · have c1 : p / 106 + 1 ≤ tile_num_dim0 out.extent_0 := by rw [hn0]; omega
    have d1 : q / 110 + 1 ≤ tile_num_dim1 out.extent_1 := by rw [hn1]; omega
    have n0pos : 0 ≤ tile_num_dim0 out.extent_0 := by rw [hn0]; omega
    have hmul : (q / 110 + 1) * tile_num_dim0 out.extent_0 ≤
        tile_num_dim1 out.extent_1 * tile_num_dim0 out.extent_0 :=
      Int.mul_le_mul_of_nonneg_right d1 n0pos
    have hcomm : tile_num_dim0 out.extent_0 * tile_num_dim1 out.extent_1 =
        tile_num_dim1 out.extent_1 * tile_num_dim0 out.extent_0 := Int.mul_comm _ _
    rw [hcomm] at htot
    have hexp : (q / 110 + 1) * tile_num_dim0 out.extent_0 =
        q / 110 * tile_num_dim0 out.extent_0 + tile_num_dim0 out.extent_0 := by ring
    rw [hexp] at hmul
    generalize q / 110 * tile_num_dim0 out.extent_0 = A at hmul ⊢
    generalize tile_num_dim1 out.extent_1 * tile_num_dim0 out.extent_0 = B at hmul htot
    omega

/-- C6 (witness): the 4x4 output with strides (1, 4, 16), pixel (1, 2), channel 1. -/
theorem unpack_postcondition_witness :
    untiling example_out_4x4 (fun o : Int => o) (fun _ => -1)
        ((1 * example_out_4x4.stride_0 + 2 * example_out_4x4.stride_1 +
          1 * example_out_4x4.stride_2) % 4294967296) =
      (fun o : Int => o) (((2 / 110 * tile_num_dim0 example_out_4x4.extent_0 + 1 / 106) *
          (TILE_SIZE_DIM0 * TILE_SIZE_DIM1 / 21 * 64) +
        (2 % 110 * TILE_SIZE_DIM0 + 1 % 106) / 21 * 64 +
        (2 % 110 * TILE_SIZE_DIM0 + 1 % 106) % 21 * 3 + 1) % 4294967296) ∧
    untiling example_out_4x4 (fun o : Int => o) (fun _ => -1)
        (1 * example_out_4x4.stride_0 + 2 * example_out_4x4.stride_1 +
          1 * example_out_4x4.stride_2) =
      (fun o : Int => o) ((2 / 110 * tile_num_dim0 example_out_4x4.extent_0 + 1 / 106) *
          (TILE_SIZE_DIM0 * TILE_SIZE_DIM1 / 21 * 64) +
        (2 % 110 * TILE_SIZE_DIM0 + 1 % 106) / 21 * 64 +
        (2 % 110 * TILE_SIZE_DIM0 + 1 % 106) % 21 * 3 + 1) :=
  have hinj : ∀ p q k p' q' k' : Int, 0 ≤ p → p < example_out_4x4.extent_0 →
      0 ≤ q → q < example_out_4x4.extent_1 → 0 ≤ k → k < 3 →
      0 ≤ p' → p' < example_out_4x4.extent_0 → 0 ≤ q' → q' < example_out_4x4.extent_1 →
      0 ≤ k' → k' < 3 →
      (p * example_out_4x4.stride_0 + q * example_out_4x4.stride_1 +
          k * example_out_4x4.stride_2) % 4294967296 =
        (p' * example_out_4x4.stride_0 + q' * example_out_4x4.stride_1 +
          k' * example_out_4x4.stride_2) % 4294967296 →
      p = p' ∧ q = q' ∧ k = k' := by
    intro p q k p' q' k' a1 a2 a3 a4 a5 a6 b1 b2 b3 b4 b5 b6 h
    simp only [example_out_4x4] at a2 a4 b2 b4 h
    omega
  ⟨(unpack_postcondition example_out_4x4 (fun o : Int => o) (fun _ => -1)
      (by decide) (by decide) (by decide) (by decide) hinj).1
      1 2 1 (by decide) (by decide) (by decide) (by decide) (by decide) (by decide),
   (unpack_postcondition example_out_4x4 (fun o : Int => o) (fun _ => -1)
      (by decide) (by decide) (by decide) (by decide) hinj).2.2
      (by
        intro p q k a1 a2 a3 a4 a5 a6
        simp only [example_out_4x4] at a2 a4 ⊢
        omega)
      (by decide)
      1 2 1 (by decide) (by decide) (by decide) (by decide) (by decide) (by decide)⟩

/-! ### The tiling loop on inputs the checks accept -/

set_option maxRecDepth 100000 in
/-- C4 (failing input): a 107x1 output and a 109x3 input are allocated and pass every
check; the tiling loop copies 128 columns for tile column 0, which is not the last, and
at `i = 127` reads the source column `p = 127`, not below `inp.extent[0] = 109`; in the
last row the offset read, 345, is past the 327 elements of the image. -/
theorem pack_reads_past_image :
    host_and_dev_are_null example_inp_109x3 = false ∧
    host_and_dev_are_null example_out_107x1 = false ∧
    curved_wrapped_checks example_inp_109x3 example_out_107x1 = none ∧
    0 < example_out_107x1.extent_0 ∧ 0 < example_out_107x1.extent_1 ∧
    Pack.iterates example_inp_109x3 example_out_107x1 0 0 2 127 ∧
    Pack.p 0 127 = 127 ∧ ¬ Pack.p 0 127 < example_inp_109x3.extent_0 ∧
    Pack.original_offset example_inp_109x3 (Pack.p 0 127) (Pack.q 0 2) = 345 ∧
    example_inp_109x3.extent_0 * example_inp_109x3.extent_1 = 327 ∧
    tiling example_inp_109x3 example_out_107x1 (fun o : Int => o) (fun _ => -1)
      (Pack.tiled_offset (tile_num_dim0 example_out_107x1.extent_0) 0 0 2 127) = 345 := by
  decide

set_option maxRecDepth 100000 in
/-- C5 (failing input): a 1x1 output and a 129x3 input are allocated and pass every
check; the one tile has an input extent of 129 columns, the local coordinate
`(i, j) = (128, 0)` lies within it and its packed offset is 128, where the loop first
writes the source element 128 of pixel (128, 0) and later, at `(i, j) = (0, 1)`, the
source element 129 of pixel (0, 1): after the loop the packed element 128 is not the
one of pixel (128, 0). -/
theorem pack_overwrites_wide_tile :
    host_and_dev_are_null example_inp_129x3 = false ∧
    host_and_dev_are_null example_out_1x1 = false ∧
    curved_wrapped_checks example_inp_129x3 example_out_1x1 = none ∧
    Pack.iterates example_inp_129x3 example_out_1x1 0 0 0 128 ∧
    Pack.actual_tile_size_dim0 example_inp_129x3 example_out_1x1 0 = 129 ∧
    Pack.tiled_offset (tile_num_dim0 example_out_1x1.extent_0) 0 0 0 128 =
      (0 * tile_num_dim0 example_out_1x1.extent_0 + 0) * TILE_SIZE_DIM0 * TILE_SIZE_DIM1
        + 0 * TILE_SIZE_DIM0 + 128 ∧
    Pack.original_offset example_inp_129x3 (Pack.p 0 128) (Pack.q 0 0) =
      (0 * 106 + 128) * example_inp_129x3.stride_0 +
        (0 * 110 + 0) * example_inp_129x3.stride_1 ∧
    tiling example_inp_129x3 example_out_1x1 (fun o : Int => o) (fun _ => -1)
        ((0 * tile_num_dim0 example_out_1x1.extent_0 + 0) * TILE_SIZE_DIM0 * TILE_SIZE_DIM1
          + 0 * TILE_SIZE_DIM0 + 128) = 129 ∧
    (fun o : Int => o) ((0 * 106 + 128) * example_inp_129x3.stride_0 +
        (0 * 110 + 0) * example_inp_129x3.stride_1) = 128 := by
  decide

/-! ### Offsets of the tiling loop -/

theorem Pack.tiled_offset_row_major (n0 ty tx j i : Int) :
    Pack.tiled_offset n0 ty tx j i =
      ((ty * n0 + tx) * 16384 + j * 128 + i) % 4294967296 := by
  have hT : wrap32 (wrap32 (wrap32 (wrap32 (ty * n0) + tx) * 128) * 128) ≡
      (ty * n0 + tx) * 16384 [ZMOD 4294967296] := by
    have e : (ty * n0 + tx) * 16384 = (ty * n0 + tx) * 128 * 128 := by ring
    rw [e]
    exact (wrap32_modEq _).trans (((wrap32_modEq _).trans
      (((wrap32_modEq _).trans ((wrap32_modEq _).add_right tx)).mul_right 128)).mul_right 128)
  have h1 := (wrapU32_modEq _).trans (hT.add (wrapU32_modEq (j * 128)))
  have h2 := h1.add_right i
  simp only [Pack.tiled_offset, TILE_SIZE_DIM0, TILE_SIZE_DIM1]
  exact h2

theorem tile_index_unique (n a b a' b' : Int) (hb0 : 0 ≤ b) (hb : b < n)
    (hb0' : 0 ≤ b') (hb' : b' < n) (h : a * n + b = a' * n + b') : a = a' ∧ b = b' := by
  have hn : 0 < n := by omega
  have e1 : (a * n + b) % n = b := by
    rw [Int.add_comm, Int.add_mul_emod_self, Int.emod_eq_of_lt hb0 hb]
  have e2 : (a' * n + b') % n = b' := by
    rw [Int.add_comm, Int.add_mul_emod_self, Int.emod_eq_of_lt hb0' hb']
  have hbb : b = b' := by rw [← e1, ← e2, h]
  refine ⟨?_, hbb⟩
  have h2 : a * n = a' * n := by omega
  exact Int.eq_of_mul_eq_mul_right (by omega) h2

theorem tile_index_lt (n0 n1 ty tx : Int) (hy0 : 0 ≤ ty) (hy : ty < n1) (hx0 : 0 ≤ tx)
    (hx : tx < n0) : 0 ≤ ty * n0 + tx ∧ ty * n0 + tx + 1 ≤ n0 * n1 := by
  have hn0 : 0 ≤ n0 := by omega
  have h1 := Int.mul_nonneg hy0 hn0
  have h2 : (ty + 1) * n0 ≤ n1 * n0 := Int.mul_le_mul_of_nonneg_right (by omega) hn0
  have e1 : (ty + 1) * n0 = ty * n0 + n0 := by ring
  have e2 : n1 * n0 = n0 * n1 := Int.mul_comm _ _
  rw [e1, e2] at h2
  exact ⟨by omega, by omega⟩

/-- When no tile is larger than `TILE_SIZE` on either axis and the tiled input buffer
has at most `2^32` elements, every element copied by the tiling loop is in the tiled
buffer after the loop. -/
theorem tiling_at_iterate {α : Type} (inp out : buffer_t) (var_input var_input_buf : Int → α)
    (hs0 : ∀ t, 0 ≤ t → t < tile_num_dim0 out.extent_0 →
      Pack.actual_tile_size_dim0 inp out t ≤ 128)
    (hs1 : ∀ t, 0 ≤ t → t < tile_num_dim1 out.extent_1 →
      Pack.actual_tile_size_dim1 inp out t ≤ 128)
    (htot : tile_num_dim0 out.extent_0 * tile_num_dim1 out.extent_1 * 16384 ≤ 4294967296)
    (ty tx j i : Int) (h : Pack.iterates inp out ty tx j i) :
    tiling inp out var_input var_input_buf
        (Pack.tiled_offset (tile_num_dim0 out.extent_0) ty tx j i) =
      var_input (Pack.original_offset inp (Pack.p tx i) (Pack.q ty j)) := by
  rw [tiling_eq]
  apply applyWrites_of_mem
  · intro w hw ha
    obtain ⟨ty', tx', j', i', h', rfl⟩ := (mem_tilingWrites inp out var_input w).1 hw
    simp only [Pack.tiled_offset_row_major] at ha
    obtain ⟨a1, a2, a3, a4, a5, a6, a7, a8⟩ := h
    obtain ⟨b1, b2, b3, b4, b5, b6, b7, b8⟩ := h'
    have c6 := hs1 ty a1 a2
    have c8 := hs0 tx a3 a4
    have d6 := hs1 ty' b1 b2
    have d8 := hs0 tx' b3 b4
    obtain ⟨u1, u2⟩ := tile_index_lt _ _ ty tx a1 a2 a3 a4
    obtain ⟨v1, v2⟩ := tile_index_lt _ _ ty' tx' b1 b2 b3 b4
    have hT : ty' * tile_num_dim0 out.extent_0 + tx' =
        ty * tile_num_dim0 out.extent_0 + tx ∧ j' = j ∧ i' = i := by
      generalize ty' * tile_num_dim0 out.extent_0 + tx' = T' at ha v1 v2
      generalize ty * tile_num_dim0 out.extent_0 + tx = T at ha u1 u2
      generalize tile_num_dim0 out.extent_0 * tile_num_dim1 out.extent_1 = N at htot u2 v2
      omega
    obtain ⟨r1, r2⟩ := tile_index_unique _ _ _ _ _ b3 b4 a3 a4 hT.1
    show var_input _ = var_input _
    rw [r1, r2, hT.2.1, hT.2.2]
  · exact Or.inl ⟨_, (mem_tilingWrites inp out var_input _).2 ⟨ty, tx, j, i, h, rfl⟩, rfl⟩

/-! ### Packing followed by unpacking -/

set_option maxRecDepth 100000 in
/-- C2 (counterexample): a 4x4 output and a 6x6 input, both allocated, pass every check;
the input image holds at each element its own offset.  After the tiling loop and the
unpacking loop run on the same buffer contents, the output element of pixel (1, 0),
channel 0, holds 3, the input pixel (3, 0), and not 1, the input pixel (1, 0). -/
theorem pack_unpack_not_identity :
    host_and_dev_are_null example_inp_6x6 = false ∧
    host_and_dev_are_null example_out_4x4 = false ∧
    curved_wrapped_checks example_inp_6x6 example_out_4x4 = none ∧
    untiling example_out_4x4
        (tiling example_inp_6x6 example_out_4x4 (fun o : Int => o) (fun _ => -1))
        (fun _ => -1)
        (1 * example_out_4x4.stride_0 + 0 * example_out_4x4.stride_1 +
          0 * example_out_4x4.stride_2) = 3 ∧
    (fun o : Int => o) (1 * example_inp_6x6.stride_0 + 0 * example_inp_6x6.stride_1) = 1 ∧
    untiling example_out_4x4
        (tiling example_inp_6x6 example_out_4x4 (fun o : Int => o) (fun _ => -1))
        (fun _ => -1)
        (1 * example_out_4x4.stride_0 + 0 * example_out_4x4.stride_1 +
          0 * example_out_4x4.stride_2) ≠
      (fun o : Int => o) (1 * example_inp_6x6.stride_0 + 0 * example_inp_6x6.stride_1) := by
  decide

/-- C2 (amended): packing and then unpacking the same buffer contents does not
reproduce the image, because the unpacking loop reads the interleaved layout (blocks of
64 slots for 21 pixels of three channels) and the tiling loop writes rows of 128.  For
output extents `E0, E1 > 0` with `E + TILE_SIZE - STENCIL` within `int32_t`, output
strides giving distinct 32-bit offsets, tiles whose input size is at most `TILE_SIZE`
and a tiled input buffer of at most `2^32` elements: the output element of pixel
`(p, q)`, channel `k`, is the packed element at the interleaved offset; it is the input
element whose packing offset is that offset, if the tiling loop copies one there; and
for pixel (0, 0), channel 0, of a non-empty input this is the input pixel (0, 0). -/
theorem pack_unpack_composition {α : Type} (inp out : buffer_t)
    (var_input var_input_buf var_processed : Int → α)
    (h0 : 0 < out.extent_0) (h0b : out.extent_0 ≤ 2147483542)
    (h1 : 0 < out.extent_1) (h1b : out.extent_1 ≤ 2147483538)
    (hinj : ∀ p q k p' q' k' : Int, 0 ≤ p → p < out.extent_0 → 0 ≤ q → q < out.extent_1 →
      0 ≤ k → k < 3 → 0 ≤ p' → p' < out.extent_0 → 0 ≤ q' → q' < out.extent_1 →
      0 ≤ k' → k' < 3 →
      (p * out.stride_0 + q * out.stride_1 + k * out.stride_2) % 4294967296 =
        (p' * out.stride_0 + q' * out.stride_1 + k' * out.stride_2) % 4294967296 →
      p = p' ∧ q = q' ∧ k = k')
    (hs0 : ∀ t, 0 ≤ t → t < tile_num_dim0 out.extent_0 →
      Pack.actual_tile_size_dim0 inp out t ≤ TILE_SIZE_DIM0)
    (hs1 : ∀ t, 0 ≤ t → t < tile_num_dim1 out.extent_1 →
      Pack.actual_tile_size_dim1 inp out t ≤ TILE_SIZE_DIM1)
    (htot : tile_num_dim0 out.extent_0 * tile_num_dim1 out.extent_1 *
      (TILE_SIZE_DIM0 * TILE_SIZE_DIM1) ≤ 4294967296) :
    (∀ p q k : Int, 0 ≤ p → p < out.extent_0 → 0 ≤ q → q < out.extent_1 → 0 ≤ k → k < 3 →
      untiling out (tiling inp out var_input var_input_buf) var_processed
          ((p * out.stride_0 + q * out.stride_1 + k * out.stride_2) % 4294967296) =
        tiling inp out var_input var_input_buf
          (((q / 110 * tile_num_dim0 out.extent_0 + p / 106) *
              (TILE_SIZE_DIM0 * TILE_SIZE_DIM1 / 21 * 64) +
            (q % 110 * TILE_SIZE_DIM0 + p % 106) / 21 * 64 +
            (q % 110 * TILE_SIZE_DIM0 + p % 106) % 21 * 3 + k) % 4294967296)) ∧
    (∀ p q k : Int, 0 ≤ p → p < out.extent_0 → 0 ≤ q → q < out.extent_1 → 0 ≤ k → k < 3 →
      ∀ ty tx j i : Int, Pack.iterates inp out ty tx j i →
        ((ty * tile_num_dim0 out.extent_0 + tx) * (TILE_SIZE_DIM0 * TILE_SIZE_DIM1) +
            j * TILE_SIZE_DIM0 + i) % 4294967296 =
          ((q / 110 * tile_num_dim0 out.extent_0 + p / 106) *
              (TILE_SIZE_DIM0 * TILE_SIZE_DIM1 / 21 * 64) +
            (q % 110 * TILE_SIZE_DIM0 + p % 106) / 21 * 64 +
            (q % 110 * TILE_SIZE_DIM0 + p % 106) % 21 * 3 + k) % 4294967296 →
        untiling out (tiling inp out var_input var_input_buf) var_processed
            ((p * out.stride_0 + q * out.stride_1 + k * out.stride_2) % 4294967296) =
          var_input (Pack.original_offset inp (Pack.p tx i) (Pack.q ty j))) ∧
    (0 < inp.extent_0 → inp.extent_0 ≤ 2147483647 →
      0 < inp.extent_1 → inp.extent_1 ≤ 2147483647 →
      untiling out (tiling inp out var_input var_input_buf) var_processed
          ((0 * out.stride_0 + 0 * out.stride_1 + 0 * out.stride_2) % 4294967296) =
        var_input (0 * inp.stride_0 + 0 * inp.stride_1)) := by
  have hslot : TILE_SIZE_DIM0 * TILE_SIZE_DIM1 / 21 * 64 = 49920 := by decide
  have hrow : TILE_SIZE_DIM0 * TILE_SIZE_DIM1 = 16384 := by decide
  have hts0 : TILE_SIZE_DIM0 = 128 := rfl
  have hts1 : TILE_SIZE_DIM1 = 128 := rfl
  rw [hrow] at htot
  rw [hts0] at hs0
  rw [hts1] at hs1
  rw [hslot, hrow, hts0]
  have at_pixel := untiling_at_pixel out (tiling inp out var_input var_input_buf)
    var_processed h0 h0b h1 h1b hinj
  have packed := tiling_at_iterate inp out var_input var_input_buf hs0 hs1 htot
  have second : ∀ p q k : Int, 0 ≤ p → p < out.extent_0 → 0 ≤ q → q < out.extent_1 →
      0 ≤ k → k < 3 → ∀ ty tx j i : Int, Pack.iterates inp out ty tx j i →
        ((ty * tile_num_dim0 out.extent_0 + tx) * 16384 + j * 128 + i) % 4294967296 =
          ((q / 110 * tile_num_dim0 out.extent_0 + p / 106) * 49920 +
            (q % 110 * 128 + p % 106) / 21 * 64 +
            (q % 110 * 128 + p % 106) % 21 * 3 + k) % 4294967296 →
        untiling out (tiling inp out var_input var_input_buf) var_processed
            ((p * out.stride_0 + q * out.stride_1 + k * out.stride_2) % 4294967296) =
          var_input (Pack.original_offset inp (Pack.p tx i) (Pack.q ty j)) := by
    intro p q k hp0 hp hq0 hq hk0 hk ty tx j i hit hoff
    rw [at_pixel p q k hp0 hp hq0 hq hk0 hk, ← hoff, ← Pack.tiled_offset_row_major]
    exact packed ty tx j i hit
  refine ⟨at_pixel, second, ?_⟩
  intro i0 i0b i1 i1b
  have hn0 := tile_num_dim0_eq (le_of_lt h0) h0b
  have hn1 := tile_num_dim1_eq (le_of_lt h1) h1b
  have hit : Pack.iterates inp out 0 0 0 0 := by
    refine ⟨le_refl _, by rw [hn1]; omega, le_refl _, by rw [hn0]; omega, le_refl _, ?_,
      le_refl _, ?_⟩
    · simp only [Pack.actual_tile_size_dim1, step_dim1, TILE_SIZE_DIM1, wrap32, wrapU32]
      split_ifs <;> omega
    · simp only [Pack.actual_tile_size_dim0, step_dim0, TILE_SIZE_DIM0, wrap32, wrapU32]
      split_ifs <;> omega
  have e := second 0 0 0 (le_refl _) h0 (le_refl _) h1 (le_refl _) (by decide) 0 0 0 0 hit
    (by simp)
  rw [e]
  congr 1
  simp [Pack.original_offset, Pack.p, Pack.q, wrap32, wrapU32]

/-- C2 (witness): for the 4x4 output and the 6x6 input, pixel (0, 0), channel 0, comes
back as the input pixel (0, 0), and pixel (1, 0), channel 0, as the input pixel copied
at local coordinate (3, 0), whose packing offset 3 is the interleaved offset of
pixel (1, 0). -/
theorem pack_unpack_composition_witness :
    untiling example_out_4x4
        (tiling example_inp_6x6 example_out_4x4 (fun o : Int => o) (fun _ => -1))
        (fun _ => -1)
        ((0 * example_out_4x4.stride_0 + 0 * example_out_4x4.stride_1 +
          0 * example_out_4x4.stride_2) % 4294967296) =
      (fun o : Int => o) (0 * example_inp_6x6.stride_0 + 0 * example_inp_6x6.stride_1) ∧
    untiling example_out_4x4
        (tiling example_inp_6x6 example_out_4x4 (fun o : Int => o) (fun _ => -1))
        (fun _ => -1)
        ((1 * example_out_4x4.stride_0 + 0 * example_out_4x4.stride_1 +
          0 * example_out_4x4.stride_2) % 4294967296) =
      (fun o : Int => o) (Pack.original_offset example_inp_6x6 (Pack.p 0 3) (Pack.q 0 0)) :=
  have hinj : ∀ p q k p' q' k' : Int, 0 ≤ p → p < example_out_4x4.extent_0 →
      0 ≤ q → q < example_out_4x4.extent_1 → 0 ≤ k → k < 3 →
      0 ≤ p' → p' < example_out_4x4.extent_0 → 0 ≤ q' → q' < example_out_4x4.extent_1 →
      0 ≤ k' → k' < 3 →
      (p * example_out_4x4.stride_0 + q * example_out_4x4.stride_1 +
          k * example_out_4x4.stride_2) % 4294967296 =
        (p' * example_out_4x4.stride_0 + q' * example_out_4x4.stride_1 +
          k' * example_out_4x4.stride_2) % 4294967296 →
      p = p' ∧ q = q' ∧ k = k' := by
    intro p q k p' q' k' a1 a2 a3 a4 a5 a6 b1 b2 b3 b4 b5 b6 h
    simp only [example_out_4x4] at a2 a4 b2 b4 h
    omega
  have hs0 : ∀ t, 0 ≤ t → t < tile_num_dim0 example_out_4x4.extent_0 →
      Pack.actual_tile_size_dim0 example_inp_6x6 example_out_4x4 t ≤ TILE_SIZE_DIM0 := by
    intro t t0 t1
    have e : tile_num_dim0 example_out_4x4.extent_0 = 1 := by decide
    rw [e] at t1
    have e0 : t = 0 := by omega
    subst e0
    decide
  have hs1 : ∀ t, 0 ≤ t → t < tile_num_dim1 example_out_4x4.extent_1 →
      Pack.actual_tile_size_dim1 example_inp_6x6 example_out_4x4 t ≤ TILE_SIZE_DIM1 := by
    intro t t0 t1
    have e : tile_num_dim1 example_out_4x4.extent_1 = 1 := by decide
    rw [e] at t1
    have e0 : t = 0 := by omega
    subst e0
    decide
  ⟨(pack_unpack_composition example_inp_6x6 example_out_4x4 (fun o : Int => o)
      (fun _ => -1) (fun _ => -1) (by decide) (by decide) (by decide) (by decide)
      hinj hs0 hs1 (by decide)).2.2 (by decide) (by decide) (by decide) (by decide),
   (pack_unpack_composition example_inp_6x6 example_out_4x4 (fun o : Int => o)
      (fun _ => -1) (fun _ => -1) (by decide) (by decide) (by decide) (by decide)
      hinj hs0 hs1 (by decide)).2.1 1 0 0 (by decide) (by decide) (by decide) (by decide)
      (by decide) (by decide) 0 0 0 3 (by decide) (by decide)⟩

/-! ### What the checks guarantee -/

theorem checks_none_iff (inp out : buffer_t) :
    curved_wrapped_checks inp out = none ↔
      (assign_6 out = true ∧ assign_8 inp = true ∧ assign_15 inp out = true ∧
        assign_26 inp out = true ∧ assign_32 out = true ∧ assign_34 inp = true ∧
        assign_43 out = true ∧ assign_51 out = true ∧ assign_58 out = true ∧
        assign_63 inp = true ∧ assign_71 inp = true ∧ assign_78 inp = true) := by
  simp only [curved_wrapped_checks]
  cases assign_6 out
  · simp
  cases assign_8 inp
  · simp
  cases assign_15 inp out
  · simp
  cases assign_26 inp out
  · simp
  cases assign_32 out
  · simp
  cases assign_34 inp
  · simp
  cases assign_43 out
  · simp
  cases assign_51 out
  · simp
  cases assign_58 out
  · simp
  cases assign_63 inp
  · simp
  cases assign_71 inp
  · simp
  cases assign_78 inp
  · simp
  simp

theorem wrap64_of_int32 {x : Int} (h : isInt32 x) : wrap64 x = x := by
  unfold isInt32 at h; unfold wrap64; omega

theorem wrap64_mul_of_int32 {x y : Int} (hx : isInt32 x) (hy : isInt32 y) :
    wrap64 (x * y) = x * y := by
  unfold isInt32 at hx hy
  have h1 : -4611686018427387904 ≤ x * y := by nlinarith
  have h2 : x * y ≤ 4611686018427387904 := by nlinarith
  generalize x * y = z at h1 h2
  unfold wrap64; omega

/-- C11 (counterexample): the 4x4 output and the 6x6 input are allocated and pass every
check without any wrap-around, and the input ends at column 6, before column
`0 + 4 + 23 - 1 = 26` (and at row 6, before row 22). -/
theorem accepted_without_halo :
    host_and_dev_are_null example_inp_6x6 = false ∧
    host_and_dev_are_null example_out_4x4 = false ∧
    bounds_exact_0 example_inp_6x6 example_out_4x4 ∧
    bounds_exact_1 example_inp_6x6 example_out_4x4 ∧
    curved_wrapped_checks example_inp_6x6 example_out_4x4 = none ∧
    ¬ (example_inp_6x6.min_0 + example_inp_6x6.extent_0 ≥
        example_out_4x4.min_0 + example_out_4x4.extent_0 + STENCIL_DIM0 - 1) ∧
    ¬ (example_inp_6x6.min_1 + example_inp_6x6.extent_1 ≥
        example_out_4x4.min_1 + example_out_4x4.extent_1 + STENCIL_DIM1 - 1) := by
  decide

/-- C11 (amended): every pair of descriptors that passes the checks, the sums of the
bounds checks taken without 32-bit wrap-around, has an input whose valid region covers
the output's footprint plus a margin of 2 on axes 0 and 1: `inp.min[d] ≤ out.min[d]` and
`inp.min[d] + inp.extent[d] ≥ out.min[d] + out.extent[d] + 2`; the margin is 2 on both
axes, not `STENCIL_d - 1`. -/
theorem accepted_covers_margin_two (inp out : buffer_t)
    (h : curved_wrapped_checks inp out = none)
    (h0 : bounds_exact_0 inp out) (h1 : bounds_exact_1 inp out) :
    inp.min_0 ≤ out.min_0 ∧
    inp.min_0 + inp.extent_0 ≥ out.min_0 + out.extent_0 + 2 ∧
    inp.min_1 ≤ out.min_1 ∧
    inp.min_1 + inp.extent_1 ≥ out.min_1 + out.extent_1 + 2 := by
  obtain ⟨-, -, c15, c26, -⟩ := (checks_none_iff inp out).1 h
  obtain ⟨a0, b0⟩ := (assign_15_iff inp out h0).1 c15
  obtain ⟨a1, b1⟩ := (assign_26_iff inp out h1).1 c26
  exact ⟨a0, by omega, a1, by omega⟩

/-- C11 (witness): the 4x4 output inside the 6x6 input. -/
theorem accepted_covers_margin_two_witness :
    example_inp_6x6.min_0 ≤ example_out_4x4.min_0 ∧
    example_inp_6x6.min_0 + example_inp_6x6.extent_0 ≥
      example_out_4x4.min_0 + example_out_4x4.extent_0 + 2 ∧
    example_inp_6x6.min_1 ≤ example_out_4x4.min_1 ∧
    example_inp_6x6.min_1 + example_inp_6x6.extent_1 ≥
      example_out_4x4.min_1 + example_out_4x4.extent_1 + 2 :=
  accepted_covers_margin_two example_inp_6x6 example_out_4x4 (by decide) (by decide)
    (by decide)

/-- C13: for descriptors whose extents and strides are values of `int32_t`, the products
formed by the size checks in `int64_t` are the exact integer products, and each of these
checks fails exactly when the true product exceeds `2^31 - 1`. -/
theorem size_products_exact (inp out : buffer_t)
    (hout : out.wellTyped) (hinp : inp.wellTyped) :
    assign_49 out = out.extent_1 * out.stride_1 ∧
    assign_38 out = out.extent_1 * out.extent_0 ∧
    assign_69 inp = inp.extent_1 * inp.stride_1 ∧
    assign_41 inp = inp.extent_1 * inp.extent_0 ∧
    (assign_51 out = false ↔ 2147483647 < out.extent_1 * out.stride_1) ∧
    (assign_58 out = false ↔ 2147483647 < out.extent_0 * out.extent_1) ∧
    (assign_71 inp = false ↔ 2147483647 < inp.extent_1 * inp.stride_1) ∧
    (assign_78 inp = false ↔ 2147483647 < inp.extent_0 * inp.extent_1) := by
  obtain ⟨oe0, oe1, -, -, -, os1, -⟩ := hout
  obtain ⟨ie0, ie1, -, -, -, is1, -⟩ := hinp
  have m : wrap64 2147483647 = 2147483647 := by decide
  have e49 : assign_49 out = out.extent_1 * out.stride_1 := by
    simp only [assign_49, assign_47, assign_48, wrap64_of_int32 oe1, wrap64_of_int32 os1,
      wrap64_mul_of_int32 oe1 os1]
  have e38 : assign_38 out = out.extent_1 * out.extent_0 := by
    simp only [assign_38, assign_36, assign_37, wrap64_of_int32 oe1, wrap64_of_int32 oe0,
      wrap64_mul_of_int32 oe1 oe0]
  have e69 : assign_69 inp = inp.extent_1 * inp.stride_1 := by
    simp only [assign_69, assign_67, assign_68, wrap64_of_int32 ie1, wrap64_of_int32 is1,
      wrap64_mul_of_int32 ie1 is1]
  have e41 : assign_41 inp = inp.extent_1 * inp.extent_0 := by
    simp only [assign_41, assign_39, assign_40, wrap64_of_int32 ie1, wrap64_of_int32 ie0,
      wrap64_mul_of_int32 ie1 ie0]
  refine ⟨e49, e38, e69, e41, ?_, ?_, ?_, ?_⟩
  · simp only [assign_51, e49, m, decide_eq_false_iff_not, not_le]
  · simp only [assign_58, e38, m, decide_eq_false_iff_not, not_le, Int.mul_comm]
  · simp only [assign_71, e69, m, decide_eq_false_iff_not, not_le]
  · simp only [assign_78, e41, m, decide_eq_false_iff_not, not_le, Int.mul_comm]

/-- C13 (witness): the 4x4 output and the 6x6 input. -/
theorem size_products_exact_witness :
    assign_49 example_out_4x4 = example_out_4x4.extent_1 * example_out_4x4.stride_1 ∧
    assign_41 example_inp_6x6 = example_inp_6x6.extent_1 * example_inp_6x6.extent_0 :=
  ⟨(size_products_exact example_inp_6x6 example_out_4x4 (by decide) (by decide)).1,
   (size_products_exact example_inp_6x6 example_out_4x4 (by decide) (by decide)).2.2.2.1⟩

/-- C12 (counterexample): the 4x4 output and a 32768x32768 input of 16-bit elements are
allocated and pass every check; the product of the input's extents is `2^30` elements,
and times the element size of 2 it is `2^31`, above `2^31 - 1`. -/
theorem accepted_above_byte_limit :
    example_inp_32768.wellTyped ∧ example_out_4x4.wellTyped ∧
    host_and_dev_are_null example_inp_32768 = false ∧
    host_and_dev_are_null example_out_4x4 = false ∧
    curved_wrapped_checks example_inp_32768 example_out_4x4 = none ∧
    ¬ (example_inp_32768.extent_0 * example_inp_32768.extent_1 *
        example_inp_32768.elem_size ≤ 2147483647) := by
  decide

/-- C12 (amended): for every pair of descriptors with `int32_t` fields that passes the
checks, each of the two buffers satisfies `extent[0] * extent[1] ≤ 2^31 - 1`, a count of
elements in which the element size is no factor, and `extent[d] * stride[d] ≤ 2^31 - 1`
at the axes `d = 0` (where `stride[0] = 1`) and `d = 1`; nothing is checked on the axes
2 and 3. -/
theorem accepted_within_size_limits (inp out : buffer_t)
    (hout : out.wellTyped) (hinp : inp.wellTyped)
    (h : curved_wrapped_checks inp out = none) :
    (out.extent_0 * out.extent_1 ≤ 2147483647 ∧
      out.extent_0 * out.stride_0 ≤ 2147483647 ∧
      out.extent_1 * out.stride_1 ≤ 2147483647) ∧
    (inp.extent_0 * inp.extent_1 ≤ 2147483647 ∧
      inp.extent_0 * inp.stride_0 ≤ 2147483647 ∧
      inp.extent_1 * inp.stride_1 ≤ 2147483647) := by
  obtain ⟨-, -, -, -, c32, c34, c43, c51, c58, c63, c71, c78⟩ := (checks_none_iff inp out).1 h
  obtain ⟨oe0, oe1, -, -, -, os1, -⟩ := hout
  obtain ⟨ie0, ie1, -, -, -, is1, -⟩ := hinp
  have m : wrap64 2147483647 = 2147483647 := by decide
  have so : out.stride_0 = 1 := by simpa [assign_32] using c32
  have si : inp.stride_0 = 1 := by simpa [assign_34] using c34
  simp only [assign_43, assign_37, assign_42, m, wrap64_of_int32 oe0,
    decide_eq_true_eq] at c43
  simp only [assign_51, assign_49, assign_47, assign_48, m, wrap64_of_int32 oe1,
    wrap64_of_int32 os1, wrap64_mul_of_int32 oe1 os1, decide_eq_true_eq] at c51
  simp only [assign_58, assign_38, assign_36, assign_37, m, wrap64_of_int32 oe1,
    wrap64_of_int32 oe0, wrap64_mul_of_int32 oe1 oe0, decide_eq_true_eq] at c58
  simp only [assign_63, assign_61, m, wrap64_of_int32 ie0, decide_eq_true_eq] at c63
  simp only [assign_71, assign_69, assign_67, assign_68, m, wrap64_of_int32 ie1,
    wrap64_of_int32 is1, wrap64_mul_of_int32 ie1 is1, decide_eq_true_eq] at c71
  simp only [assign_78, assign_41, assign_39, assign_40, m, wrap64_of_int32 ie1,
    wrap64_of_int32 ie0, wrap64_mul_of_int32 ie1 ie0, decide_eq_true_eq] at c78
  rw [so, si, Int.mul_one, Int.mul_one, Int.mul_comm out.extent_0, Int.mul_comm inp.extent_0]
  exact ⟨⟨c58, c43, c51⟩, ⟨c78, c63, c71⟩⟩

/-- C12 (witness): the 4x4 output and the 6x6 input. -/
theorem accepted_within_size_limits_witness :
    (example_out_4x4.extent_0 * example_out_4x4.extent_1 ≤ 2147483647 ∧
      example_out_4x4.extent_0 * example_out_4x4.stride_0 ≤ 2147483647 ∧
      example_out_4x4.extent_1 * example_out_4x4.stride_1 ≤ 2147483647) ∧
    (example_inp_6x6.extent_0 * example_inp_6x6.extent_1 ≤ 2147483647 ∧
      example_inp_6x6.extent_0 * example_inp_6x6.stride_0 ≤ 2147483647 ∧
      example_inp_6x6.extent_1 * example_inp_6x6.stride_1 ≤ 2147483647) :=
  accepted_within_size_limits example_inp_6x6 example_out_4x4 (by decide) (by decide)
    (by decide)

/-! ### The whole call -/

theorem offload_result {F α β : Type} (fl : float_ops F) (env : environment α β)
    (a : arguments F α β) :
    ((curved_wrapped_offload fl env a).result = none ∨
      (curved_wrapped_offload fl env a).result = some 0) ∧
    (curved_wrapped_offload fl env a).trace.head? =
      some (if var_processed_buf_length (tile_num_dim0 a.var_processed_buffer.extent_0)
            (tile_num_dim1 a.var_processed_buffer.extent_1) < 0 ∨
          var_input_buf_length (tile_num_dim0 a.var_processed_buffer.extent_0)
            (tile_num_dim1 a.var_processed_buffer.extent_1) < 0
        then event.bad_alloc else event.tiling) := by
  unfold curved_wrapped_offload
  simp only []
  split_ifs <;> first | omega | simp

/-- C14: if the output descriptor or the input descriptor is unallocated,
`curved_wrapped` returns 0 whatever the element sizes, mins, extents and strides are;
no step is taken (no report of a check, no tiling, no table, no transfer, no kernel
run, no unpacking) and the output image keeps its contents. -/
theorem sizing_request_returns_success {F α β : Type} (fl : float_ops F)
    (env : environment α β) (a : arguments F α β)
    (h : host_and_dev_are_null a.var_processed_buffer = true ∨
      host_and_dev_are_null a.var_input_buffer = true) :
    (curved_wrapped fl env a).result = some 0 ∧
    (curved_wrapped fl env a).result = some halide_error_code_success ∧
    (curved_wrapped fl env a).trace = [] ∧
    (curved_wrapped fl env a).var_processed = a.var_processed := by
  have h4 : (host_and_dev_are_null a.var_processed_buffer ||
      host_and_dev_are_null a.var_input_buffer) = true := by
    rcases h with h | h <;> simp [h]
  unfold curved_wrapped
  simp [h4, halide_error_code_success]

/-- C14 (witness): a sizing request for the output, with an input of a wrong element
size that is out of bounds as well. -/
theorem sizing_request_returns_success_witness :
    (curved_wrapped example_float_ops example_environment
      (example_arguments example_inp_wrong_size example_out_unallocated)).result = some 0 ∧
    (curved_wrapped example_float_ops example_environment
      (example_arguments example_inp_wrong_size example_out_unallocated)).trace = [] :=
  ⟨(sizing_request_returns_success example_float_ops example_environment
      (example_arguments example_inp_wrong_size example_out_unallocated)
      (Or.inl (by decide))).1,
   (sizing_request_returns_success example_float_ops example_environment
      (example_arguments example_inp_wrong_size example_out_unallocated)
      (Or.inl (by decide))).2.2.1⟩

/-- C15 (counterexample): after a call with an unallocated 4x4 output descriptor the
stride of axis 2 is 0, while the product of the extents of the axes below it is 16. -/
theorem rewritten_output_has_no_channel_stride :
    host_and_dev_are_null example_out_unallocated = true ∧
    (curved_wrapped example_float_ops example_environment
      (example_arguments example_inp_6x6 example_out_unallocated)).result = some 0 ∧
    (curved_wrapped example_float_ops example_environment
      (example_arguments example_inp_6x6 example_out_unallocated)).var_processed_buffer.stride_2
      = 0 ∧
    (curved_wrapped example_float_ops example_environment
      (example_arguments example_inp_6x6 example_out_unallocated)).var_processed_buffer.extent_0
      * (curved_wrapped example_float_ops example_environment
      (example_arguments example_inp_6x6 example_out_unallocated)).var_processed_buffer.extent_1
      = 16 := by
  decide

/-- C15 (amended): when the output descriptor is unallocated, after `curved_wrapped`
returns (with 0) the descriptor has been rewritten as a two-axis buffer: `min` and
`extent` of axes 0 and 1 are kept, the fast axis is contiguous, `stride[0] = 1`, and
`stride[1] = extent[0]`; `min`, `extent` and `stride` of axes 2 and 3 are 0, so
`stride[2]` is 0 and not `extent[0] * extent[1]`; `elem_size`, `host` and `dev` are
unchanged. -/
theorem rewritten_output_descriptor {F α β : Type} (fl : float_ops F)
    (env : environment α β) (a : arguments F α β)
    (h : host_and_dev_are_null a.var_processed_buffer = true) :
    (curved_wrapped fl env a).result = some 0 ∧
    (curved_wrapped fl env a).var_processed_buffer.stride_0 = 1 ∧
    (curved_wrapped fl env a).var_processed_buffer.stride_1 =
      (curved_wrapped fl env a).var_processed_buffer.extent_0 ∧
    (curved_wrapped fl env a).var_processed_buffer.min_0 = a.var_processed_buffer.min_0 ∧
    (curved_wrapped fl env a).var_processed_buffer.min_1 = a.var_processed_buffer.min_1 ∧
    (curved_wrapped fl env a).var_processed_buffer.extent_0 =
      a.var_processed_buffer.extent_0 ∧
    (curved_wrapped fl env a).var_processed_buffer.extent_1 =
      a.var_processed_buffer.extent_1 ∧
    ((curved_wrapped fl env a).var_processed_buffer.min_2 = 0 ∧
      (curved_wrapped fl env a).var_processed_buffer.extent_2 = 0 ∧
      (curved_wrapped fl env a).var_processed_buffer.stride_2 = 0) ∧
    ((curved_wrapped fl env a).var_processed_buffer.min_3 = 0 ∧
      (curved_wrapped fl env a).var_processed_buffer.extent_3 = 0 ∧
      (curved_wrapped fl env a).var_processed_buffer.stride_3 = 0) ∧
    (curved_wrapped fl env a).var_processed_buffer.elem_size =
      a.var_processed_buffer.elem_size ∧
    (curved_wrapped fl env a).var_processed_buffer.host = a.var_processed_buffer.host ∧
    (curved_wrapped fl env a).var_processed_buffer.dev = a.var_processed_buffer.dev := by
  unfold curved_wrapped
  simp [h, halide_rewrite_buffer]

/-- C15 (witness): the unallocated 4x4 output descriptor. -/
theorem rewritten_output_descriptor_witness :
    (curved_wrapped example_float_ops example_environment
      (example_arguments example_inp_6x6 example_out_unallocated)).var_processed_buffer.stride_1
      = (curved_wrapped example_float_ops example_environment
      (example_arguments example_inp_6x6 example_out_unallocated)).var_processed_buffer.extent_0 :=
  (rewritten_output_descriptor example_float_ops example_environment
    (example_arguments example_inp_6x6 example_out_unallocated) (by decide)).2.2.1

/-- C16: whenever `curved_wrapped` returns a nonzero code for allocated descriptors, the
code is the one of a reporting call of the checks and that call is the only step taken:
no tiling, no table, no transfer, no kernel run and no unpacking; both descriptors and
every element of the output image are unchanged. -/
theorem validation_failure_is_atomic {F α β : Type} (fl : float_ops F)
    (env : environment α β) (a : arguments F α β) (code : Int)
    (hout : host_and_dev_are_null a.var_processed_buffer = false)
    (hinp : host_and_dev_are_null a.var_input_buffer = false)
    (hres : (curved_wrapped fl env a).result = some code) (hcode : code ≠ 0) :
    (∃ c, curved_wrapped_checks a.var_input_buffer a.var_processed_buffer = some c ∧
      code = c.returned ∧ (curved_wrapped fl env a).trace = [event.report c]) ∧
    event.tiling ∉ (curved_wrapped fl env a).trace ∧
    event.tables ∉ (curved_wrapped fl env a).trace ∧
    event.write_matrix ∉ (curved_wrapped fl env a).trace ∧
    event.write_curve ∉ (curved_wrapped fl env a).trace ∧
    event.write_input ∉ (curved_wrapped fl env a).trace ∧
    event.enqueue_task ∉ (curved_wrapped fl env a).trace ∧
    event.read_buffer ∉ (curved_wrapped fl env a).trace ∧
    event.untiling ∉ (curved_wrapped fl env a).trace ∧
    (curved_wrapped fl env a).var_input_buffer = a.var_input_buffer ∧
    (curved_wrapped fl env a).var_processed_buffer = a.var_processed_buffer ∧
    (curved_wrapped fl env a).var_processed = a.var_processed := by
  have e : curved_wrapped fl env a =
      match curved_wrapped_checks a.var_input_buffer a.var_processed_buffer with
      | some c =>
        { result := some c.returned, var_input_buffer := a.var_input_buffer,
          var_processed_buffer := a.var_processed_buffer, var_processed := a.var_processed,
          trace := [event.report c] }
      | none => curved_wrapped_offload fl env a := by
    unfold curved_wrapped
    simp only [hout, hinp, Bool.or_false, Bool.not_false, if_true, Bool.false_eq_true,
      if_false]
  rw [e] at hres ⊢
  cases hc : curved_wrapped_checks a.var_input_buffer a.var_processed_buffer with
  | none =>
    rw [hc] at hres
    simp only at hres
    rcases (offload_result fl env a).1 with h | h
    · rw [h] at hres; cases hres
    · rw [h] at hres
      exact absurd (Option.some.inj hres).symm hcode
  | some c =>
    rw [hc] at hres
    simp only at hres
    have hcc : code = c.returned := (Option.some.inj hres).symm
    exact ⟨⟨c, rfl, hcc, rfl⟩, by simp, by simp, by simp, by simp, by simp, by simp,
      by simp, by simp, rfl, rfl, rfl⟩

/-- C16 (witness): the 4x4 output with the 3x5 input returns -4 and does nothing else. -/
theorem validation_failure_is_atomic_witness :
    (curved_wrapped example_float_ops example_environment
      (example_arguments example_inp_3x5 example_out_4x4)).result = some (-4) ∧
    (curved_wrapped example_float_ops example_environment
      (example_arguments example_inp_3x5 example_out_4x4)).var_processed_buffer =
        example_out_4x4 ∧
    (curved_wrapped example_float_ops example_environment
      (example_arguments example_inp_3x5 example_out_4x4)).var_processed =
        (example_arguments example_inp_3x5 example_out_4x4).var_processed :=
  have h := validation_failure_is_atomic example_float_ops example_environment
    (example_arguments example_inp_3x5 example_out_4x4) (-4) (by decide) (by decide)
    (by decide) (by decide)
  ⟨by decide, h.2.2.2.2.2.2.2.2.2.2.1, h.2.2.2.2.2.2.2.2.2.2.2⟩

theorem checks_of_same_shape (inp inp' out out' : buffer_t)
    (hi : same_shape inp inp') (ho : same_shape out out') :
    curved_wrapped_checks inp out = curved_wrapped_checks inp' out' := by
  obtain ⟨-, i1, i2, i3, i4, i5, i6, i7, i8, i9, i10, i11, i12, i13⟩ := hi
  obtain ⟨-, o1, o2, o3, o4, o5, o6, o7, o8, o9, o10, o11, o12, o13⟩ := ho
  simp only [curved_wrapped_checks, assign_6, assign_8, assign_10, assign_11, assign_12,
    assign_13, assign_14, assign_15, assign_16, assign_17, assign_18, assign_19, assign_21,
    assign_22, assign_23, assign_24, assign_25, assign_26, assign_27, assign_28, assign_29,
    assign_30, assign_32, assign_34, assign_36, assign_37, assign_38, assign_39, assign_40,
    assign_41, assign_42, assign_43, assign_47, assign_48, assign_49, assign_51, assign_58,
    assign_61, assign_63, assign_67, assign_68, assign_69, assign_71, assign_78,
    i1, i2, i5, i6, i9, i10, i13, o1, o2, o5, o6, o9, o10, o13]

/-- C17: two calls of `curved_wrapped` whose input and output descriptors agree on
allocation status, `min`, `extent`, `stride` and `elem_size` have the same validation
outcome, whatever the scalars, the reference matrices, the pixel contents and the
environment are: the checks give the same report or both pass, the first step of the
two calls is the same (the same report, the tiling stage, or none for a sizing request),
and one call returns a nonzero code exactly when the other returns that code. -/
theorem validation_depends_on_shapes {F α β F' α' β' : Type}
    (fl : float_ops F) (env : environment α β) (a : arguments F α β)
    (fl' : float_ops F') (env' : environment α' β') (a' : arguments F' α' β')
    (hi : same_shape a.var_input_buffer a'.var_input_buffer)
    (ho : same_shape a.var_processed_buffer a'.var_processed_buffer) :
    curved_wrapped_checks a.var_input_buffer a.var_processed_buffer =
      curved_wrapped_checks a'.var_input_buffer a'.var_processed_buffer ∧
    (curved_wrapped fl env a).trace.head? = (curved_wrapped fl' env' a').trace.head? ∧
    (∀ code : Int, code ≠ 0 →
      ((curved_wrapped fl env a).result = some code ↔
        (curved_wrapped fl' env' a').result = some code)) := by
  have hc := checks_of_same_shape _ _ _ _ hi ho
  have ni := hi.1
  have no := ho.1
  refine ⟨hc, ?_⟩
  unfold curved_wrapped
  simp only [← ni, ← no, ← hc]
  cases h4 : (host_and_dev_are_null a.var_processed_buffer ||
      host_and_dev_are_null a.var_input_buffer)
  · simp only [Bool.not_false, if_true]
    cases hcc : curved_wrapped_checks a.var_input_buffer a.var_processed_buffer with
    | some c => simp
    | none =>
      simp only
      obtain ⟨r1, t1⟩ := offload_result fl env a
      obtain ⟨r2, t2⟩ := offload_result fl' env' a'
      refine ⟨by rw [t1, t2, ho.2.2.2.2.2.1, ho.2.2.2.2.2.2.1], fun code hcode => ?_⟩
      constructor
      · intro h
        rcases r1 with r | r
        · rw [r] at h; cases h
        · rw [r] at h; exact absurd (Option.some.inj h).symm hcode
      · intro h
        rcases r2 with r | r
        · rw [r] at h; cases h
        · rw [r] at h; exact absurd (Option.some.inj h).symm hcode
  · simp

/-- C17 (witness): two calls with the 4x4 output and a 3x5 input, at different host
addresses, with different scalars, matrices and pixels, in different environments: both
return -4. -/
theorem validation_depends_on_shapes_witness :
    (curved_wrapped example_float_ops example_environment
      (example_arguments example_inp_6x6 example_out_4x4)).trace.head? =
    (curved_wrapped example_float_ops example_environment_down
      (example_arguments_other example_inp_6x6_moved example_out_4x4)).trace.head? ∧
    ((curved_wrapped example_float_ops example_environment
      (example_arguments example_inp_3x5 example_out_4x4)).result = some (-4) ↔
    (curved_wrapped example_float_ops example_environment_down
      (example_arguments_other example_inp_3x5 example_out_4x4)).result = some (-4)) :=
  ⟨(validation_depends_on_shapes example_float_ops example_environment
      (example_arguments example_inp_6x6 example_out_4x4)
      example_float_ops example_environment_down
      (example_arguments_other example_inp_6x6_moved example_out_4x4)
      (by decide) (by decide)).2.1,
   (validation_depends_on_shapes example_float_ops example_environment
      (example_arguments example_inp_3x5 example_out_4x4)
      example_float_ops example_environment_down
      (example_arguments_other example_inp_3x5 example_out_4x4)
      (by decide) (by decide)).2.2 (-4) (by decide)⟩

/-- C18: the code returned identifies the error kind: success is 0, each reporting call
returns the code of its kind, the codes of the five kinds are -3, -4, -5, -6 and -8,
nonzero and pairwise distinct, a call of `curved_wrapped` returns 0 or the code of the
report of a check, and `curved` ends exactly as `curved_wrapped` does, with the same
code. -/
theorem codes_identify_error_kind {F α β : Type} (fl : float_ops F)
    (env : environment α β) (a : arguments F α β) :
    halide_error_code_success = 0 ∧
    (∀ c : error_call, c.returned = c.kind.code ∧ c.returned ≠ 0) ∧
    (∀ c c' : error_call, c.returned = c'.returned ↔ c.kind = c'.kind) ∧
    (ErrorKind.BadElementSize.code = -3 ∧ ErrorKind.AccessOutOfBounds.code = -4 ∧
      ErrorKind.BufferAllocationTooLarge.code = -5 ∧
      ErrorKind.BufferExtentsTooLarge.code = -6 ∧ ErrorKind.ConstraintViolated.code = -8) ∧
    (∀ code : Int, (curved_wrapped fl env a).result = some code →
      code = 0 ∨ ∃ c, (curved_wrapped fl env a).trace = [event.report c] ∧
        code = c.returned) ∧
    (curved fl env a).result = (curved_wrapped fl env a).result ∧
    curved fl env a = curved_wrapped fl env a := by
  have hret : ∀ c : error_call, c.returned = c.kind.code ∧ c.returned ≠ 0 := by
    intro c
    cases c <;> simp [error_call.returned, error_call.kind, ErrorKind.code,
      halide_error_bad_elem_size, halide_error_constraint_violated,
      halide_error_buffer_allocation_too_large, halide_error_buffer_extents_too_large,
      halide_error_access_out_of_bounds, halide_error_code_bad_elem_size,
      halide_error_code_constraint_violated, halide_error_code_buffer_allocation_too_large,
      halide_error_code_buffer_extents_too_large, halide_error_code_access_out_of_bounds]
  have hinj : ∀ k k' : ErrorKind, k.code = k'.code ↔ k = k' := by
    intro k k'
    cases k <;> cases k' <;> simp [ErrorKind.code]
  have hcur : curved fl env a = curved_wrapped fl env a := by
    unfold curved
    cases hs : curved_wrapped fl env a with
    | mk result b1 b2 m t =>
      cases result with
      | none => rfl
      | some code =>
        simp only
        by_cases h0 : code = 0
        · simp [h0]
        · simp [h0]
  refine ⟨rfl, hret, ?_, ⟨rfl, rfl, rfl, rfl, rfl⟩, ?_, by rw [hcur], hcur⟩
  · intro c c'
    rw [(hret c).1, (hret c').1]
    exact hinj _ _
  · intro code hres
    unfold curved_wrapped at hres ⊢
    cases h4 : (host_and_dev_are_null a.var_processed_buffer ||
        host_and_dev_are_null a.var_input_buffer)
    · simp only [h4, Bool.not_false, if_true] at hres ⊢
      cases hcc : curved_wrapped_checks a.var_input_buffer a.var_processed_buffer with
      | some c =>
        rw [hcc] at hres
        simp only at hres ⊢
        exact Or.inr ⟨c, rfl, (Option.some.inj hres).symm⟩
      | none =>
        rw [hcc] at hres
        simp only at hres
        rcases (offload_result fl env a).1 with r | r
        · rw [r] at hres; cases hres
        · rw [r] at hres; exact Or.inl (Option.some.inj hres).symm
    · simp only [h4, Bool.not_true, Bool.false_eq_true, if_false] at hres
      exact Or.inl (Option.some.inj hres).symm

/-- C18 (witness): the call with the 4x4 output and the 3x5 input returns the code of
the one report it makes, through `curved` as well. -/
theorem codes_identify_error_kind_witness :
    ((-4 : Int) = 0 ∨ ∃ c, (curved_wrapped example_float_ops example_environment
        (example_arguments example_inp_3x5 example_out_4x4)).trace = [event.report c] ∧
      (-4 : Int) = c.returned) ∧
    (curved example_float_ops example_environment
      (example_arguments example_inp_3x5 example_out_4x4)).result = some (-4) :=
  ⟨(codes_identify_error_kind example_float_ops example_environment
      (example_arguments example_inp_3x5 example_out_4x4)).2.2.2.2.1 (-4) (by decide),
   by
    rw [(codes_identify_error_kind example_float_ops example_environment
      (example_arguments example_inp_3x5 example_out_4x4)).2.2.2.2.2.1]
    decide⟩

/-! ### The tone curve -/

theorem produce_curve_at {F : Type} (fl : float_ops F) (var_gamma var_contrast : F)
    (var_blackLevel var_whiteLevel : Int) (var_curve : Int → Int) (v : Int)
    (hv0 : 0 ≤ v) (hv : v < 1024) :
    produce_curve fl var_gamma var_contrast var_blackLevel var_whiteLevel var_curve v =
      var_280 fl var_gamma var_contrast var_blackLevel var_whiteLevel v := by
  unfold produce_curve
  have e := forLoop_eq_applyWrites 1024
    (fun var_curve_s0_v0 (curve : Int → Int) =>
      Function.update curve var_curve_s0_v0
        (var_280 fl var_gamma var_contrast var_blackLevel var_whiteLevel var_curve_s0_v0))
    (fun t => [(t, var_280 fl var_gamma var_contrast var_blackLevel var_whiteLevel t)])
    (fun _ _ => rfl) var_curve
  rw [e]
  apply applyWrites_of_mem
  · intro w hw ha
    obtain ⟨t, -, -, ht⟩ := (mem_loopWrites _ _ w).1 hw
    rw [List.mem_singleton] at ht
    subst ht
    simp only at ha
    rw [ha]
  · exact Or.inl ⟨_, (mem_loopWrites _ _ _).2 ⟨v, hv0, hv, List.mem_singleton.2 rfl⟩, rfl⟩

/-- C19: for every level `v` in 0..1023 with `v ≤ blackLevel`, the entry `curve[v]`
produced by `curved_wrapped` is 0, whatever gamma, contrast and the white level are
(and whatever the floating-point operations give). -/
theorem curve_is_zero_up_to_black_level {F : Type} (fl : float_ops F)
    (var_gamma var_contrast : F) (var_blackLevel var_whiteLevel : Int)
    (var_curve : Int → Int) (v : Int) (hv0 : 0 ≤ v) (hv : v < 1024)
    (hb : v ≤ var_blackLevel) :
    produce_curve fl var_gamma var_contrast var_blackLevel var_whiteLevel var_curve v = 0 := by
  rw [produce_curve_at fl var_gamma var_contrast var_blackLevel var_whiteLevel var_curve v
    hv0 hv]
  have hnot : ¬ var_blackLevel < v := by omega
  simp only [var_280, hnot, decide_False, Bool.false_eq_true, if_false, wrapU8]
  decide

/-- C19 (witness): black level 100, white level 900, level 100. -/
theorem curve_is_zero_up_to_black_level_witness :
    produce_curve example_float_ops 1 0 100 900 (fun _ => 77) 100 = 0 :=
  curve_is_zero_up_to_black_level example_float_ops 1 0 100 900 (fun _ => 77) 100
    (by decide) (by decide) (by decide)

/-- C20 (counterexample): with white level 10 and black level 100, the level 50 is
above the white level and the entry `curve[50]` is 0, not 255: the black level is
forced last. -/
theorem curve_black_level_wins :
    (0 : Int) ≤ 50 ∧ (50 : Int) < 1024 ∧ (10 : Int) < 50 ∧
    produce_curve example_float_ops 1 0 100 10 (fun _ => 77) 50 = 0 ∧
    produce_curve example_float_ops 1 0 100 10 (fun _ => 77) 50 ≠ 255 := by
  have e : produce_curve example_float_ops 1 0 100 10 (fun _ => 77) 50 = 0 := by
    rw [produce_curve_at example_float_ops 1 0 100 10 (fun _ => 77) 50 (by decide)
      (by decide)]
    decide
  refine ⟨by decide, by decide, by decide, e, ?_⟩
  rw [e]
  decide

/-- C20 (amended): for every level `v` in 0..1023 with `v > whiteLevel` and
`v > blackLevel`, the entry `curve[v]` produced by `curved_wrapped` is 255; a level
above the white level that is not above the black level gets 0. -/
theorem curve_is_full_above_white_level {F : Type} (fl : float_ops F)
    (var_gamma var_contrast : F) (var_blackLevel var_whiteLevel : Int)
    (var_curve : Int → Int) (v : Int) (hv0 : 0 ≤ v) (hv : v < 1024)
    (hw : var_whiteLevel < v) :
    (var_blackLevel < v →
      produce_curve fl var_gamma var_contrast var_blackLevel var_whiteLevel var_curve v
        = 255) ∧
    (v ≤ var_blackLevel →
      produce_curve fl var_gamma var_contrast var_blackLevel var_whiteLevel var_curve v
        = 0) := by
  rw [produce_curve_at fl var_gamma var_contrast var_blackLevel var_whiteLevel var_curve v
    hv0 hv]
  constructor
  · intro hb
    simp only [var_280, hw, hb, decide_True, if_true, wrapU8]
    decide
  · intro hb
    have hnot : ¬ var_blackLevel < v := by omega
    simp only [var_280, hnot, decide_False, Bool.false_eq_true, if_false, wrapU8]
    decide

/-- C20 (witness): black level 100, white level 900, level 901; and white level 10,
black level 100, level 50. -/
theorem curve_is_full_above_white_level_witness :
    produce_curve example_float_ops 1 0 100 900 (fun _ => 77) 901 = 255 ∧
    produce_curve example_float_ops 1 0 100 10 (fun _ => 77) 50 = 0 :=
  ⟨(curve_is_full_above_white_level example_float_ops 1 0 100 900 (fun _ => 77) 901
      (by decide) (by decide) (by decide)).1 (by decide),
   (curve_is_full_above_white_level example_float_ops 1 0 100 10 (fun _ => 77) 50
      (by decide) (by decide) (by decide)).2 (by decide)⟩

/-! ### The tiled buffers -/

/-- C27: the checks put no upper bound on the input extent.  The 4x4 output (mins 0,
strides (1, 4), element size 1) and the 200x200 input (mins 0, strides (1, 200), element
size 2) are allocated and pass every check without any wrap-around; there is one tile,
and the input size of this last tile is 200 on both axes, above `TILE_SIZE = 128`; the
local coordinate `(i, j) = (199, 199)` is in the index space of the tiling loop, the
loop writes there the source element `199 * 200 + 199` at the packed offset
`199 * 128 + 199 = 25671`, and this offset is not below the allocated length
`1 * 1 * 128 * 128 = 16384`. -/
theorem oversized_input_overruns_packed_buffer :
    host_and_dev_are_null example_inp_200x200 = false ∧
    host_and_dev_are_null example_out_4x4 = false ∧
    example_inp_200x200.wellTyped ∧ example_out_4x4.wellTyped ∧
    bounds_exact_0 example_inp_200x200 example_out_4x4 ∧
    bounds_exact_1 example_inp_200x200 example_out_4x4 ∧
    curved_wrapped_checks example_inp_200x200 example_out_4x4 = none ∧
    tile_num_dim0 example_out_4x4.extent_0 = 1 ∧
    tile_num_dim1 example_out_4x4.extent_1 = 1 ∧
    Pack.actual_tile_size_dim0 example_inp_200x200 example_out_4x4 0 = 200 ∧
    Pack.actual_tile_size_dim1 example_inp_200x200 example_out_4x4 0 = 200 ∧
    TILE_SIZE_DIM0 < Pack.actual_tile_size_dim0 example_inp_200x200 example_out_4x4 0 ∧
    TILE_SIZE_DIM1 < Pack.actual_tile_size_dim1 example_inp_200x200 example_out_4x4 0 ∧
    var_input_buf_length (tile_num_dim0 example_out_4x4.extent_0)
      (tile_num_dim1 example_out_4x4.extent_1) = 16384 ∧
    tile_num_dim0 example_out_4x4.extent_0 * tile_num_dim1 example_out_4x4.extent_1
      * TILE_SIZE_DIM0 * TILE_SIZE_DIM1 = 16384 ∧
    Pack.iterates example_inp_200x200 example_out_4x4 0 0 199 199 ∧
    Pack.tiled_offset (tile_num_dim0 example_out_4x4.extent_0) 0 0 199 199 = 25671 ∧
    199 * 128 + 199 = (25671 : Int) ∧
    ¬ (25671 < var_input_buf_length (tile_num_dim0 example_out_4x4.extent_0)
      (tile_num_dim1 example_out_4x4.extent_1)) ∧
    (∀ var_input : Int → Int,
      ((25671 : Int), var_input (199 * 200 + 199)) ∈
        tilingWrites example_inp_200x200 example_out_4x4 var_input) := by
  repeat (refine ⟨by decide, ?_⟩)
  intro var_input
  refine (mem_tilingWrites _ _ var_input _).2 ⟨0, 0, 199, 199, by decide, ?_⟩
  have e1 : Pack.tiled_offset (tile_num_dim0 example_out_4x4.extent_0) 0 0 199 199 = 25671 := by
    decide
  have e2 : Pack.original_offset example_inp_200x200 (Pack.p 0 199) (Pack.q 0 199)
      = 199 * 200 + 199 := by decide
  rw [e1, e2]

theorem var_processed_buf_length_eq (n0 n1 : Int) (h0 : 0 ≤ n0 * n1)
    (h : n0 * n1 * 49920 ≤ 2147483647) : var_processed_buf_length n0 n1 = n0 * n1 * 49920 := by
  have e : TILE_SIZE_DIM0 * TILE_SIZE_DIM1 / 21 * 64 = 49920 := by decide
  simp only [var_processed_buf_length, e]
  generalize n0 * n1 = N at h0 h
  simp only [wrap32]; omega

theorem var_input_buf_length_eq (n0 n1 : Int) (h0 : 0 ≤ n0 * n1)
    (h : n0 * n1 * 16384 ≤ 2147483647) : var_input_buf_length n0 n1 = n0 * n1 * 16384 := by
  simp only [var_input_buf_length, TILE_SIZE_DIM0, TILE_SIZE_DIM1]
  generalize n0 * n1 = N at h0 h
  simp only [wrap32]; omega

/-- The offset of a pixel inside the slot range of its tile: the block is the quotient
by 64, the position in the block the remainder. -/
theorem in_tile_offset (k j i : Int) (hk0 : 0 ≤ k) (hk : k < 3) (hj0 : 0 ≤ j) (hj : j < 110)
    (hi0 : 0 ≤ i) (hi : i < 106) :
    0 ≤ (j * 128 + i) / 21 * 64 + (j * 128 + i) % 21 * 3 + k ∧
    (j * 128 + i) / 21 * 64 + (j * 128 + i) % 21 * 3 + k ≤ 42878 ∧
    ((j * 128 + i) / 21 * 64 + (j * 128 + i) % 21 * 3 + k) / 64 = (j * 128 + i) / 21 ∧
    ((j * 128 + i) / 21 * 64 + (j * 128 + i) % 21 * 3 + k) % 64 =
      (j * 128 + i) % 21 * 3 + k ∧
    (j * 128 + i) % 21 * 3 + k ≤ 62 := by
  have hm0 : 0 ≤ j * 128 + i := by omega
  have hm : j * 128 + i ≤ 14057 := by omega
  generalize j * 128 + i = m at hm0 hm
  have hb0 : 0 ≤ m % 21 := Int.emod_nonneg _ (by decide)
  have hb : m % 21 < 21 := Int.emod_lt_of_pos _ (by decide)
  have ha0 : 0 ≤ m / 21 := Int.ediv_nonneg hm0 (by decide)
  have ha : m / 21 ≤ 669 := by omega
  generalize m / 21 = a at ha0 ha
  generalize m % 21 = b at hb0 hb
  omega

/-- The offset read by the unpacking loop when the tiled output buffer has at most
`2^32` elements: no reduction takes place. -/
theorem Unpack.tiled_offset_exact (n0 n1 ty tx k j i : Int)
    (htot : n0 * n1 * 49920 ≤ 4294967296)
    (hy0 : 0 ≤ ty) (hy : ty < n1) (hx0 : 0 ≤ tx) (hx : tx < n0)
    (hk0 : 0 ≤ k) (hk : k < 3) (hj0 : 0 ≤ j) (hj : j < 110) (hi0 : 0 ≤ i) (hi : i < 106) :
    Unpack.tiled_offset n0 ty tx k j i =
      (ty * n0 + tx) * 49920 + (j * 128 + i) / 21 * 64 + (j * 128 + i) % 21 * 3 + k := by
  rw [Unpack.tiled_offset_eq n0 ty tx k j i hj0 hj hi0 hi]
  obtain ⟨u1, u2⟩ := tile_index_lt n0 n1 ty tx hy0 hy hx0 hx
  generalize ty * n0 + tx = T at u1 u2
  generalize n0 * n1 = N at htot u2
  omega

/-- C28 (counterexample): an output of 9120134 columns and one row with an input of
9120136 columns and 3 rows passes every check without any wrap-around and has 86039
tiles in one row.  The offset the unpacking loop forms for the last tile, `tx = 86038`,
at `i = j = k = 0` is `86038 * 49920 - 2^32 = 49664`, below the first offset of the
tile's own slot range; the offset of the same tile at `i = 84` is 49920, the offset of
tile 1 at `i = 0`; and the length that line 406 computes for the allocation is
`86039 * 49920 - 2^32 = 99584`, so the offset 99840 of tile 2 is not below it. -/
theorem unpack_offset_leaves_slot :
    host_and_dev_are_null example_inp_long = false ∧
    host_and_dev_are_null example_out_long = false ∧
    example_inp_long.wellTyped ∧ example_out_long.wellTyped ∧
    bounds_exact_0 example_inp_long example_out_long ∧
    bounds_exact_1 example_inp_long example_out_long ∧
    curved_wrapped_checks example_inp_long example_out_long = none ∧
    tile_num_dim0 example_out_long.extent_0 = 86039 ∧
    tile_num_dim1 example_out_long.extent_1 = 1 ∧
    Unpack.iterates example_out_long 0 86038 0 0 ∧
    Unpack.tiled_offset 86039 0 86038 0 0 0 = 49664 ∧
    (0 * 86039 + 86038) * 49920 + ((0 * 128 + 0) / 21) * 64 + ((0 * 128 + 0) % 21) * 3 + 0
      = (4295016960 : Int) ∧
    ¬ ((0 * 86039 + 86038) * 49920 ≤ Unpack.tiled_offset 86039 0 86038 0 0 0) ∧
    Unpack.iterates example_out_long 0 86038 0 84 ∧
    Unpack.iterates example_out_long 0 1 0 0 ∧
    Unpack.tiled_offset 86039 0 86038 0 0 84 = 49920 ∧
    Unpack.tiled_offset 86039 0 1 0 0 0 = 49920 ∧
    var_processed_buf_length 86039 1 = 99584 ∧
    Unpack.tiled_offset 86039 0 2 0 0 0 = 99840 ∧
    ¬ (Unpack.tiled_offset 86039 0 2 0 0 0 < var_processed_buf_length 86039 1) := by
  decide

/-- C28 (amended): for all tile counts `n0`, `n1` with `n0 * n1 * 49920 ≤ 2^32` and all
`tx < n0`, `ty < n1`, `i < 106`, `j < 110`, `k < 3`, the offset read by the unpacking
loop is `(ty*n0 + tx)*49920 + ((j*128 + i)/21)*64 + ((j*128 + i)%21)*3 + k`; it lies in
the slot range `[(ty*n0 + tx)*49920, (ty*n0 + tx + 1)*49920)` of the tile and below
`n0*n1*49920`, which is the allocated length when it does not exceed `2^31 - 1`; its
position inside a 64-slot block is `((j*128 + i)%21)*3 + k`, at most 62; and another
index `(tx', ty', i', j', k')` of these ranges with the same offset is the same index. -/
theorem unpack_offsets_in_slots (n0 n1 ty tx k j i : Int)
    (htot : n0 * n1 * 49920 ≤ 4294967296)
    (hy0 : 0 ≤ ty) (hy : ty < n1) (hx0 : 0 ≤ tx) (hx : tx < n0)
    (hk0 : 0 ≤ k) (hk : k < 3) (hj0 : 0 ≤ j) (hj : j < 110) (hi0 : 0 ≤ i) (hi : i < 106) :
    Unpack.tiled_offset n0 ty tx k j i =
      (ty * n0 + tx) * 49920 + (j * 128 + i) / 21 * 64 + (j * 128 + i) % 21 * 3 + k ∧
    (ty * n0 + tx) * 49920 ≤ Unpack.tiled_offset n0 ty tx k j i ∧
    Unpack.tiled_offset n0 ty tx k j i < (ty * n0 + tx + 1) * 49920 ∧
    Unpack.tiled_offset n0 ty tx k j i < n0 * n1 * 49920 ∧
    (n0 * n1 * 49920 ≤ 2147483647 →
      Unpack.tiled_offset n0 ty tx k j i < var_processed_buf_length n0 n1) ∧
    (Unpack.tiled_offset n0 ty tx k j i - (ty * n0 + tx) * 49920) % 64 =
      (j * 128 + i) % 21 * 3 + k ∧
    (Unpack.tiled_offset n0 ty tx k j i - (ty * n0 + tx) * 49920) % 64 ≤ 62 ∧
    Unpack.tiled_offset n0 ty tx k j i % 64 ≤ 62 ∧
    (∀ ty' tx' k' j' i' : Int, 0 ≤ ty' → ty' < n1 → 0 ≤ tx' → tx' < n0 →
      0 ≤ k' → k' < 3 → 0 ≤ j' → j' < 110 → 0 ≤ i' → i' < 106 →
      Unpack.tiled_offset n0 ty' tx' k' j' i' = Unpack.tiled_offset n0 ty tx k j i →
      tx' = tx ∧ ty' = ty ∧ i' = i ∧ j' = j ∧ k' = k) := by
  have e := Unpack.tiled_offset_exact n0 n1 ty tx k j i htot hy0 hy hx0 hx hk0 hk hj0 hj hi0 hi
  obtain ⟨u1, u2⟩ := tile_index_lt n0 n1 ty tx hy0 hy hx0 hx
  obtain ⟨w0, w1, w2, w3, w4⟩ := in_tile_offset k j i hk0 hk hj0 hj hi0 hi
  have hN0 : 0 ≤ n0 * n1 := by omega
  have e' : Unpack.tiled_offset n0 ty tx k j i =
      (ty * n0 + tx) * 49920 +
        ((j * 128 + i) / 21 * 64 + (j * 128 + i) % 21 * 3 + k) := by rw [e]; ring
  have hlt : Unpack.tiled_offset n0 ty tx k j i < n0 * n1 * 49920 := by
    rw [e']
    generalize (j * 128 + i) / 21 * 64 + (j * 128 + i) % 21 * 3 + k = w at w0 w1
    generalize ty * n0 + tx = T at u1 u2
    generalize n0 * n1 = N at htot u2
    omega
  have hpos : (Unpack.tiled_offset n0 ty tx k j i - (ty * n0 + tx) * 49920) % 64 =
      (j * 128 + i) % 21 * 3 + k := by
    rw [e', ← w3]; congr 1; ring
  refine ⟨e, ?_, ?_, hlt, ?_, hpos, ?_, ?_, ?_⟩
  · rw [e']; omega
  · rw [e']; omega
  · intro hlen
    rw [var_processed_buf_length_eq n0 n1 hN0 hlen]
    exact hlt
  · rw [hpos]; exact w4
  · rw [e']
    have e2 : ((ty * n0 + tx) * 49920 +
        ((j * 128 + i) / 21 * 64 + (j * 128 + i) % 21 * 3 + k)) % 64 =
        ((j * 128 + i) / 21 * 64 + (j * 128 + i) % 21 * 3 + k) % 64 := by
      generalize (j * 128 + i) / 21 * 64 + (j * 128 + i) % 21 * 3 + k = w
      generalize ty * n0 + tx = T
      omega
    rw [e2, w3]; exact w4
  · intro ty' tx' k' j' i' a1 a2 a3 a4 a5 a6 a7 a8 a9 a10 h
    have f := Unpack.tiled_offset_exact n0 n1 ty' tx' k' j' i' htot a1 a2 a3 a4 a5 a6 a7 a8
      a9 a10
    obtain ⟨v1, v2⟩ := tile_index_lt n0 n1 ty' tx' a1 a2 a3 a4
    obtain ⟨x0, x1, x2, x3, x4⟩ := in_tile_offset k' j' i' a5 a6 a7 a8 a9 a10
    have f' : Unpack.tiled_offset n0 ty' tx' k' j' i' =
        (ty' * n0 + tx') * 49920 +
          ((j' * 128 + i') / 21 * 64 + (j' * 128 + i') % 21 * 3 + k') := by rw [f]; ring
    rw [e', f'] at h
    have hT : ty' * n0 + tx' = ty * n0 + tx ∧
        (j' * 128 + i') / 21 * 64 + (j' * 128 + i') % 21 * 3 + k' =
          (j * 128 + i) / 21 * 64 + (j * 128 + i) % 21 * 3 + k := by
      generalize (j' * 128 + i') / 21 * 64 + (j' * 128 + i') % 21 * 3 + k' = w' at h x0 x1
      generalize (j * 128 + i) / 21 * 64 + (j * 128 + i) % 21 * 3 + k = w at h w0 w1
      generalize ty' * n0 + tx' = T' at h
      generalize ty * n0 + tx = T at h
      omega
    obtain ⟨r1, r2⟩ := tile_index_unique _ _ _ _ _ a3 a4 hx0 hx hT.1
    have hq : (j' * 128 + i') / 21 = (j * 128 + i) / 21 := by rw [← x2, ← w2, hT.2]
    have hr : (j' * 128 + i') % 21 * 3 + k' = (j * 128 + i) % 21 * 3 + k := by
      rw [← x3, ← w3, hT.2]
    have hjik : j' = j ∧ i' = i ∧ k' = k := by omega
    exact ⟨r2, r1, hjik.2.1, hjik.1, hjik.2.2⟩

/-- C28 (witness): two tiles in a row, the last pixel of the largest valid region of
the second tile, channel 2: the offset is `49920 + 669 * 64 + 8 * 3 + 2 = 92762`. -/
theorem unpack_offsets_in_slots_witness :
    Unpack.tiled_offset 2 0 1 2 109 105 =
      (0 * 2 + 1) * 49920 + (109 * 128 + 105) / 21 * 64 + (109 * 128 + 105) % 21 * 3 + 2 ∧
    Unpack.tiled_offset 2 0 1 2 109 105 < (0 * 2 + 1 + 1) * 49920 :=
  ⟨(unpack_offsets_in_slots 2 1 0 1 2 109 105 (by decide) (by decide) (by decide)
      (by decide) (by decide) (by decide) (by decide) (by decide) (by decide) (by decide)
      (by decide)).1,
   (unpack_offsets_in_slots 2 1 0 1 2 109 105 (by decide) (by decide) (by decide)
      (by decide) (by decide) (by decide) (by decide) (by decide) (by decide) (by decide)
      (by decide)).2.2.1⟩

/-! ### Sizing requests -/

/-- C29 (counterexample): for an unallocated output descriptor of 2147483647 columns and
an unallocated input descriptor, the call returns 0 and leaves `extent[0] = -2147483647`
in the input descriptor, not `2147483647 + 2`, which is no value of `int32_t`. -/
theorem rewritten_input_extent_wraps :
    host_and_dev_are_null example_inp_unallocated = true ∧
    example_out_full_width.wellTyped ∧ example_inp_unallocated.wellTyped ∧
    (curved_wrapped example_float_ops example_environment
      (example_arguments example_inp_unallocated example_out_full_width)).result = some 0 ∧
    (curved_wrapped example_float_ops example_environment
      (example_arguments example_inp_unallocated example_out_full_width)).var_input_buffer.extent_0
      = -2147483647 ∧
    (curved_wrapped example_float_ops example_environment
      (example_arguments example_inp_unallocated example_out_full_width)).var_input_buffer.extent_0
      ≠ example_out_full_width.extent_0 + 2 := by
  decide

/-- C29 (amended): when the input descriptor is unallocated, `curved_wrapped` returns 0
and has rewritten it from the region asked of the output with a margin of 2 formed in
`int32_t`: `min[d]` is the output's `min[d]` and `extent[d]` is the output's
`extent[d] + 2` reduced to `int32_t` for `d` in {0, 1}, equal to `extent[d] + 2` when
that sum is a value of `int32_t`; `stride` is `(1, extent[0])` with the new `extent[0]`;
`min`, `extent` and `stride` of axes 2 and 3 are 0; `elem_size`, `host` and `dev` are
unchanged. -/
theorem rewritten_input_descriptor {F α β : Type} (fl : float_ops F)
    (env : environment α β) (a : arguments F α β)
    (h : host_and_dev_are_null a.var_input_buffer = true) :
    (curved_wrapped fl env a).result = some 0 ∧
    (curved_wrapped fl env a).var_input_buffer.min_0 = a.var_processed_buffer.min_0 ∧
    (curved_wrapped fl env a).var_input_buffer.min_1 = a.var_processed_buffer.min_1 ∧
    (curved_wrapped fl env a).var_input_buffer.extent_0 =
      wrap32 (a.var_processed_buffer.extent_0 + 2) ∧
    (curved_wrapped fl env a).var_input_buffer.extent_1 =
      wrap32 (a.var_processed_buffer.extent_1 + 2) ∧
    (isInt32 (a.var_processed_buffer.extent_0 + 2) →
      (curved_wrapped fl env a).var_input_buffer.extent_0 =
        a.var_processed_buffer.extent_0 + 2 ∧
      (curved_wrapped fl env a).var_input_buffer.stride_1 =
        a.var_processed_buffer.extent_0 + 2) ∧
    (isInt32 (a.var_processed_buffer.extent_1 + 2) →
      (curved_wrapped fl env a).var_input_buffer.extent_1 =
        a.var_processed_buffer.extent_1 + 2) ∧
    (curved_wrapped fl env a).var_input_buffer.stride_0 = 1 ∧
    (curved_wrapped fl env a).var_input_buffer.stride_1 =
      (curved_wrapped fl env a).var_input_buffer.extent_0 ∧
    ((curved_wrapped fl env a).var_input_buffer.min_2 = 0 ∧
      (curved_wrapped fl env a).var_input_buffer.extent_2 = 0 ∧
      (curved_wrapped fl env a).var_input_buffer.stride_2 = 0) ∧
    ((curved_wrapped fl env a).var_input_buffer.min_3 = 0 ∧
      (curved_wrapped fl env a).var_input_buffer.extent_3 = 0 ∧
      (curved_wrapped fl env a).var_input_buffer.stride_3 = 0) ∧
    (curved_wrapped fl env a).var_input_buffer.elem_size = a.var_input_buffer.elem_size ∧
    (curved_wrapped fl env a).var_input_buffer.host = a.var_input_buffer.host ∧
    (curved_wrapped fl env a).var_input_buffer.dev = a.var_input_buffer.dev := by
  have e0 : isInt32 (a.var_processed_buffer.extent_0 + 2) →
      wrap32 (a.var_processed_buffer.extent_0 + 2) = a.var_processed_buffer.extent_0 + 2 :=
    fun h => wrap32_of_isInt32 h
  have e1 : isInt32 (a.var_processed_buffer.extent_1 + 2) →
      wrap32 (a.var_processed_buffer.extent_1 + 2) = a.var_processed_buffer.extent_1 + 2 :=
    fun h => wrap32_of_isInt32 h
  unfold curved_wrapped
  simp [h, halide_rewrite_buffer]
  exact ⟨e0, e1⟩

/-- C29 (witness): the unallocated input descriptor and the 4x4 output: the input is
sized 6x6. -/
theorem rewritten_input_descriptor_witness :
    (curved_wrapped example_float_ops example_environment
      (example_arguments example_inp_unallocated example_out_4x4)).var_input_buffer.extent_0
      = wrap32 (example_out_4x4.extent_0 + 2) ∧
    (curved_wrapped example_float_ops example_environment
      (example_arguments example_inp_unallocated example_out_4x4)).var_input_buffer.extent_0
      = 6 :=
  ⟨(rewritten_input_descriptor example_float_ops example_environment
      (example_arguments example_inp_unallocated example_out_4x4) (by decide)).2.2.2.1,
   ((rewritten_input_descriptor example_float_ops example_environment
      (example_arguments example_inp_unallocated example_out_4x4) (by decide)).2.2.2.2.2.1
      (by decide)).1⟩

/-- The two descriptors after a call with both of them unallocated (lines 275-286). -/
theorem sizing_call_descriptors {F α β : Type} (fl : float_ops F)
    (env : environment α β) (a : arguments F α β)
    (hout : host_and_dev_are_null a.var_processed_buffer = true)
    (hinp : host_and_dev_are_null a.var_input_buffer = true) :
    (curved_wrapped fl env a).var_processed_buffer =
      halide_rewrite_buffer a.var_processed_buffer 2
        a.var_processed_buffer.min_0 a.var_processed_buffer.extent_0 1
        a.var_processed_buffer.min_1 a.var_processed_buffer.extent_1
        a.var_processed_buffer.extent_0 0 0 0 0 0 0 ∧
    (curved_wrapped fl env a).var_input_buffer =
      halide_rewrite_buffer a.var_input_buffer 2
        a.var_processed_buffer.min_0 (wrap32 (a.var_processed_buffer.extent_0 + 2)) 1
        a.var_processed_buffer.min_1 (wrap32 (a.var_processed_buffer.extent_1 + 2))
        (wrap32 (a.var_processed_buffer.extent_0 + 2)) 0 0 0 0 0 0 := by
  unfold curved_wrapped
  simp [hout, hinp]

/-- The value returned by a call with allocated descriptors, from the result of the
checks. -/
theorem allocated_call_result {F α β : Type} (fl : float_ops F)
    (env : environment α β) (a : arguments F α β)
    (hout : host_and_dev_are_null a.var_processed_buffer = false)
    (hinp : host_and_dev_are_null a.var_input_buffer = false) (r : Int)
    (h : (curved_wrapped fl env a).result = some r) :
    r = 0 ∨ ∃ c, curved_wrapped_checks a.var_input_buffer a.var_processed_buffer = some c ∧
      r = c.returned := by
  unfold curved_wrapped at h
  simp only [hout, hinp, Bool.or_false, Bool.not_false, if_true] at h
  cases hc : curved_wrapped_checks a.var_input_buffer a.var_processed_buffer with
  | none =>
    rw [hc] at h
    simp only [] at h
    rcases (offload_result fl env a).1 with h' | h'
    · rw [h'] at h; cases h
    · rw [h'] at h; injection h with h; exact Or.inl h.symm
  | some c =>
    rw [hc] at h
    simp only [] at h
    injection h with h
    exact Or.inr ⟨c, rfl, h.symm⟩

/-- C30: sizing and validation agree.  Let a call with both descriptors unallocated,
for any output `min` and `extent` (values of `int32_t`), size the two descriptors, and
let the caller give them storage and the element sizes 1 (output) and 2 (input).  In a
second call on these descriptors the two element-size checks, the bounds checks of
axes 0 and 1 and the two fast-axis stride checks pass; a report of the checks, if any,
is one of the size limits, and the second call returns 0 or one of the two size-limit
codes -5 and -6 when it returns. -/
theorem sizing_agrees_with_validation {F α β : Type} (fl : float_ops F)
    (env env' : environment α β) (a a' : arguments F α β)
    (hout : host_and_dev_are_null a.var_processed_buffer = true)
    (hinp : host_and_dev_are_null a.var_input_buffer = true)
    (hmin0 : isInt32 a.var_processed_buffer.min_0)
    (hmin1 : isInt32 a.var_processed_buffer.min_1)
    (host_i dev_i host_o dev_o : Nat)
    (hi : host_i ≠ 0 ∨ dev_i ≠ 0) (ho : host_o ≠ 0 ∨ dev_o ≠ 0)
    (ha_inp : a'.var_input_buffer =
      (curved_wrapped fl env a).var_input_buffer.with_storage host_i dev_i 2)
    (ha_out : a'.var_processed_buffer =
      (curved_wrapped fl env a).var_processed_buffer.with_storage host_o dev_o 1) :
    host_and_dev_are_null a'.var_input_buffer = false ∧
    host_and_dev_are_null a'.var_processed_buffer = false ∧
    assign_6 a'.var_processed_buffer = true ∧ assign_8 a'.var_input_buffer = true ∧
    assign_15 a'.var_input_buffer a'.var_processed_buffer = true ∧
    assign_26 a'.var_input_buffer a'.var_processed_buffer = true ∧
    assign_32 a'.var_processed_buffer = true ∧ assign_34 a'.var_input_buffer = true ∧
    (∀ c, curved_wrapped_checks a'.var_input_buffer a'.var_processed_buffer = some c →
      c.kind = ErrorKind.BufferAllocationTooLarge ∨
      c.kind = ErrorKind.BufferExtentsTooLarge) ∧
    (∀ r, (curved_wrapped fl env' a').result = some r →
      r = 0 ∨ r = halide_error_code_buffer_allocation_too_large ∨
      r = halide_error_code_buffer_extents_too_large) := by
  obtain ⟨eo, ei⟩ := sizing_call_descriptors fl env a hout hinp
  rw [ei] at ha_inp
  rw [eo] at ha_out
  have n1 : host_and_dev_are_null a'.var_input_buffer = false := by
    rw [ha_inp]
    simp only [host_and_dev_are_null, buffer_t.with_storage]
    rcases hi with hi | hi <;> simp [hi]
  have n2 : host_and_dev_are_null a'.var_processed_buffer = false := by
    rw [ha_out]
    simp only [host_and_dev_are_null, buffer_t.with_storage]
    rcases ho with ho | ho <;> simp [ho]
  have h6 : assign_6 a'.var_processed_buffer = true := by
    rw [ha_out]; simp [assign_6, buffer_t.with_storage]
  have h8 : assign_8 a'.var_input_buffer = true := by
    rw [ha_inp]; simp [assign_8, buffer_t.with_storage]
  have h15 : assign_15 a'.var_input_buffer a'.var_processed_buffer = true := by
    rw [ha_inp, ha_out]
    simp only [assign_15, assign_10, assign_14, assign_13, assign_12, assign_11,
      buffer_t.with_storage, halide_rewrite_buffer, Bool.and_eq_true, decide_eq_true_eq]
    unfold isInt32 at hmin0
    generalize a.var_processed_buffer.min_0 = m at hmin0
    generalize a.var_processed_buffer.extent_0 = E
    simp only [wrap32]
    omega
  have h26 : assign_26 a'.var_input_buffer a'.var_processed_buffer = true := by
    rw [ha_inp, ha_out]
    simp only [assign_26, assign_21, assign_25, assign_24, assign_23, assign_22,
      buffer_t.with_storage, halide_rewrite_buffer, Bool.and_eq_true, decide_eq_true_eq]
    unfold isInt32 at hmin1
    generalize a.var_processed_buffer.min_1 = m at hmin1
    generalize a.var_processed_buffer.extent_1 = E
    simp only [wrap32]
    omega
  have h32 : assign_32 a'.var_processed_buffer = true := by
    rw [ha_out]; simp [assign_32, buffer_t.with_storage, halide_rewrite_buffer]
  have h34 : assign_34 a'.var_input_buffer = true := by
    rw [ha_inp]; simp [assign_34, buffer_t.with_storage, halide_rewrite_buffer]
  have hk : ∀ c, curved_wrapped_checks a'.var_input_buffer a'.var_processed_buffer = some c →
      c.kind = ErrorKind.BufferAllocationTooLarge ∨
      c.kind = ErrorKind.BufferExtentsTooLarge := by
    intro c hc
    simp only [curved_wrapped_checks, h6, h8, h15, h26, h32, h34, Bool.not_true,
      Bool.false_eq_true, if_false] at hc
    split_ifs at hc <;> cases hc <;> simp [error_call.kind]
  refine ⟨n1, n2, h6, h8, h15, h26, h32, h34, hk, ?_⟩
  intro r hr
  rcases allocated_call_result fl env' a' n2 n1 r hr with h | ⟨c, hc, rfl⟩
  · exact Or.inl h
  · have := hk c hc
    cases c <;> simp [error_call.kind] at this <;>
      simp [error_call.returned, halide_error_buffer_allocation_too_large,
        halide_error_buffer_extents_too_large]

/-- C30 (witness): the region of 50000x50000 pixels at column -7 and row 12; the call
that sizes the descriptors gives a 50000x50000 output and a 50002x50002 input, and the
second call stops at the first size limit of the output, `extent[1] * stride[1]`, with
the code -5. -/
theorem sizing_agrees_with_validation_witness :
    assign_15
      ((curved_wrapped example_float_ops example_environment
        (example_arguments example_inp_unallocated example_out_50000)).var_input_buffer.with_storage
          8192 0 2)
      ((curved_wrapped example_float_ops example_environment
        (example_arguments example_inp_unallocated
          example_out_50000)).var_processed_buffer.with_storage 4096 0 1) = true ∧
    (curved_wrapped example_float_ops example_environment
      (example_arguments
        ((curved_wrapped example_float_ops example_environment
          (example_arguments example_inp_unallocated
            example_out_50000)).var_input_buffer.with_storage 8192 0 2)
        ((curved_wrapped example_float_ops example_environment
          (example_arguments example_inp_unallocated
            example_out_50000)).var_processed_buffer.with_storage 4096 0 1))).result
      = some (-5) ∧
    ((-5 : Int) = 0 ∨ (-5 : Int) = halide_error_code_buffer_allocation_too_large ∨
      (-5 : Int) = halide_error_code_buffer_extents_too_large) :=
  ⟨(sizing_agrees_with_validation example_float_ops example_environment example_environment
      (example_arguments example_inp_unallocated example_out_50000)
      (example_arguments
        ((curved_wrapped example_float_ops example_environment
          (example_arguments example_inp_unallocated
            example_out_50000)).var_input_buffer.with_storage 8192 0 2)
        ((curved_wrapped example_float_ops example_environment
          (example_arguments example_inp_unallocated
            example_out_50000)).var_processed_buffer.with_storage 4096 0 1))
      (by decide) (by decide) (by decide) (by decide) 8192 0 4096 0 (by decide) (by decide)
      rfl rfl).2.2.2.2.1,
   by decide,
   (sizing_agrees_with_validation example_float_ops example_environment example_environment
      (example_arguments example_inp_unallocated example_out_50000)
      (example_arguments
        ((curved_wrapped example_float_ops example_environment
          (example_arguments example_inp_unallocated
            example_out_50000)).var_input_buffer.with_storage 8192 0 2)
        ((curved_wrapped example_float_ops example_environment
          (example_arguments example_inp_unallocated
            example_out_50000)).var_processed_buffer.with_storage 4096 0 1))
      (by decide) (by decide) (by decide) (by decide) 8192 0 4096 0 (by decide) (by decide)
      rfl rfl).2.2.2.2.2.2.2.2.2 (-5) (by decide)⟩

/-! ### Transfers to the device -/

/-- C25 (failing input): the 4x4 output and the 6x6 input pass every check.  When the
write of the colour matrix fails (result -5) and the two later writes succeed, the call
runs the kernel, reads back, unpacks and returns 0; the same when only the write of the
tone curve fails.  Only the failure of the third write, the tiled input, ends the call
(the process exits) before the kernel is run: lines 701-703 assign the three results to
the same `err`, and line 704 tests the last one. -/
theorem failed_table_write_is_ignored :
    curved_wrapped_checks example_inp_6x6 example_out_4x4 = none ∧
    example_environment_matrix_write_fails.write_matrix_err ≠ 0 ∧
    (curved_wrapped example_float_ops example_environment_matrix_write_fails
      (example_arguments example_inp_6x6 example_out_4x4)).result = some 0 ∧
    (curved_wrapped example_float_ops example_environment_matrix_write_fails
      (example_arguments example_inp_6x6 example_out_4x4)).trace =
      [event.tiling, event.tables, event.write_matrix, event.write_curve, event.write_input,
        event.enqueue_task, event.read_buffer, event.untiling] ∧
    example_environment_curve_write_fails.write_curve_err ≠ 0 ∧
    (curved_wrapped example_float_ops example_environment_curve_write_fails
      (example_arguments example_inp_6x6 example_out_4x4)).result = some 0 ∧
    event.enqueue_task ∈ (curved_wrapped example_float_ops example_environment_curve_write_fails
      (example_arguments example_inp_6x6 example_out_4x4)).trace ∧
    (curved example_float_ops example_environment_matrix_write_fails
      (example_arguments example_inp_6x6 example_out_4x4)).result = some 0 ∧
    example_environment_input_write_fails.write_input_err ≠ 0 ∧
    (curved_wrapped example_float_ops example_environment_input_write_fails
      (example_arguments example_inp_6x6 example_out_4x4)).result = none ∧
    event.enqueue_task ∉ (curved_wrapped example_float_ops example_environment_input_write_fails
      (example_arguments example_inp_6x6 example_out_4x4)).trace := by
  decide

/-! ### Tile planning on accepted descriptors -/

/-- What the checks give when every field is a value of `int32_t` and the sums of the
bounds checks are formed without wrap-around: the margin of 2 on axes 0 and 1 and the
limit on the number of elements. -/
theorem accepted_facts (inp out : buffer_t) (hout : out.wellTyped) (hinp : inp.wellTyped)
    (h : curved_wrapped_checks inp out = none)
    (hb0 : bounds_exact_0 inp out) (hb1 : bounds_exact_1 inp out) :
    out.extent_0 + 2 ≤ inp.extent_0 ∧ out.extent_1 + 2 ≤ inp.extent_1 ∧
    inp.extent_0 * inp.extent_1 ≤ 2147483647 ∧ out.extent_0 * out.extent_1 ≤ 2147483647 ∧
    inp.stride_0 = 1 ∧ out.stride_0 = 1 := by
  obtain ⟨-, -, c15, c26, c32, c34, -, -, c58, -, -, c78⟩ := (checks_none_iff inp out).1 h
  obtain ⟨a0, b0⟩ := (assign_15_iff inp out hb0).1 c15
  obtain ⟨a1, b1⟩ := (assign_26_iff inp out hb1).1 c26
  obtain ⟨oe0, oe1, -⟩ := hout
  obtain ⟨ie0, ie1, -⟩ := hinp
  have m : wrap64 2147483647 = 2147483647 := by decide
  have so : out.stride_0 = 1 := by simpa [assign_32] using c32
  have si : inp.stride_0 = 1 := by simpa [assign_34] using c34
  simp only [assign_58, assign_38, assign_36, assign_37, m, wrap64_of_int32 oe1,
    wrap64_of_int32 oe0, wrap64_mul_of_int32 oe1 oe0, decide_eq_true_eq] at c58
  simp only [assign_78, assign_41, assign_39, assign_40, m, wrap64_of_int32 ie1,
    wrap64_of_int32 ie0, wrap64_mul_of_int32 ie1 ie0, decide_eq_true_eq] at c78
  rw [Int.mul_comm] at c58 c78
  exact ⟨by omega, by omega, c78, c58, si, so⟩

/-- An image of at least `a` columns and `b` rows within the limit on the number of
elements has at most `2147483647 / b` columns. -/
theorem extent_le_of_product {x y a b : Int} (hx : a ≤ x) (hy : b ≤ y) (ha : 0 < a)
    (h : x * y ≤ 2147483647) : x * b ≤ 2147483647 := by
  have h1 : x * b ≤ x * y := Int.mul_le_mul_of_nonneg_left hy (by omega)
  omega

/-- C24 (counterexample): the 23000x23000 output and the 23002x23002 input are
allocated and pass every check without any wrap-around; the tile counts are 217 and
210, and the element count of the tiled output buffer, `217 * 210 * 49920 = 2274854400`,
exceeds `2^31 - 1`: the `int` expression of line 406 has the value -2020112896. -/
theorem tiled_buffer_length_overflows :
    host_and_dev_are_null example_inp_23002 = false ∧
    host_and_dev_are_null example_out_23000 = false ∧
    example_inp_23002.wellTyped ∧ example_out_23000.wellTyped ∧
    bounds_exact_0 example_inp_23002 example_out_23000 ∧
    bounds_exact_1 example_inp_23002 example_out_23000 ∧
    curved_wrapped_checks example_inp_23002 example_out_23000 = none ∧
    tile_num_dim0 example_out_23000.extent_0 = 217 ∧
    tile_num_dim1 example_out_23000.extent_1 = 210 ∧
    tile_num_dim0 example_out_23000.extent_0 * tile_num_dim1 example_out_23000.extent_1 *
      (TILE_SIZE_DIM0 * TILE_SIZE_DIM1 / 21 * 64) = 2274854400 ∧
    ¬ (tile_num_dim0 example_out_23000.extent_0 * tile_num_dim1 example_out_23000.extent_1 *
      (TILE_SIZE_DIM0 * TILE_SIZE_DIM1 / 21 * 64) ≤ 2147483647) ∧
    var_processed_buf_length (tile_num_dim0 example_out_23000.extent_0)
      (tile_num_dim1 example_out_23000.extent_1) = -2020112896 := by
  decide

/-- C24 (amended): for every pair of descriptors (fields in `int32_t`) that passes the
checks, the sums of the bounds checks formed without wrap-around, and output extents of
at least 1, the sums `out.extent + TILE_SIZE - STENCIL` are at most `2^31 - 1`, so that
the tile counts are the exact quotients `(E0 + 105) / 106` and `(E1 + 109) / 110`, both
at least 1; the element counts of the two tiled buffers are formed without overflow
exactly when the products `n0 * n1 * 16384` and `n0 * n1 * 49920` are at most
`2^31 - 1`, that is for at most 131071 and 43018 tiles, which the checks do not
ensure. -/
theorem tile_planning_within_int32 (inp out : buffer_t)
    (hout : out.wellTyped) (hinp : inp.wellTyped)
    (h : curved_wrapped_checks inp out = none)
    (hb0 : bounds_exact_0 inp out) (hb1 : bounds_exact_1 inp out)
    (h0 : 1 ≤ out.extent_0) (h1 : 1 ≤ out.extent_1) :
    (out.extent_0 + TILE_SIZE_DIM0 ≤ 2147483647 ∧
      out.extent_0 + TILE_SIZE_DIM0 - STENCIL_DIM0 ≤ 2147483647 ∧
      out.extent_1 + TILE_SIZE_DIM1 ≤ 2147483647 ∧
      out.extent_1 + TILE_SIZE_DIM1 - STENCIL_DIM1 ≤ 2147483647) ∧
    (tile_num_dim0 out.extent_0 = (out.extent_0 + 105) / 106 ∧
      tile_num_dim1 out.extent_1 = (out.extent_1 + 109) / 110 ∧
      1 ≤ tile_num_dim0 out.extent_0 ∧ 1 ≤ tile_num_dim1 out.extent_1) ∧
    (var_input_buf_length (tile_num_dim0 out.extent_0) (tile_num_dim1 out.extent_1) =
        tile_num_dim0 out.extent_0 * tile_num_dim1 out.extent_1 * 16384 ↔
      tile_num_dim0 out.extent_0 * tile_num_dim1 out.extent_1 * 16384 ≤ 2147483647) ∧
    (var_processed_buf_length (tile_num_dim0 out.extent_0) (tile_num_dim1 out.extent_1) =
        tile_num_dim0 out.extent_0 * tile_num_dim1 out.extent_1 * 49920 ↔
      tile_num_dim0 out.extent_0 * tile_num_dim1 out.extent_1 * 49920 ≤ 2147483647) ∧
    (tile_num_dim0 out.extent_0 * tile_num_dim1 out.extent_1 * 16384 ≤ 2147483647 ↔
      tile_num_dim0 out.extent_0 * tile_num_dim1 out.extent_1 ≤ 131071) ∧
    (tile_num_dim0 out.extent_0 * tile_num_dim1 out.extent_1 * 49920 ≤ 2147483647 ↔
      tile_num_dim0 out.extent_0 * tile_num_dim1 out.extent_1 ≤ 43018) := by
  obtain ⟨f0, f1, f2, -, -, -⟩ := accepted_facts inp out hout hinp h hb0 hb1
  have g0 : inp.extent_0 * 3 ≤ 2147483647 :=
    extent_le_of_product (Int.le_refl _) (by omega) (by omega) f2
  have g1 : inp.extent_1 * 3 ≤ 2147483647 := by
    rw [Int.mul_comm] at f2
    exact extent_le_of_product (Int.le_refl _) (by omega) (by omega) f2
  have e0 := tile_num_dim0_eq (E := out.extent_0) (by omega) (by omega)
  have e1 := tile_num_dim1_eq (E := out.extent_1) (by omega) (by omega)
  have p0 : 1 ≤ tile_num_dim0 out.extent_0 := by rw [e0]; omega
  have p1 : 1 ≤ tile_num_dim1 out.extent_1 := by rw [e1]; omega
  have pN : 1 ≤ tile_num_dim0 out.extent_0 * tile_num_dim1 out.extent_1 := by nlinarith
  have wI : ∀ N : Int, 1 ≤ N →
      (wrap32 (wrap32 (wrap32 N * 128) * 128) = N * 16384 ↔ N * 16384 ≤ 2147483647) := by
    intro N hN
    have := wrap32_modEq N
    constructor
    · intro e
      have : wrap32 (wrap32 (wrap32 N * 128) * 128) ≤ 2147483647 := by
        generalize wrap32 (wrap32 N * 128) * 128 = z
        simp only [wrap32]; omega
      omega
    · intro hle
      simp only [wrap32]; omega
  have wO : ∀ N : Int, 1 ≤ N →
      (wrap32 (wrap32 N * 49920) = N * 49920 ↔ N * 49920 ≤ 2147483647) := by
    intro N hN
    constructor
    · intro e
      have : wrap32 (wrap32 N * 49920) ≤ 2147483647 := by
        generalize wrap32 N * 49920 = z
        simp only [wrap32]; omega
      omega
    · intro hle
      simp only [wrap32]; omega
  have hs : TILE_SIZE_DIM0 * TILE_SIZE_DIM1 / 21 * 64 = 49920 := by decide
  refine ⟨?_, ⟨e0, e1, p0, p1⟩, ?_, ?_, ?_, ?_⟩
  · simp only [TILE_SIZE_DIM0, TILE_SIZE_DIM1, STENCIL_DIM0, STENCIL_DIM1]
    omega
  · simp only [var_input_buf_length, TILE_SIZE_DIM0, TILE_SIZE_DIM1]
    exact wI _ pN
  · simp only [var_processed_buf_length, hs]
    exact wO _ pN
  · generalize tile_num_dim0 out.extent_0 * tile_num_dim1 out.extent_1 = N
    omega
  · generalize tile_num_dim0 out.extent_0 * tile_num_dim1 out.extent_1 = N
    omega

/-- C24 (witness): the 4x4 output and the 6x6 input: one tile, buffers of 16384 and
49920 elements. -/
theorem tile_planning_within_int32_witness :
    tile_num_dim0 example_out_4x4.extent_0 = (example_out_4x4.extent_0 + 105) / 106 ∧
    (var_processed_buf_length (tile_num_dim0 example_out_4x4.extent_0)
        (tile_num_dim1 example_out_4x4.extent_1) =
        tile_num_dim0 example_out_4x4.extent_0 * tile_num_dim1 example_out_4x4.extent_1
          * 49920 ↔
      tile_num_dim0 example_out_4x4.extent_0 * tile_num_dim1 example_out_4x4.extent_1
        * 49920 ≤ 2147483647) :=
  ⟨(tile_planning_within_int32 example_inp_6x6 example_out_4x4 (by decide) (by decide)
      (by decide) (by decide) (by decide) (by decide) (by decide)).2.1.1,
   (tile_planning_within_int32 example_inp_6x6 example_out_4x4 (by decide) (by decide)
      (by decide) (by decide) (by decide) (by decide) (by decide)).2.2.2.1⟩

/-! ### The tiling loop on an input with the exact halo -/

/-- The input size of a tile on axis 0 when the input is the output and the halo. -/
theorem Pack.size0_halo (inp out : buffer_t) (h0 : 0 < out.extent_0)
    (h1 : out.extent_0 ≤ 2147483520) (hh : inp.extent_0 = out.extent_0 + 22) (t : Int)
    (ht0 : 0 ≤ t) (ht : t < tile_num_dim0 out.extent_0) :
    Pack.actual_tile_size_dim0 inp out t =
      (if t < tile_num_dim0 out.extent_0 - 1 then 128 else inp.extent_0 - 106 * t) ∧
    23 ≤ Pack.actual_tile_size_dim0 inp out t ∧ Pack.actual_tile_size_dim0 inp out t ≤ 128 ∧
    t * 106 + Pack.actual_tile_size_dim0 inp out t ≤ inp.extent_0 := by
  have hn := tile_num_dim0_eq (le_of_lt h0) (by omega : out.extent_0 ≤ 2147483542)
  simp only [Pack.actual_tile_size_dim0, step_dim0]
  simp only [TILE_SIZE_DIM0]
  rw [hn] at ht ⊢
  rw [hh]
  simp only [wrap32, wrapU32]
  split_ifs <;> omega

/-- The input size of a tile on axis 1 when the input is the output and the halo. -/
theorem Pack.size1_halo (inp out : buffer_t) (h0 : 0 < out.extent_1)
    (h1 : out.extent_1 ≤ 2147483520) (hh : inp.extent_1 = out.extent_1 + 18) (t : Int)
    (ht0 : 0 ≤ t) (ht : t < tile_num_dim1 out.extent_1) :
    Pack.actual_tile_size_dim1 inp out t =
      (if t < tile_num_dim1 out.extent_1 - 1 then 128 else inp.extent_1 - 110 * t) ∧
    19 ≤ Pack.actual_tile_size_dim1 inp out t ∧ Pack.actual_tile_size_dim1 inp out t ≤ 128 ∧
    t * 110 + Pack.actual_tile_size_dim1 inp out t ≤ inp.extent_1 := by
  have hn := tile_num_dim1_eq (le_of_lt h0) (by omega : out.extent_1 ≤ 2147483538)
  simp only [Pack.actual_tile_size_dim1, step_dim1]
  simp only [TILE_SIZE_DIM1]
  rw [hn] at ht ⊢
  rw [hh]
  simp only [wrap32, wrapU32]
  split_ifs <;> omega

theorem Pack.source_column_eq (t i : Int) (ht0 : 0 ≤ t) (hi0 : 0 ≤ i)
    (h : t * 106 + i ≤ 2147483647) : Pack.p t i = t * 106 + i := by
  simp only [Pack.p, step_dim0, wrap32, wrapU32]; omega

theorem Pack.source_row_eq (t j : Int) (ht0 : 0 ≤ t) (hj0 : 0 ≤ j)
    (h : t * 110 + j ≤ 2147483647) : Pack.q t j = t * 110 + j := by
  simp only [Pack.q, step_dim1, wrap32, wrapU32]; omega

/-- The offset written by the tiling loop when no tile is larger than 128x128 and the
tiled input buffer has at most `2^32` elements: no reduction takes place. -/
theorem Pack.tiled_offset_no_wrap (n0 n1 ty tx j i : Int)
    (htot : n0 * n1 * 16384 ≤ 4294967296)
    (hy0 : 0 ≤ ty) (hy : ty < n1) (hx0 : 0 ≤ tx) (hx : tx < n0)
    (hj0 : 0 ≤ j) (hj : j < 128) (hi0 : 0 ≤ i) (hi : i < 128) :
    Pack.tiled_offset n0 ty tx j i = (ty * n0 + tx) * 16384 + j * 128 + i := by
  rw [Pack.tiled_offset_row_major]
  obtain ⟨u1, u2⟩ := tile_index_lt n0 n1 ty tx hy0 hy hx0 hx
  generalize ty * n0 + tx = T at u1 u2
  generalize n0 * n1 = N at htot u2
  omega

/-- C26 (counterexample): the output of one column and 28835841 rows and the input of
23 columns and 28835859 rows, the output and the exact halo, are allocated and pass
every check without any wrap-around; there are 262145 tiles.  The first element of the
first tile and the first element of the last tile, both in the index space of the
tiling loop, are written at the same packed offset 0, since `262144 * 16384 = 2^32`; and
the first element of the second tile is written at the offset 16384, not below the
length 16384 that line 407 computes for the allocation. -/
theorem exact_halo_offsets_collide :
    host_and_dev_are_null example_inp_tall = false ∧
    host_and_dev_are_null example_out_tall = false ∧
    example_inp_tall.wellTyped ∧ example_out_tall.wellTyped ∧
    bounds_exact_0 example_inp_tall example_out_tall ∧
    bounds_exact_1 example_inp_tall example_out_tall ∧
    curved_wrapped_checks example_inp_tall example_out_tall = none ∧
    0 < example_out_tall.extent_0 ∧ 0 < example_out_tall.extent_1 ∧
    example_inp_tall.extent_0 = example_out_tall.extent_0 + STENCIL_DIM0 - 1 ∧
    example_inp_tall.extent_1 = example_out_tall.extent_1 + STENCIL_DIM1 - 1 ∧
    tile_num_dim0 example_out_tall.extent_0 = 1 ∧
    tile_num_dim1 example_out_tall.extent_1 = 262145 ∧
    Pack.iterates example_inp_tall example_out_tall 0 0 0 0 ∧
    Pack.iterates example_inp_tall example_out_tall 262144 0 0 0 ∧
    Pack.tiled_offset (tile_num_dim0 example_out_tall.extent_0) 0 0 0 0 = 0 ∧
    Pack.tiled_offset (tile_num_dim0 example_out_tall.extent_0) 262144 0 0 0 = 0 ∧
    Pack.iterates example_inp_tall example_out_tall 1 0 0 0 ∧
    Pack.tiled_offset (tile_num_dim0 example_out_tall.extent_0) 1 0 0 0 = 16384 ∧
    var_input_buf_length (tile_num_dim0 example_out_tall.extent_0)
      (tile_num_dim1 example_out_tall.extent_1) = 16384 ∧
    tile_num_dim0 example_out_tall.extent_0 * tile_num_dim1 example_out_tall.extent_1 *
      TILE_SIZE_DIM0 * TILE_SIZE_DIM1 = 4294983680 := by
  decide

/-- C26 (amended): under the exact-halo precondition (descriptors that pass the checks,
the input extents values of `int32_t`, output extents above 0, and
`inp.extent[d] = out.extent[d] + STENCIL_d - 1` on axes 0 and 1), every tile's input
size on axis `d` lies in `[STENCIL_d, TILE_SIZE_d]`, and every source coordinate read by
the tiling loop is `p = tx * 106 + i < inp.extent[0]` and `q = ty * 110 + j <
inp.extent[1]`; when the number of tiles is at most 262144, so that
`n0 * n1 * 16384 ≤ 2^32`, the packed offset written is
`(ty * n0 + tx) * 16384 + j * 128 + i`, below `n0 * n1 * 16384`, which is the allocated
length when it is at most `2^31 - 1`, and two indices `(tx, ty, i, j)` of the loop with
the same offset are the same. -/
theorem exact_halo_packing (inp out : buffer_t) (hinp : inp.wellTyped)
    (h : curved_wrapped_checks inp out = none)
    (h0 : 0 < out.extent_0) (h1 : 0 < out.extent_1)
    (hh0 : inp.extent_0 = out.extent_0 + STENCIL_DIM0 - 1)
    (hh1 : inp.extent_1 = out.extent_1 + STENCIL_DIM1 - 1) :
    (∀ t, 0 ≤ t → t < tile_num_dim0 out.extent_0 →
      STENCIL_DIM0 ≤ Pack.actual_tile_size_dim0 inp out t ∧
      Pack.actual_tile_size_dim0 inp out t ≤ TILE_SIZE_DIM0) ∧
    (∀ t, 0 ≤ t → t < tile_num_dim1 out.extent_1 →
      STENCIL_DIM1 ≤ Pack.actual_tile_size_dim1 inp out t ∧
      Pack.actual_tile_size_dim1 inp out t ≤ TILE_SIZE_DIM1) ∧
    (∀ ty tx j i, Pack.iterates inp out ty tx j i →
      Pack.p tx i = tx * 106 + i ∧ Pack.q ty j = ty * 110 + j ∧
      Pack.p tx i < inp.extent_0 ∧ Pack.q ty j < inp.extent_1) ∧
    (tile_num_dim0 out.extent_0 * tile_num_dim1 out.extent_1 * 16384 ≤ 4294967296 →
      ∀ ty tx j i, Pack.iterates inp out ty tx j i →
        Pack.tiled_offset (tile_num_dim0 out.extent_0) ty tx j i =
          (ty * tile_num_dim0 out.extent_0 + tx) * 16384 + j * 128 + i ∧
        Pack.tiled_offset (tile_num_dim0 out.extent_0) ty tx j i <
          tile_num_dim0 out.extent_0 * tile_num_dim1 out.extent_1 *
            TILE_SIZE_DIM0 * TILE_SIZE_DIM1 ∧
        (tile_num_dim0 out.extent_0 * tile_num_dim1 out.extent_1 * 16384 ≤ 2147483647 →
          Pack.tiled_offset (tile_num_dim0 out.extent_0) ty tx j i <
            var_input_buf_length (tile_num_dim0 out.extent_0)
              (tile_num_dim1 out.extent_1)) ∧
        ∀ ty' tx' j' i', Pack.iterates inp out ty' tx' j' i' →
          Pack.tiled_offset (tile_num_dim0 out.extent_0) ty' tx' j' i' =
            Pack.tiled_offset (tile_num_dim0 out.extent_0) ty tx j i →
          tx' = tx ∧ ty' = ty ∧ i' = i ∧ j' = j) := by
  simp only [STENCIL_DIM0, STENCIL_DIM1] at hh0 hh1
  have hh0' : inp.extent_0 = out.extent_0 + 22 := by omega
  have hh1' : inp.extent_1 = out.extent_1 + 18 := by omega
  obtain ⟨-, -, -, -, -, -, -, -, -, -, -, c78⟩ := (checks_none_iff inp out).1 h
  obtain ⟨ie0, ie1, -⟩ := hinp
  have m : wrap64 2147483647 = 2147483647 := by decide
  simp only [assign_78, assign_41, assign_39, assign_40, m, wrap64_of_int32 ie1,
    wrap64_of_int32 ie0, wrap64_mul_of_int32 ie1 ie0, decide_eq_true_eq] at c78
  have g1 : inp.extent_1 * 23 ≤ 2147483647 :=
    extent_le_of_product (Int.le_refl _) (by omega) (by omega) c78
  have g0 : inp.extent_0 * 19 ≤ 2147483647 := by
    rw [Int.mul_comm] at c78
    exact extent_le_of_product (Int.le_refl _) (by omega) (by omega) c78
  have b0 : out.extent_0 ≤ 2147483520 := by omega
  have b1 : out.extent_1 ≤ 2147483520 := by omega
  have hs0 := Pack.size0_halo inp out h0 b0 hh0'
  have hs1 := Pack.size1_halo inp out h1 b1 hh1'
  have hcoord : ∀ ty tx j i, Pack.iterates inp out ty tx j i →
      Pack.p tx i = tx * 106 + i ∧ Pack.q ty j = ty * 110 + j ∧
      tx * 106 + i < inp.extent_0 ∧ ty * 110 + j < inp.extent_1 ∧ i < 128 ∧ j < 128 := by
    intro ty tx j i ⟨a1, a2, a3, a4, a5, a6, a7, a8⟩
    obtain ⟨-, -, s0, r0⟩ := hs0 tx a3 a4
    obtain ⟨-, -, s1, r1⟩ := hs1 ty a1 a2
    exact ⟨Pack.source_column_eq tx i a3 a7 (by omega), Pack.source_row_eq ty j a1 a5 (by omega),
      by omega, by omega, by omega, by omega⟩
  refine ⟨?_, ?_, ?_, ?_⟩
  · intro t ht0 ht
    obtain ⟨-, s, s', -⟩ := hs0 t ht0 ht
    exact ⟨s, s'⟩
  · intro t ht0 ht
    obtain ⟨-, s, s', -⟩ := hs1 t ht0 ht
    exact ⟨s, s'⟩
  · intro ty tx j i hit
    obtain ⟨c1, c2, c3, c4, -, -⟩ := hcoord ty tx j i hit
    exact ⟨c1, c2, by rw [c1]; exact c3, by rw [c2]; exact c4⟩
  · intro htot ty tx j i hit
    obtain ⟨-, -, -, -, ci, cj⟩ := hcoord ty tx j i hit
    obtain ⟨a1, a2, a3, a4, a5, -, a7, -⟩ := hit
    have e := Pack.tiled_offset_no_wrap _ _ ty tx j i htot a1 a2 a3 a4 a5 cj a7 ci
    obtain ⟨u1, u2⟩ := tile_index_lt _ _ ty tx a1 a2 a3 a4
    have hN0 : 0 ≤ tile_num_dim0 out.extent_0 * tile_num_dim1 out.extent_1 := by omega
    have hlt : Pack.tiled_offset (tile_num_dim0 out.extent_0) ty tx j i <
        tile_num_dim0 out.extent_0 * tile_num_dim1 out.extent_1 * 16384 := by
      rw [e]
      generalize ty * tile_num_dim0 out.extent_0 + tx = T at u1 u2
      generalize tile_num_dim0 out.extent_0 * tile_num_dim1 out.extent_1 = N at htot u2
      omega
    refine ⟨e, ?_, ?_, ?_⟩
    · have e2 : tile_num_dim0 out.extent_0 * tile_num_dim1 out.extent_1 *
          TILE_SIZE_DIM0 * TILE_SIZE_DIM1 =
          tile_num_dim0 out.extent_0 * tile_num_dim1 out.extent_1 * 16384 := by
        simp only [TILE_SIZE_DIM0, TILE_SIZE_DIM1]; ring
      rw [e2]; exact hlt
    · intro hlen
      rw [var_input_buf_length_eq _ _ hN0 hlen]
      exact hlt
    · intro ty' tx' j' i' hit' hsame
      obtain ⟨-, -, -, -, ci', cj'⟩ := hcoord ty' tx' j' i' hit'
      obtain ⟨b1, b2, b3, b4, b5, -, b7, -⟩ := hit'
      have e' := Pack.tiled_offset_no_wrap _ _ ty' tx' j' i' htot b1 b2 b3 b4 b5 cj' b7 ci'
      rw [e, e'] at hsame
      obtain ⟨v1, v2⟩ := tile_index_lt _ _ ty' tx' b1 b2 b3 b4
      have hT : ty' * tile_num_dim0 out.extent_0 + tx' =
          ty * tile_num_dim0 out.extent_0 + tx ∧ j' = j ∧ i' = i := by
        generalize ty' * tile_num_dim0 out.extent_0 + tx' = T' at hsame
        generalize ty * tile_num_dim0 out.extent_0 + tx = T at hsame
        omega
      obtain ⟨r1, r2⟩ := tile_index_unique _ _ _ _ _ b3 b4 a3 a4 hT.1
      exact ⟨r2, r1, hT.2.2, hT.2.1⟩

/-- C26 (witness): the 4x4 output and the 26x22 input, the output and the exact halo:
the one tile has the input size 26 on axis 0, between 23 and 128. -/
theorem exact_halo_packing_witness :
    STENCIL_DIM0 ≤ Pack.actual_tile_size_dim0 example_inp_26x22 example_out_4x4 0 ∧
    Pack.actual_tile_size_dim0 example_inp_26x22 example_out_4x4 0 ≤ TILE_SIZE_DIM0 :=
  (exact_halo_packing example_inp_26x22 example_out_4x4 (by decide) (by decide)
    (by decide) (by decide) (by decide) (by decide)).1 0 (by decide) (by decide)

/-! ### Exact arithmetic -/

theorem binary32_value_zero : binary32_value 0 = 0 := by
  norm_num [binary32_value]

theorem binary32_value_half : binary32_value 1056964608 = 1 / 2 := by
  norm_num [binary32_value]

theorem binary32_value_one : binary32_value 1065353216 = 1 := by
  norm_num [binary32_value]

theorem binary32_value_two : binary32_value 1073741824 = 2 := by
  norm_num [binary32_value]

theorem binary32_value_255 : binary32_value 1132396544 = 255 := by
  norm_num [binary32_value]

theorem binary32_value_256 : binary32_value 1132462080 = 256 := by
  norm_num [binary32_value]

/-- The constant written `5894.74` in the source is 5894.73681640625. -/
theorem binary32_value_5894 : binary32_value 1169700325 = 12072421 / 2048 := by
  norm_num [binary32_value]

/-- The constant written `1.84211` in the source is 1.842105269432068. -/
theorem binary32_value_184 : binary32_value 1072417307 = 15452699 / 8388608 := by
  norm_num [binary32_value]

/-- The constant written `-0.842105` in the source is one less than the constant
written `1.84211`, with the sign changed. -/
theorem binary32_value_084 : binary32_value 3210187830 = -(7064091 / 8388608) := by
  norm_num [binary32_value]

theorem example_exact_float_ops_exact : example_exact_float_ops.exact where
  float_from_bits := fun _ => rfl
  add := fun _ _ => rfl
  sub := fun _ _ => rfl
  mul := fun _ _ => rfl
  div := fun _ _ _ => rfl
  lt := fun _ _ => rfl
  pow_one := fun x => by simp [example_exact_float_ops]
  pow_zero := fun x => by simp [example_exact_float_ops]
  of_int32 := fun _ => rfl
  to_int16 := fun _ => rfl
  to_uint8 := fun _ => rfl

theorem exact_min {fl : float_ops ℚ} (hfl : fl.exact) (a b : ℚ) :
    fl.min a b = min a b := by
  simp only [float_ops.min, hfl.lt, decide_eq_true_eq]
  split_ifs with h
  · exact (min_eq_left (le_of_lt h)).symm
  · exact (min_eq_right (not_lt.1 h)).symm

theorem exact_max {fl : float_ops ℚ} (hfl : fl.exact) (a b : ℚ) :
    fl.max a b = max a b := by
  simp only [float_ops.max, hfl.lt, decide_eq_true_eq]
  split_ifs with h
  · exact (max_eq_left (le_of_lt h)).symm
  · exact (max_eq_right (not_lt.1 h)).symm

/-! ### The colour matrix -/

theorem var_221_eq (y v : Int) (hy0 : 0 ≤ y) (hy : y < 3) (hv0 : 0 ≤ v) (hv : v < 4) :
    var_221 y v = y * 4 + v := by
  simp only [var_221, wrap32]; omega

/-- The entry of `var_matrix` for row `y` and column `v` after the loops. -/
theorem produce_matrix_at {F : Type} (fl : float_ops F) (var_color_temp : F)
    (var_m3200_buffer var_m7000_buffer : buffer_t) (var_m3200 var_m7000 : Int → F)
    (var_matrix : Int → Int) (y v : Int) (hy0 : 0 ≤ y) (hy : y < 3) (hv0 : 0 ≤ v)
    (hv : v < 4) :
    produce_matrix fl var_color_temp var_m3200_buffer var_m7000_buffer var_m3200 var_m7000
        var_matrix (y * 4 + v) =
      var_242 fl var_color_temp var_m3200_buffer var_m7000_buffer var_m3200 var_m7000 y v := by
  have e3 : List.range (3 : Int).toNat = [0, 1, 2] := by decide
  have e4 : List.range (4 : Int).toNat = [0, 1, 2, 3] := by decide
  simp only [produce_matrix, forLoop, e3, e4, List.foldl_cons, List.foldl_nil]
  have k00 : var_221 0 0 = 0 := by decide
  have k01 : var_221 0 1 = 1 := by decide
  have k02 : var_221 0 2 = 2 := by decide
  have k03 : var_221 0 3 = 3 := by decide
  have k10 : var_221 1 0 = 4 := by decide
  have k11 : var_221 1 1 = 5 := by decide
  have k12 : var_221 1 2 = 6 := by decide
  have k13 : var_221 1 3 = 7 := by decide
  have k20 : var_221 2 0 = 8 := by decide
  have k21 : var_221 2 1 = 9 := by decide
  have k22 : var_221 2 2 = 10 := by decide
  have k23 : var_221 2 3 = 11 := by decide
  interval_cases y <;> interval_cases v <;>
    simp [Function.update, k00, k01, k02, k03, k10, k11,
      k12, k13, k20, k21, k22, k23]

theorem var_230_exact {fl : float_ops ℚ} (hfl : fl.exact) (T : ℚ) (hT : T ≠ 0) :
    var_230 fl T = 15452699 / 8388608 - 1 / T * (12072421 / 2048) := by
  simp only [var_230, hfl.sub, hfl.mul, hfl.div _ _ hT, hfl.float_from_bits,
    binary32_value_one, binary32_value_5894, binary32_value_184]

theorem var_238_exact {fl : float_ops ℚ} (hfl : fl.exact) (T : ℚ) (hT : T ≠ 0) :
    var_238 fl T = 1 - var_230 fl T := by
  simp only [var_230, var_238, hfl.sub, hfl.add, hfl.mul, hfl.div _ _ hT,
    hfl.float_from_bits, binary32_value_one, binary32_value_5894, binary32_value_184,
    binary32_value_084]
  ring

theorem var_242_exact {fl : float_ops ℚ} (hfl : fl.exact) (T : ℚ) (hT : T ≠ 0)
    (var_m3200_buffer var_m7000_buffer : buffer_t) (var_m3200 var_m7000 : Int → ℚ)
    (y v : Int) :
    var_242 fl T var_m3200_buffer var_m7000_buffer var_m3200 var_m7000 y v =
      wrap16 (truncate (spec_matrix_value (var_230 fl T)
        (var_m3200 (var_226 var_m3200_buffer y v))
        (var_m7000 (var_226 var_m7000_buffer y v)))) := by
  have e : var_242 fl T var_m3200_buffer var_m7000_buffer var_m3200 var_m7000 y v =
      wrap16 (fl.to_int16 (fl.mul (fl.add
        (fl.mul (var_m3200 (var_226 var_m3200_buffer y v)) (var_230 fl T))
        (fl.mul (var_m7000 (var_226 var_m7000_buffer y v)) (var_238 fl T)))
        (fl.float_from_bits 1132462080))) := rfl
  rw [e, var_238_exact hfl T hT]
  simp only [hfl.to_int16, hfl.mul, hfl.add, hfl.float_from_bits, binary32_value_256,
    spec_matrix_value]
  congr 2
  ring

/-- C22 (counterexample): exact arithmetic, colour temperature 5894.73681640625 (the
constant written `5894.74`), an entry 1 in `m3200` and 0 in `m7000`.  The source forms
`1/color_temp * 5894.74 = 1`, gives `m3200` the weight `1.84211 - 1 = 0.8421...` and
stores `(int16_t)(215.57...) = 215`.  The formula of the specification has the weight
`a = 1 - 1.84211 = -0.8421...` and the value `-215.57...`, which is -215 with the
fraction discarded and -216 rounded to the nearest integer.  The conversion discards the
fraction: the nearest integer to `215.57...` is 216. -/
theorem matrix_weight_has_other_sign :
    produce_matrix example_exact_float_ops (12072421 / 2048) example_matrix_buffer
      example_matrix_buffer (fun _ => 1) (fun _ => 0) (fun _ => 0) (0 * 4 + 0) = 215 ∧
    var_230 example_exact_float_ops (12072421 / 2048) = 7064091 / 8388608 ∧
    spec_blend_weight (12072421 / 2048) = -(7064091 / 8388608) ∧
    spec_matrix_value (spec_blend_weight (12072421 / 2048)) 1 0 = -(7064091 / 32768) ∧
    wrap16 (truncate (spec_matrix_value (spec_blend_weight (12072421 / 2048)) 1 0)) = -215 ∧
    wrap16 ⌊spec_matrix_value (spec_blend_weight (12072421 / 2048)) 1 0 + 1 / 2⌋ = -216 ∧
    ⌊spec_matrix_value (var_230 example_exact_float_ops (12072421 / 2048)) 1 0 + 1 / 2⌋
      = 216 := by
  have hT : (12072421 / 2048 : ℚ) ≠ 0 := by norm_num
  have e230 : var_230 example_exact_float_ops (12072421 / 2048) = 7064091 / 8388608 := by
    rw [var_230_exact example_exact_float_ops_exact _ hT]; norm_num
  have es : spec_blend_weight (12072421 / 2048) = -(7064091 / 8388608) := by
    simp only [spec_blend_weight, binary32_value_5894, binary32_value_184]; norm_num
  refine ⟨?_, e230, es, ?_, ?_, ?_, ?_⟩
  · rw [produce_matrix_at _ _ _ _ _ _ _ 0 0 (by decide) (by decide) (by decide) (by decide),
      var_242_exact example_exact_float_ops_exact _ hT, e230]
    norm_num [spec_matrix_value, truncate, wrap16]
  · rw [es]; norm_num [spec_matrix_value]
  · rw [es]; norm_num [spec_matrix_value, truncate, wrap16]
  · rw [es]; norm_num [spec_matrix_value, wrap16]
  · rw [e230]; norm_num [spec_matrix_value]

/-- C22 (amended): with the arithmetic taken exactly and a colour temperature other than
0, for every row `y` in 0..2 and column `v` in 0..3 the entry `matrix[y][v]`, stored at
`var_matrix[4*y + v]`, is `256 * (m3200[y][v] * a + m7000[y][v] * (1 - a))` converted to
`int16_t` with the fraction discarded, where the blend weight is
`a = 1.84211 - 1/color_temp * 5894.74`, the opposite of the `a` of the specification;
the constants are the `float` constants 1.842105269432068 and 5894.73681640625, and the
weight of `m7000`, formed as `1/color_temp * 5894.74 + (-0.842105)`, is exactly
`1 - a`. -/
theorem matrix_entry_blend (fl : float_ops ℚ) (hfl : fl.exact) (var_color_temp : ℚ)
    (hT : var_color_temp ≠ 0) (var_m3200_buffer var_m7000_buffer : buffer_t)
    (var_m3200 var_m7000 : Int → ℚ) (var_matrix : Int → Int) (y v : Int)
    (hy0 : 0 ≤ y) (hy : y < 3) (hv0 : 0 ≤ v) (hv : v < 4) :
    produce_matrix fl var_color_temp var_m3200_buffer var_m7000_buffer var_m3200 var_m7000
        var_matrix (y * 4 + v) =
      wrap16 (truncate (256 *
        (var_m3200 (var_226 var_m3200_buffer y v) * var_230 fl var_color_temp +
          var_m7000 (var_226 var_m7000_buffer y v) * (1 - var_230 fl var_color_temp)))) ∧
    var_230 fl var_color_temp = 15452699 / 8388608 - 1 / var_color_temp * (12072421 / 2048) ∧
    var_230 fl var_color_temp = -spec_blend_weight var_color_temp ∧
    var_238 fl var_color_temp = 1 - var_230 fl var_color_temp := by
  refine ⟨?_, var_230_exact hfl _ hT, ?_, var_238_exact hfl _ hT⟩
  · rw [produce_matrix_at fl _ _ _ _ _ _ y v hy0 hy hv0 hv, var_242_exact hfl _ hT]
    rfl
  · rw [var_230_exact hfl _ hT]
    simp only [spec_blend_weight, binary32_value_5894, binary32_value_184]
    ring

/-- C22 (witness): colour temperature 3200, row 1, column 2. -/
theorem matrix_entry_blend_witness :
    produce_matrix example_exact_float_ops 3200 example_matrix_buffer example_matrix_buffer
        (fun o => o) (fun _ => 1) (fun _ => 0) (1 * 4 + 2) =
      wrap16 (truncate (256 *
        ((fun o : Int => (o : ℚ)) (var_226 example_matrix_buffer 1 2) *
            var_230 example_exact_float_ops 3200 +
          (fun _ : Int => (1 : ℚ)) (var_226 example_matrix_buffer 1 2) *
            (1 - var_230 example_exact_float_ops 3200)))) :=
  (matrix_entry_blend example_exact_float_ops example_exact_float_ops_exact 3200
    (by simp) example_matrix_buffer example_matrix_buffer (fun o => o) (fun _ => 1)
    (fun _ => 0) 1 2 (by decide) (by decide) (by decide) (by decide)).1

/-- C23 (counterexample): exact arithmetic.  At the colour temperature
`49448636416 / 23841307` (about 2074.07) the blend weight `a` of the specification is 1,
the source gives `m3200` the weight -1 and `m7000` the weight 2, and for an entry 1 in
`m3200` and 0 in `m7000` it stores -256, not 256.  At the colour temperature
`49448636416 / 7064091` (about 7000) the source gives `m3200` the weight 1, and for an
entry `3/1024` in `m3200` it stores 0, the fraction of `3/4` being discarded; the
nearest integer is 1. -/
theorem matrix_boundary_differs :
    spec_blend_weight (49448636416 / 23841307) = 1 ∧
    var_230 example_exact_float_ops (49448636416 / 23841307) = -1 ∧
    var_238 example_exact_float_ops (49448636416 / 23841307) = 2 ∧
    produce_matrix example_exact_float_ops (49448636416 / 23841307) example_matrix_buffer
      example_matrix_buffer (fun _ => 1) (fun _ => 0) (fun _ => 0) (0 * 4 + 0) = -256 ∧
    wrap16 (truncate ((fun _ : Int => (1 : ℚ)) 0 * 256)) = 256 ∧
    var_230 example_exact_float_ops (49448636416 / 7064091) = 1 ∧
    produce_matrix example_exact_float_ops (49448636416 / 7064091) example_matrix_buffer
      example_matrix_buffer (fun _ => 3 / 1024) (fun _ => 0) (fun _ => 0) (0 * 4 + 0) = 0 ∧
    (⌊(3 / 1024 : ℚ) * 256 + 1 / 2⌋ = 1) := by
  have hT : (49448636416 / 23841307 : ℚ) ≠ 0 := by norm_num
  have hT' : (49448636416 / 7064091 : ℚ) ≠ 0 := by norm_num
  have e230 : var_230 example_exact_float_ops (49448636416 / 23841307) = -1 := by
    rw [var_230_exact example_exact_float_ops_exact _ hT]; norm_num
  have e230' : var_230 example_exact_float_ops (49448636416 / 7064091) = 1 := by
    rw [var_230_exact example_exact_float_ops_exact _ hT']; norm_num
  refine ⟨?_, e230, ?_, ?_, ?_, e230', ?_, ?_⟩
  · simp only [spec_blend_weight, binary32_value_5894, binary32_value_184]; norm_num
  · rw [var_238_exact example_exact_float_ops_exact _ hT, e230]; norm_num
  · rw [produce_matrix_at _ _ _ _ _ _ _ 0 0 (by decide) (by decide) (by decide) (by decide),
      var_242_exact example_exact_float_ops_exact _ hT, e230]
    norm_num [spec_matrix_value, truncate, wrap16]
  · norm_num [truncate, wrap16]
  · rw [produce_matrix_at _ _ _ _ _ _ _ 0 0 (by decide) (by decide) (by decide) (by decide),
      var_242_exact example_exact_float_ops_exact _ hT', e230']
    norm_num [spec_matrix_value, truncate, wrap16]
  · norm_num

/-- C23 (amended): with the arithmetic taken exactly and a colour temperature other than
0, let `a = 1.84211 - 1/color_temp * 5894.74` be the weight the source gives `m3200`.
At a colour temperature for which `a` is 1 (about 7000), every entry of the matrix is
`m3200[y][v] * 256` converted to `int16_t` with the fraction discarded; at a colour
temperature for which `a` is 0 (about 3200), every entry is `m7000[y][v] * 256`
converted the same way. -/
theorem matrix_blend_boundary (fl : float_ops ℚ) (hfl : fl.exact) (var_color_temp : ℚ)
    (hT : var_color_temp ≠ 0) (var_m3200_buffer var_m7000_buffer : buffer_t)
    (var_m3200 var_m7000 : Int → ℚ) (var_matrix : Int → Int) :
    (var_230 fl var_color_temp = 1 → ∀ y v : Int, 0 ≤ y → y < 3 → 0 ≤ v → v < 4 →
      produce_matrix fl var_color_temp var_m3200_buffer var_m7000_buffer var_m3200
          var_m7000 var_matrix (y * 4 + v) =
        wrap16 (truncate (var_m3200 (var_226 var_m3200_buffer y v) * 256))) ∧
    (var_230 fl var_color_temp = 0 → ∀ y v : Int, 0 ≤ y → y < 3 → 0 ≤ v → v < 4 →
      produce_matrix fl var_color_temp var_m3200_buffer var_m7000_buffer var_m3200
          var_m7000 var_matrix (y * 4 + v) =
        wrap16 (truncate (var_m7000 (var_226 var_m7000_buffer y v) * 256))) ∧
    (var_230 fl var_color_temp = 1 ↔ var_color_temp = 49448636416 / 7064091) ∧
    (var_230 fl var_color_temp = 0 ↔ var_color_temp = 49448636416 / 15452699) := by
  refine ⟨?_, ?_, ?_, ?_⟩
  · intro ha y v hy0 hy hv0 hv
    rw [produce_matrix_at fl _ _ _ _ _ _ y v hy0 hy hv0 hv, var_242_exact hfl _ hT, ha]
    simp only [spec_matrix_value]
    congr 2
    ring
  · intro ha y v hy0 hy hv0 hv
    rw [produce_matrix_at fl _ _ _ _ _ _ y v hy0 hy hv0 hv, var_242_exact hfl _ hT, ha]
    simp only [spec_matrix_value]
    congr 2
    ring
  · rw [var_230_exact hfl _ hT]
    constructor
    · intro h
      field_simp at h ⊢
      linarith
    · intro h
      rw [h]; norm_num
  · rw [var_230_exact hfl _ hT]
    constructor
    · intro h
      field_simp at h ⊢
      linarith
    · intro h
      rw [h]; norm_num

/-- C23 (witness): at the colour temperature `49448636416 / 7064091` the entry of row 2,
column 3 is the entry of `m3200` times 256. -/
theorem matrix_blend_boundary_witness :
    produce_matrix example_exact_float_ops (49448636416 / 7064091) example_matrix_buffer
        example_matrix_buffer (fun o => o) (fun _ => 1) (fun _ => 0) (2 * 4 + 3) =
      wrap16 (truncate ((fun o : Int => (o : ℚ)) (var_226 example_matrix_buffer 2 3) * 256)) :=
  (matrix_blend_boundary example_exact_float_ops example_exact_float_ops_exact
    (49448636416 / 7064091) (by simp) example_matrix_buffer example_matrix_buffer
    (fun o => o) (fun _ => 1) (fun _ => 0)).1
    (((matrix_blend_boundary example_exact_float_ops example_exact_float_ops_exact
      (49448636416 / 7064091) (by simp) example_matrix_buffer example_matrix_buffer
      (fun o => o) (fun _ => 1) (fun _ => 0)).2.2.1).2 rfl)
    2 3 (by decide) (by decide) (by decide) (by decide)

/-! ### The tone curve for gamma 1 and contrast 0 -/

/-- The value of the curve before the levels are forced, with the arithmetic taken
exactly, for gamma 1 and contrast 0: the contrast curve is the identity. -/
theorem var_275_exact {fl : float_ops ℚ} (hfl : fl.exact) (var_blackLevel var_whiteLevel : Int)
    (v : Int) (hD : wrap32 (var_whiteLevel - var_blackLevel) ≠ 0) :
    var_275 fl 1 0 var_blackLevel var_whiteLevel v =
      wrapU8 (truncate (max (min (max (min
        (((wrap32 (v - var_blackLevel) : Int) : ℚ) *
          (1 / ((wrap32 (var_whiteLevel - var_blackLevel) : Int) : ℚ)))
        1) 0 * 255 + 1 / 2) 255) 0)) := by
  have hD' : ((wrap32 (var_whiteLevel - var_blackLevel) : Int) : ℚ) ≠ 0 :=
    Int.cast_ne_zero.2 hD
  have h1 : (1 : ℚ) ≠ 0 := one_ne_zero
  have e1 : fl.div 1 1 = 1 := by rw [hfl.div _ _ h1]; norm_num
  unfold var_275
  simp only [hfl.float_from_bits]
  simp only [binary32_value_one, binary32_value_zero,
    binary32_value_two, binary32_value_half, binary32_value_255]
  simp only [hfl.of_int32, hfl.div _ _ hD', e1, hfl.pow_one]
  simp only [hfl.mul 0, zero_mul, hfl.pow_zero, exact_min hfl, exact_max hfl]
  simp only [hfl.sub, hfl.add, hfl.mul, hfl.lt, hfl.to_uint8]
  have key : ∀ g : ℚ, (if decide (1 / 2 < g) = true
      then 1 - (1 - g) * ((2 - (2 - 1) * 2) * (1 - g) - 1 + 2)
      else g * ((2 - (2 - 1) * 2) * g - 1 + 2)) = g := by
    intro g; split_ifs <;> ring
  rw [key]


/-- The byte stored for a ratio `g` that is not negative: the floor of
`min (255 g + 1/2) 255`, between 0 and 255. -/
theorem curve_value_of_ratio (g : ℚ) (h0 : 0 ≤ g) :
    wrapU8 (truncate (max (min (g * 255 + 1 / 2) 255) 0)) = ⌊min (g * 255 + 1 / 2) 255⌋ ∧
    0 ≤ ⌊min (g * 255 + 1 / 2) 255⌋ ∧ ⌊min (g * 255 + 1 / 2) 255⌋ ≤ 255 := by
  have hm : (0 : ℚ) ≤ min (g * 255 + 1 / 2) 255 := le_min (by positivity) (by norm_num)
  have hf0 : 0 ≤ ⌊min (g * 255 + 1 / 2) 255⌋ := Int.floor_nonneg.2 hm
  have hf1 : ⌊min (g * 255 + 1 / 2) 255⌋ < 256 := by
    apply Int.floor_lt.2
    have : min (g * 255 + 1 / 2) 255 ≤ 255 := min_le_right _ _
    have h256 : ((256 : Int) : ℚ) = 256 := by norm_num
    rw [h256]
    linarith
  refine ⟨?_, hf0, by omega⟩
  rw [max_eq_left hm, truncate, if_pos hm, wrapU8]
  omega

/-- The ratio `(v - blackLevel) / (whiteLevel - blackLevel)` as the source forms it, the
two differences in `int32_t`, clamped to `[0, 1]`, does not decrease from a level above
the black level to a higher level up to the white level. -/
theorem level_ratio_mono (bl wl v v' : Int) (hbl : isInt32 bl) (hwl : isInt32 wl)
    (hbv : bl < v) (hvv : v ≤ v') (hvw : v' ≤ wl) :
    max (min (((wrap32 (v - bl) : Int) : ℚ) * (1 / ((wrap32 (wl - bl) : Int) : ℚ))) 1) 0 ≤
    max (min (((wrap32 (v' - bl) : Int) : ℚ) * (1 / ((wrap32 (wl - bl) : Int) : ℚ))) 1) 0 := by
  unfold isInt32 at hbl hwl
  rcases le_or_lt (wl - bl) 2147483647 with hd | hd
  · have e1 : wrap32 (wl - bl) = wl - bl := by simp only [wrap32]; omega
    have e2 : wrap32 (v - bl) = v - bl := by simp only [wrap32]; omega
    have e3 : wrap32 (v' - bl) = v' - bl := by simp only [wrap32]; omega
    rw [e1, e2, e3]
    have hD : (0 : ℚ) ≤ 1 / ((wl - bl : Int) : ℚ) := by
      have : (0 : ℚ) ≤ ((wl - bl : Int) : ℚ) := by exact_mod_cast (by omega : 0 ≤ wl - bl)
      positivity
    have hx : ((v - bl : Int) : ℚ) ≤ ((v' - bl : Int) : ℚ) := by
      exact_mod_cast (by omega : v - bl ≤ v' - bl)
    exact max_le_max (min_le_min (mul_le_mul_of_nonneg_right hx hD) le_rfl) le_rfl
  · have e1 : wrap32 (wl - bl) = wl - bl - 4294967296 := by simp only [wrap32]; omega
    have hDneg : ((wrap32 (wl - bl) : Int) : ℚ) < 0 := by
      rw [e1]; exact_mod_cast (by omega : wl - bl - 4294967296 < 0)
    rcases le_or_lt (v - bl) 2147483647 with hx | hx
    · have e2 : wrap32 (v - bl) = v - bl := by simp only [wrap32]; omega
      have hX : (0 : ℚ) ≤ ((wrap32 (v - bl) : Int) : ℚ) := by
        rw [e2]; exact_mod_cast (by omega : 0 ≤ v - bl)
      have hr : ((wrap32 (v - bl) : Int) : ℚ) * (1 / ((wrap32 (wl - bl) : Int) : ℚ)) ≤ 0 := by
        apply mul_nonpos_of_nonneg_of_nonpos hX
        exact le_of_lt (one_div_neg.2 hDneg)
      have hl : max (min (((wrap32 (v - bl) : Int) : ℚ) *
          (1 / ((wrap32 (wl - bl) : Int) : ℚ))) 1) 0 = 0 :=
        max_eq_right (le_trans (min_le_left _ _) hr)
      rw [hl]
      exact le_max_right _ _
    · have e3 : wrap32 (v' - bl) = v' - bl - 4294967296 := by simp only [wrap32]; omega
      have hX : ((wrap32 (v' - bl) : Int) : ℚ) ≤ ((wrap32 (wl - bl) : Int) : ℚ) := by
        rw [e1, e3]; exact_mod_cast (by omega : v' - bl - 4294967296 ≤ wl - bl - 4294967296)
      have hr : 1 ≤ ((wrap32 (v' - bl) : Int) : ℚ) * (1 / ((wrap32 (wl - bl) : Int) : ℚ)) := by
        rw [mul_one_div]
        exact (one_le_div_of_neg hDneg).2 hX
      have hl : max (min (((wrap32 (v' - bl) : Int) : ℚ) *
          (1 / ((wrap32 (wl - bl) : Int) : ℚ))) 1) 0 = 1 := by
        rw [min_eq_right hr]; exact max_eq_left zero_le_one
      rw [hl]
      exact max_le (min_le_right _ _) zero_le_one

/-- The entry of the curve at a level above the black level and not above the white
level, with the arithmetic taken exactly, for gamma 1 and contrast 0. -/
theorem var_280_between {fl : float_ops ℚ} (hfl : fl.exact) (bl wl v : Int)
    (hbl : isInt32 bl) (hwl : isInt32 wl) (h : bl < wl) (hbv : bl < v) (hvw : v ≤ wl) :
    var_280 fl 1 0 bl wl v =
      ⌊min (max (min (((wrap32 (v - bl) : Int) : ℚ) *
        (1 / ((wrap32 (wl - bl) : Int) : ℚ))) 1) 0 * 255 + 1 / 2) 255⌋ := by
  have hD : wrap32 (wl - bl) ≠ 0 := by
    unfold isInt32 at hbl hwl
    simp only [wrap32]; omega
  have hnot : ¬ wl < v := not_lt.2 hvw
  obtain ⟨c1, c2, c3⟩ := curve_value_of_ratio
    (max (min (((wrap32 (v - bl) : Int) : ℚ) * (1 / ((wrap32 (wl - bl) : Int) : ℚ))) 1) 0)
    (le_max_right _ _)
  simp only [var_280, hbv, hnot, decide_True, decide_False, if_true, Bool.false_eq_true,
    if_false]
  rw [var_275_exact hfl bl wl v hD, c1]
  simp only [wrapU8]
  omega


/-- C21: with the arithmetic of the curve taken exactly, gamma 1, contrast 0 and
`blackLevel < whiteLevel` (values of `int32_t`), the tone curve produced by
`curved_wrapped` does not decrease over `[blackLevel, whiteLevel]`: for all levels
`v ≤ v'` of that range within 0..1023, `curve[v] ≤ curve[v']`; and when
`whiteLevel - blackLevel` is a value of `int32_t`, for `blackLevel < v ≤ whiteLevel`
the entry is `floor(255 * (v - blackLevel) / (whiteLevel - blackLevel) + 1/2)`: the
contrast curve is the identity. -/
theorem curve_non_decreasing (fl : float_ops ℚ) (hfl : fl.exact)
    (var_blackLevel var_whiteLevel : Int) (hbl : isInt32 var_blackLevel)
    (hwl : isInt32 var_whiteLevel) (h : var_blackLevel < var_whiteLevel)
    (var_curve : Int → Int) (v v' : Int) (hv0 : 0 ≤ v) (hbv : var_blackLevel ≤ v)
    (hvv : v ≤ v') (hvw : v' ≤ var_whiteLevel) (hv1 : v' < 1024) :
    produce_curve fl 1 0 var_blackLevel var_whiteLevel var_curve v ≤
      produce_curve fl 1 0 var_blackLevel var_whiteLevel var_curve v' ∧
    (isInt32 (var_whiteLevel - var_blackLevel) → var_blackLevel < v →
      produce_curve fl 1 0 var_blackLevel var_whiteLevel var_curve v =
        spec_linear_curve var_blackLevel var_whiteLevel v) := by
  rw [produce_curve_at fl 1 0 var_blackLevel var_whiteLevel var_curve v hv0 (by omega),
    produce_curve_at fl 1 0 var_blackLevel var_whiteLevel var_curve v' (by omega) hv1]
  constructor
  · rcases eq_or_lt_of_le hbv with hb | hb
    · have hnot : ¬ var_blackLevel < v := by omega
      have e0 : var_280 fl 1 0 var_blackLevel var_whiteLevel v = 0 := by
        simp only [var_280, hnot, decide_False, Bool.false_eq_true, if_false, wrapU8]
        decide
      rw [e0]
      simp only [var_280, wrapU8]
      omega
    · rw [var_280_between hfl _ _ v hbl hwl h hb (by omega),
        var_280_between hfl _ _ v' hbl hwl h (by omega) hvw]
      apply Int.floor_mono
      have hm := level_ratio_mono var_blackLevel var_whiteLevel v v' hbl hwl hb hvv hvw
      exact min_le_min (by linarith) le_rfl
  · intro hd hb
    rw [var_280_between hfl _ _ v hbl hwl h hb (by omega)]
    unfold isInt32 at hbl hwl hd
    have e1 : wrap32 (var_whiteLevel - var_blackLevel) = var_whiteLevel - var_blackLevel := by
      simp only [wrap32]; omega
    have e2 : wrap32 (v - var_blackLevel) = v - var_blackLevel := by
      simp only [wrap32]; omega
    rw [e1, e2]
    have hDpos : (0 : ℚ) < (var_whiteLevel : ℚ) - var_blackLevel := by
      have : (var_blackLevel : ℚ) < var_whiteLevel := by exact_mod_cast h
      linarith
    have hXpos : (0 : ℚ) ≤ (v : ℚ) - var_blackLevel := by
      have : (var_blackLevel : ℚ) < v := by exact_mod_cast hb
      linarith
    have hXD : (v : ℚ) - var_blackLevel ≤ (var_whiteLevel : ℚ) - var_blackLevel := by
      have : (v : ℚ) ≤ var_whiteLevel := by exact_mod_cast (by omega : v ≤ var_whiteLevel)
      linarith
    have hr0 : 0 ≤ ((v : ℚ) - var_blackLevel) / ((var_whiteLevel : ℚ) - var_blackLevel) :=
      div_nonneg hXpos (le_of_lt hDpos)
    have hr1 : ((v : ℚ) - var_blackLevel) / ((var_whiteLevel : ℚ) - var_blackLevel) ≤ 1 :=
      (div_le_one hDpos).2 hXD
    have eg : max (min (((v - var_blackLevel : Int) : ℚ) *
        (1 / ((var_whiteLevel - var_blackLevel : Int) : ℚ))) 1) 0 =
        ((v : ℚ) - var_blackLevel) / ((var_whiteLevel : ℚ) - var_blackLevel) := by
      push_cast
      rw [mul_one_div, min_eq_left hr1, max_eq_left hr0]
    rw [eg]
    simp only [spec_linear_curve]
    have ey : 255 * ((v : ℚ) - var_blackLevel) / ((var_whiteLevel : ℚ) - var_blackLevel) =
        ((v : ℚ) - var_blackLevel) / ((var_whiteLevel : ℚ) - var_blackLevel) * 255 := by
      ring
    rw [ey]
    generalize ((v : ℚ) - var_blackLevel) / ((var_whiteLevel : ℚ) - var_blackLevel) = r
      at hr0 hr1
    rcases le_or_lt (r * 255 + 1 / 2) 255 with hy | hy
    · rw [min_eq_left hy]
    · rw [min_eq_right (le_of_lt hy)]
      have f1 : ⌊(255 : ℚ)⌋ = 255 := by norm_num
      have f2 : ⌊r * 255 + 1 / 2⌋ = 255 := by
        rw [Int.floor_eq_iff]
        constructor
        · push_cast; linarith
        · push_cast; linarith
      rw [f1, f2]

/-- C21 (witness): black level 64, white level 940, the levels 100 and 500. -/
theorem curve_non_decreasing_witness :
    produce_curve example_exact_float_ops 1 0 64 940 (fun _ => 0) 100 ≤
      produce_curve example_exact_float_ops 1 0 64 940 (fun _ => 0) 500 ∧
    produce_curve example_exact_float_ops 1 0 64 940 (fun _ => 0) 100 =
      spec_linear_curve 64 940 100 :=
  ⟨(curve_non_decreasing example_exact_float_ops example_exact_float_ops_exact 64 940
      (by decide) (by decide) (by decide) (fun _ => 0) 100 500 (by decide) (by decide)
      (by decide) (by decide) (by decide)).1,
   (curve_non_decreasing example_exact_float_ops example_exact_float_ops_exact 64 940
      (by decide) (by decide) (by decide) (fun _ => 0) 100 500 (by decide) (by decide)
      (by decide) (by decide) (by decide)).2 (by decide) (by decide)⟩

/-! ### The sizes of the last tile -/

/-- The sizes of the last tile on axis 0, as `int32_t` values and as the `uint32_t` loop
bounds, when the input has at least two columns more than the output and the tile count
is formed without overflow. -/
theorem last_tile_dim0 (inp out : buffer_t) (h0 : 0 < out.extent_0)
    (hb : out.extent_0 ≤ 2147483542) (hi : out.extent_0 + 2 ≤ inp.extent_0)
    (hi' : inp.extent_0 ≤ 2147483647) :
    wrap32 (inp.extent_0 - wrap32 ((TILE_SIZE_DIM0 - STENCIL_DIM0 + 1) *
        (tile_num_dim0 out.extent_0 - 1))) =
      inp.extent_0 - 106 * (tile_num_dim0 out.extent_0 - 1) ∧
    wrap32 (out.extent_0 - wrap32 ((TILE_SIZE_DIM0 - STENCIL_DIM0 + 1) *
        (tile_num_dim0 out.extent_0 - 1))) =
      out.extent_0 - 106 * (tile_num_dim0 out.extent_0 - 1) ∧
    Pack.actual_tile_size_dim0 inp out (tile_num_dim0 out.extent_0 - 1) =
      inp.extent_0 - 106 * (tile_num_dim0 out.extent_0 - 1) ∧
    Unpack.actual_tile_size_dim0 out (tile_num_dim0 out.extent_0 - 1) =
      out.extent_0 - 106 * (tile_num_dim0 out.extent_0 - 1) ∧
    3 ≤ inp.extent_0 - 106 * (tile_num_dim0 out.extent_0 - 1) ∧
    1 ≤ out.extent_0 - 106 * (tile_num_dim0 out.extent_0 - 1) := by
  have hn := tile_num_dim0_eq (le_of_lt h0) hb
  simp only [Pack.actual_tile_size_dim0, Unpack.actual_tile_size_dim0, step_dim0]
  rw [hn]
  simp only [wrap32, wrapU32]
  refine ⟨by omega, by omega, ?_, ?_, by omega, by omega⟩
  · split_ifs <;> omega
  · split_ifs <;> omega

/-- The sizes of the last tile on axis 1, as `int32_t` values and as the `uint32_t` loop
bounds, when the input has at least two rows more than the output and the tile count is
formed without overflow. -/
theorem last_tile_dim1 (inp out : buffer_t) (h0 : 0 < out.extent_1)
    (hb : out.extent_1 ≤ 2147483538) (hi : out.extent_1 + 2 ≤ inp.extent_1)
    (hi' : inp.extent_1 ≤ 2147483647) :
    wrap32 (inp.extent_1 - wrap32 ((TILE_SIZE_DIM1 - STENCIL_DIM1 + 1) *
        (tile_num_dim1 out.extent_1 - 1))) =
      inp.extent_1 - 110 * (tile_num_dim1 out.extent_1 - 1) ∧
    wrap32 (out.extent_1 - wrap32 ((TILE_SIZE_DIM1 - STENCIL_DIM1 + 1) *
        (tile_num_dim1 out.extent_1 - 1))) =
      out.extent_1 - 110 * (tile_num_dim1 out.extent_1 - 1) ∧
    Pack.actual_tile_size_dim1 inp out (tile_num_dim1 out.extent_1 - 1) =
      inp.extent_1 - 110 * (tile_num_dim1 out.extent_1 - 1) ∧
    Unpack.actual_tile_size_dim1 out (tile_num_dim1 out.extent_1 - 1) =
      out.extent_1 - 110 * (tile_num_dim1 out.extent_1 - 1) ∧
    3 ≤ inp.extent_1 - 110 * (tile_num_dim1 out.extent_1 - 1) ∧
    1 ≤ out.extent_1 - 110 * (tile_num_dim1 out.extent_1 - 1) := by
  have hn := tile_num_dim1_eq (le_of_lt h0) hb
  simp only [Pack.actual_tile_size_dim1, Unpack.actual_tile_size_dim1, step_dim1]
  rw [hn]
  simp only [wrap32, wrapU32]
  refine ⟨by omega, by omega, ?_, ?_, by omega, by omega⟩
  · split_ifs <;> omega
  · split_ifs <;> omega

/-- C31: for every pair of descriptors (fields in `int32_t`) that passes the checks, the
sums of the bounds checks formed without 32-bit wrap-around, with output extents above
0, on both axes the last-tile input size `inp.extent[d] - step_d * (tile_num_d - 1)` is
at least 3 and the last-tile output size `out.extent[d] - step_d * (tile_num_d - 1)` is
at least 1 (`step_0 = 106`, `step_1 = 110`); the `int32_t` expressions of lines 412, 415,
795 and 798 have these values, and so have the `uint32_t` loop bounds they are
converted to: no negative value is wrapped. -/
theorem last_tile_sizes_positive (inp out : buffer_t)
    (hout : out.wellTyped) (hinp : inp.wellTyped)
    (h : curved_wrapped_checks inp out = none)
    (hb0 : bounds_exact_0 inp out) (hb1 : bounds_exact_1 inp out)
    (h0 : 0 < out.extent_0) (h1 : 0 < out.extent_1) :
    (3 ≤ inp.extent_0 - 106 * (tile_num_dim0 out.extent_0 - 1) ∧
      1 ≤ out.extent_0 - 106 * (tile_num_dim0 out.extent_0 - 1) ∧
      3 ≤ inp.extent_1 - 110 * (tile_num_dim1 out.extent_1 - 1) ∧
      1 ≤ out.extent_1 - 110 * (tile_num_dim1 out.extent_1 - 1)) ∧
    (wrap32 (inp.extent_0 - wrap32 ((TILE_SIZE_DIM0 - STENCIL_DIM0 + 1) *
          (tile_num_dim0 out.extent_0 - 1))) =
        inp.extent_0 - 106 * (tile_num_dim0 out.extent_0 - 1) ∧
      wrap32 (out.extent_0 - wrap32 ((TILE_SIZE_DIM0 - STENCIL_DIM0 + 1) *
          (tile_num_dim0 out.extent_0 - 1))) =
        out.extent_0 - 106 * (tile_num_dim0 out.extent_0 - 1) ∧
      wrap32 (inp.extent_1 - wrap32 ((TILE_SIZE_DIM1 - STENCIL_DIM1 + 1) *
          (tile_num_dim1 out.extent_1 - 1))) =
        inp.extent_1 - 110 * (tile_num_dim1 out.extent_1 - 1) ∧
      wrap32 (out.extent_1 - wrap32 ((TILE_SIZE_DIM1 - STENCIL_DIM1 + 1) *
          (tile_num_dim1 out.extent_1 - 1))) =
        out.extent_1 - 110 * (tile_num_dim1 out.extent_1 - 1)) ∧
    (Pack.actual_tile_size_dim0 inp out (tile_num_dim0 out.extent_0 - 1) =
        inp.extent_0 - 106 * (tile_num_dim0 out.extent_0 - 1) ∧
      Unpack.actual_tile_size_dim0 out (tile_num_dim0 out.extent_0 - 1) =
        out.extent_0 - 106 * (tile_num_dim0 out.extent_0 - 1) ∧
      Pack.actual_tile_size_dim1 inp out (tile_num_dim1 out.extent_1 - 1) =
        inp.extent_1 - 110 * (tile_num_dim1 out.extent_1 - 1) ∧
      Unpack.actual_tile_size_dim1 out (tile_num_dim1 out.extent_1 - 1) =
        out.extent_1 - 110 * (tile_num_dim1 out.extent_1 - 1)) := by
  obtain ⟨f0, f1, f2, -, -, -⟩ := accepted_facts inp out hout hinp h hb0 hb1
  have g0 : inp.extent_0 * 3 ≤ 2147483647 :=
    extent_le_of_product (Int.le_refl _) (by omega) (by omega) f2
  have g1 : inp.extent_1 * 3 ≤ 2147483647 := by
    rw [Int.mul_comm] at f2
    exact extent_le_of_product (Int.le_refl _) (by omega) (by omega) f2
  obtain ⟨a1, a2, a3, a4, a5, a6⟩ := last_tile_dim0 inp out h0 (by omega) f0 (by omega)
  obtain ⟨b1, b2, b3, b4, b5, b6⟩ := last_tile_dim1 inp out h1 (by omega) f1 (by omega)
  exact ⟨⟨a5, a6, b5, b6⟩, ⟨a1, a2, b1, b2⟩, ⟨a3, a4, b3, b4⟩⟩

/-- C31 (witness): the 107x1 output and the 109x3 input: two tile columns, the last of
input size 3 and output size 1 on axis 0. -/
theorem last_tile_sizes_positive_witness :
    3 ≤ example_inp_109x3.extent_0 - 106 * (tile_num_dim0 example_out_107x1.extent_0 - 1) ∧
    Pack.actual_tile_size_dim0 example_inp_109x3 example_out_107x1
        (tile_num_dim0 example_out_107x1.extent_0 - 1) =
      example_inp_109x3.extent_0 - 106 * (tile_num_dim0 example_out_107x1.extent_0 - 1) :=
  ⟨(last_tile_sizes_positive example_inp_109x3 example_out_107x1 (by decide) (by decide)
      (by decide) (by decide) (by decide) (by decide) (by decide)).1.1,
   (last_tile_sizes_positive example_inp_109x3 example_out_107x1 (by decide) (by decide)
      (by decide) (by decide) (by decide) (by decide) (by decide)).2.2.1⟩

/-! ### The size checks -/

/-- The value returned by a call, from the result of the checks: 0, or the code of the
report of the checks. -/
theorem call_result {F α β : Type} (fl : float_ops F) (env : environment α β)
    (a : arguments F α β) (r : Int) (h : (curved_wrapped fl env a).result = some r) :
    r = 0 ∨ ∃ c, curved_wrapped_checks a.var_input_buffer a.var_processed_buffer = some c ∧
      r = c.returned := by
  cases hout : host_and_dev_are_null a.var_processed_buffer with
  | false =>
    cases hinp : host_and_dev_are_null a.var_input_buffer with
    | false => exact allocated_call_result fl env a hout hinp r h
    | true =>
      unfold curved_wrapped at h
      simp [hout, hinp] at h
      exact Or.inl h.symm
  | true =>
    unfold curved_wrapped at h
    simp [hout] at h
    exact Or.inl h.symm

/-- C32: for descriptors whose fields are values of `int32_t`, the first size check of
each buffer, `extent[0] ≤ 2^31 - 1` (lines 346 and 376), always passes; a report
`buffer_allocation_too_large` of the checks is the one of the second size check of the
output or of the input, made when `extent[1] * stride[1]` of that buffer exceeds
`2^31 - 1`, and `curved_wrapped` returns -5 only then. -/
theorem allocation_too_large_only_by_rows {F α β : Type} (fl : float_ops F)
    (env : environment α β) (a : arguments F α β)
    (hout : a.var_processed_buffer.wellTyped) (hinp : a.var_input_buffer.wellTyped) :
    assign_43 a.var_processed_buffer = true ∧ assign_63 a.var_input_buffer = true ∧
    (∀ c, curved_wrapped_checks a.var_input_buffer a.var_processed_buffer = some c →
      c.returned = halide_error_code_buffer_allocation_too_large →
      (c = error_call.buffer_allocation_too_large buffer_name.curved_y
          (a.var_processed_buffer.extent_1 * a.var_processed_buffer.stride_1) 2147483647 ∧
        2147483647 < a.var_processed_buffer.extent_1 * a.var_processed_buffer.stride_1) ∨
      (c = error_call.buffer_allocation_too_large buffer_name.p0
          (a.var_input_buffer.extent_1 * a.var_input_buffer.stride_1) 2147483647 ∧
        2147483647 < a.var_input_buffer.extent_1 * a.var_input_buffer.stride_1)) ∧
    ((curved_wrapped fl env a).result = some (-5) →
      2147483647 < a.var_processed_buffer.extent_1 * a.var_processed_buffer.stride_1 ∨
      2147483647 < a.var_input_buffer.extent_1 * a.var_input_buffer.stride_1) := by
  obtain ⟨oe0, oe1, -, -, -, os1, -⟩ := hout
  obtain ⟨ie0, ie1, -, -, -, is1, -⟩ := hinp
  have m : wrap64 2147483647 = 2147483647 := by decide
  have h43 : assign_43 a.var_processed_buffer = true := by
    simp only [assign_43, assign_37, assign_42, m, wrap64_of_int32 oe0, decide_eq_true_eq]
    exact oe0.2
  have h63 : assign_63 a.var_input_buffer = true := by
    simp only [assign_63, assign_61, m, wrap64_of_int32 ie0, decide_eq_true_eq]
    exact ie0.2
  have hk : ∀ c, curved_wrapped_checks a.var_input_buffer a.var_processed_buffer = some c →
      c.returned = halide_error_code_buffer_allocation_too_large →
      (c = error_call.buffer_allocation_too_large buffer_name.curved_y
          (a.var_processed_buffer.extent_1 * a.var_processed_buffer.stride_1) 2147483647 ∧
        2147483647 < a.var_processed_buffer.extent_1 * a.var_processed_buffer.stride_1) ∨
      (c = error_call.buffer_allocation_too_large buffer_name.p0
          (a.var_input_buffer.extent_1 * a.var_input_buffer.stride_1) 2147483647 ∧
        2147483647 < a.var_input_buffer.extent_1 * a.var_input_buffer.stride_1) := by
    intro c hc hr
    simp only [curved_wrapped_checks, h43, h63, Bool.not_true, Bool.false_eq_true,
      if_false] at hc
    have d51 : assign_51 a.var_processed_buffer = false →
        2147483647 < a.var_processed_buffer.extent_1 * a.var_processed_buffer.stride_1 := by
      intro h
      simp only [assign_51, assign_49, assign_47, assign_48, m, wrap64_of_int32 oe1,
        wrap64_of_int32 os1, wrap64_mul_of_int32 oe1 os1, decide_eq_false_iff_not] at h
      omega
    have d71 : assign_71 a.var_input_buffer = false →
        2147483647 < a.var_input_buffer.extent_1 * a.var_input_buffer.stride_1 := by
      intro h
      simp only [assign_71, assign_69, assign_67, assign_68, m, wrap64_of_int32 ie1,
        wrap64_of_int32 is1, wrap64_mul_of_int32 ie1 is1, decide_eq_false_iff_not] at h
      omega
    cases h6 : assign_6 a.var_processed_buffer
    · simp [h6] at hc; subst hc; simp [error_call.returned, halide_error_bad_elem_size,
        halide_error_code_bad_elem_size, halide_error_code_buffer_allocation_too_large] at hr
    cases h8 : assign_8 a.var_input_buffer
    · simp [h6, h8] at hc; subst hc; simp [error_call.returned, halide_error_bad_elem_size,
        halide_error_code_bad_elem_size, halide_error_code_buffer_allocation_too_large] at hr
    cases h15 : assign_15 a.var_input_buffer a.var_processed_buffer
    · simp [h6, h8, h15] at hc; subst hc; simp [error_call.returned,
        halide_error_access_out_of_bounds, halide_error_code_access_out_of_bounds,
        halide_error_code_buffer_allocation_too_large] at hr
    cases h26 : assign_26 a.var_input_buffer a.var_processed_buffer
    · simp [h6, h8, h15, h26] at hc; subst hc; simp [error_call.returned,
        halide_error_access_out_of_bounds, halide_error_code_access_out_of_bounds,
        halide_error_code_buffer_allocation_too_large] at hr
    cases h32 : assign_32 a.var_processed_buffer
    · simp [h6, h8, h15, h26, h32] at hc; subst hc; simp [error_call.returned,
        halide_error_constraint_violated, halide_error_code_constraint_violated,
        halide_error_code_buffer_allocation_too_large] at hr
    cases h34 : assign_34 a.var_input_buffer
    · simp [h6, h8, h15, h26, h32, h34] at hc; subst hc; simp [error_call.returned,
        halide_error_constraint_violated, halide_error_code_constraint_violated,
        halide_error_code_buffer_allocation_too_large] at hr
    cases h51 : assign_51 a.var_processed_buffer
    · simp [h6, h8, h15, h26, h32, h34, h51] at hc
      subst hc
      left
      refine ⟨?_, d51 h51⟩
      rw [wrap64_of_int32 oe1, wrap64_of_int32 os1, wrap64_mul_of_int32 oe1 os1, m]
    cases h58 : assign_58 a.var_processed_buffer
    · simp [h6, h8, h15, h26, h32, h34, h51, h58] at hc; subst hc; simp [error_call.returned,
        halide_error_buffer_extents_too_large, halide_error_code_buffer_extents_too_large,
        halide_error_code_buffer_allocation_too_large] at hr
    cases h71 : assign_71 a.var_input_buffer
    · simp [h6, h8, h15, h26, h32, h34, h51, h58, h71] at hc
      subst hc
      right
      refine ⟨?_, d71 h71⟩
      rw [wrap64_of_int32 ie1, wrap64_of_int32 is1, wrap64_mul_of_int32 ie1 is1, m]
    cases h78 : assign_78 a.var_input_buffer
    · simp [h6, h8, h15, h26, h32, h34, h51, h58, h71, h78] at hc; subst hc
      simp [error_call.returned, halide_error_buffer_extents_too_large,
        halide_error_code_buffer_extents_too_large,
        halide_error_code_buffer_allocation_too_large] at hr
    simp [h6, h8, h15, h26, h32, h34, h51, h58, h71, h78] at hc
  refine ⟨h43, h63, hk, ?_⟩
  intro hr
  rcases call_result fl env a (-5) hr with h0 | ⟨c, hc, hcr⟩
  · exact absurd h0 (by decide)
  · rcases hk c hc hcr.symm with ⟨-, h⟩ | ⟨-, h⟩
    · exact Or.inl h
    · exact Or.inr h

/-- C32 (witness): the 4x4 output whose rows are 1073741824 elements apart and the 6x6
input: the call returns -5, and `extent[1] * stride[1] = 2^32` of the output exceeds
`2^31 - 1`. -/
theorem allocation_too_large_only_by_rows_witness :
    (curved_wrapped example_float_ops example_environment
      (example_arguments example_inp_6x6 example_out_far_rows)).result = some (-5) ∧
    (2147483647 < (example_arguments example_inp_6x6
        example_out_far_rows).var_processed_buffer.extent_1 *
      (example_arguments example_inp_6x6 example_out_far_rows).var_processed_buffer.stride_1 ∨
    2147483647 < (example_arguments example_inp_6x6
        example_out_far_rows).var_input_buffer.extent_1 *
      (example_arguments example_inp_6x6 example_out_far_rows).var_input_buffer.stride_1) :=
  ⟨by decide,
   (allocation_too_large_only_by_rows example_float_ops example_environment
    (example_arguments example_inp_6x6 example_out_far_rows) (by decide)
    (by decide)).2.2.2 (by decide)⟩

/-! ### The tiles of a call that reaches the unpacking loop -/

/-- The tile count of axis 0 for an extent above the bound: the sum `E + 128` leaves
`int32_t` and the count is negative. -/
theorem tile_num_dim0_above {E : Int} (h0 : 2147483542 < E) (h1 : E ≤ 2147483647) :
    tile_num_dim0 E = -((4294967191 - E) / 106) := by
  have h : wrap32 (wrap32 (E + TILE_SIZE_DIM0) - STENCIL_DIM0) = -(4294967191 - E) := by
    simp only [wrap32, TILE_SIZE_DIM0, STENCIL_DIM0]; omega
  rw [tile_num_dim0, h, Int.neg_tdiv, Int.tdiv_eq_ediv (by omega) (by decide)]
  rfl

/-- The tile count of axis 1 for an extent above the bound. -/
theorem tile_num_dim1_above {E : Int} (h0 : 2147483538 < E) (h1 : E ≤ 2147483647) :
    tile_num_dim1 E = -((4294967187 - E) / 110) := by
  have h : wrap32 (wrap32 (E + TILE_SIZE_DIM1) - STENCIL_DIM1) = -(4294967187 - E) := by
    simp only [wrap32, TILE_SIZE_DIM1, STENCIL_DIM1]; omega
  rw [tile_num_dim1, h, Int.neg_tdiv, Int.tdiv_eq_ediv (by omega) (by decide)]
  rfl

/-- An output of one row whose extent on axis 0 is above the bound: line 406 asks
`new[]` for a negative number of elements. -/
theorem processed_length_negative {E : Int} (h0 : 2147483542 < E) (h1 : E ≤ 2147483647) :
    var_processed_buf_length (tile_num_dim0 E) (tile_num_dim1 1) < 0 := by
  have e1 : tile_num_dim1 1 = 1 := by decide
  have hq : (4294967191 - E) / 106 = 20259279 ∨ (4294967191 - E) / 106 = 20259278 := by
    omega
  rw [tile_num_dim0_above h0 h1, e1]
  rcases hq with hq | hq <;> rw [hq] <;> decide

/-- An output of one column whose extent on axis 1 is above the bound: line 407 asks
`new[]` for a negative number of elements. -/
theorem input_length_negative {E : Int} (h0 : 2147483538 < E) (h1 : E ≤ 2147483647) :
    var_input_buf_length (tile_num_dim0 1) (tile_num_dim1 E) < 0 := by
  have e1 : tile_num_dim0 1 = 1 := by decide
  rw [tile_num_dim1_above h0 h1, e1]
  simp only [var_input_buf_length, TILE_SIZE_DIM0, TILE_SIZE_DIM1, wrap32]
  omega

/-- Positive output extents within the limit on the number of elements for which both
`new[]` of lines 406-407 are asked for lengths that are not negative: on both axes
`E + TILE_SIZE - STENCIL` is within `int32_t`. -/
theorem extents_of_allocated_tiles (out : buffer_t)
    (h0 : 0 < out.extent_0) (h1 : 0 < out.extent_1)
    (hw0 : out.extent_0 ≤ 2147483647) (hw1 : out.extent_1 ≤ 2147483647)
    (hp : out.extent_0 * out.extent_1 ≤ 2147483647)
    (hl1 : 0 ≤ var_processed_buf_length (tile_num_dim0 out.extent_0)
      (tile_num_dim1 out.extent_1))
    (hl2 : 0 ≤ var_input_buf_length (tile_num_dim0 out.extent_0)
      (tile_num_dim1 out.extent_1)) :
    out.extent_0 ≤ 2147483542 ∧ out.extent_1 ≤ 2147483538 := by
  constructor
  · by_contra hc
    have hE : 2147483542 < out.extent_0 := by omega
    have h2 : out.extent_1 = 1 := by
      by_contra hne
      have : out.extent_0 * 2 ≤ out.extent_0 * out.extent_1 :=
        Int.mul_le_mul_of_nonneg_left (by omega) (by omega)
      omega
    rw [h2] at hl1
    have := processed_length_negative hE hw0
    omega
  · by_contra hc
    have hE : 2147483538 < out.extent_1 := by omega
    have h2 : out.extent_0 = 1 := by
      by_contra hne
      have : 2 * out.extent_1 ≤ out.extent_0 * out.extent_1 :=
        Int.mul_le_mul_of_nonneg_right (by omega) (by omega)
      omega
    rw [h2] at hl2
    have := input_length_negative hE hw1
    omega

/-- The unpacking loop runs only for allocated descriptors that pass every check, after
both `new[]` of lines 406-407 were asked for lengths that are not negative. -/
theorem untiling_reached {F α β : Type} (fl : float_ops F) (env : environment α β)
    (a : arguments F α β) (h : event.untiling ∈ (curved_wrapped fl env a).trace) :
    host_and_dev_are_null a.var_processed_buffer = false ∧
    host_and_dev_are_null a.var_input_buffer = false ∧
    curved_wrapped_checks a.var_input_buffer a.var_processed_buffer = none ∧
    0 ≤ var_processed_buf_length (tile_num_dim0 a.var_processed_buffer.extent_0)
      (tile_num_dim1 a.var_processed_buffer.extent_1) ∧
    0 ≤ var_input_buf_length (tile_num_dim0 a.var_processed_buffer.extent_0)
      (tile_num_dim1 a.var_processed_buffer.extent_1) := by
  cases hout : host_and_dev_are_null a.var_processed_buffer with
  | true =>
    unfold curved_wrapped at h
    simp [hout] at h
  | false =>
    cases hinp : host_and_dev_are_null a.var_input_buffer with
    | true =>
      unfold curved_wrapped at h
      simp [hout, hinp] at h
    | false =>
      cases hc : curved_wrapped_checks a.var_input_buffer a.var_processed_buffer with
      | some c =>
        unfold curved_wrapped at h
        simp [hout, hinp, hc] at h
      | none =>
        unfold curved_wrapped at h
        simp only [hout, hinp, hc, Bool.or_false, Bool.not_false, if_true] at h
        unfold curved_wrapped_offload at h
        simp only [] at h
        split_ifs at h with k1 k2 <;> first
          | (simp at h; done)
          | exact ⟨rfl, rfl, rfl, by omega, by omega⟩

/-- The output of 2147483574 columns and one row passes every check together with an
input of one column (the sum `out.min[0] + out.extent[0]` of the bounds check wraps);
the tile count of axis 0 is -20259279 and line 406 asks `new[]` for -2025893120
elements: the call ends there, before the tiling loop and the unpacking loop. -/
theorem wide_image_is_not_allocated :
    curved_wrapped_checks example_inp_narrow example_out_wide = none ∧
    0 < example_out_wide.extent_0 ∧ 0 < example_out_wide.extent_1 ∧
    tile_num_dim0 example_out_wide.extent_0 = -20259279 ∧
    var_processed_buf_length (tile_num_dim0 example_out_wide.extent_0)
      (tile_num_dim1 example_out_wide.extent_1) = -2025893120 ∧
    (curved_wrapped example_float_ops example_environment
      (example_arguments example_inp_narrow example_out_wide)).result = none ∧
    (curved_wrapped example_float_ops example_environment
      (example_arguments example_inp_narrow example_out_wide)).trace =
      [event.bad_alloc] := by
  decide

/-- C1: for all output extents `E0, E1 > 0` (values of `int32_t`) of a call of
`curved_wrapped` that reaches the unpacking loop, the tiles the loop enumerates
partition the image: with `step = 106` on axis 0 and 110 on axis 1, the tile counts are
`n = (E + TILE_SIZE - STENCIL) / step`, tile `t` has size `step` for `t < n - 1` and
`E - step * t` for `t = n - 1`, and its local coordinate `i` is the pixel coordinate
`t * step + i`; every pixel `(p, q)` of `[0, E0) x [0, E1)` is visited in exactly one
tile at exactly one local coordinate, and no visited coordinate lies outside
`[0, E0) x [0, E1)`.  (A call whose extents make `E + TILE_SIZE - STENCIL` leave
`int32_t` does not reach the loop: a `new[]` of lines 406-407 is asked for a negative
length.) -/
theorem unpack_tiles_partition {F α β : Type} (fl : float_ops F) (env : environment α β)
    (a : arguments F α β) (hout : a.var_processed_buffer.wellTyped)
    (h0 : 0 < a.var_processed_buffer.extent_0) (h1 : 0 < a.var_processed_buffer.extent_1)
    (hrun : event.untiling ∈ (curved_wrapped fl env a).trace) :
    tile_num_dim0 a.var_processed_buffer.extent_0 =
      (a.var_processed_buffer.extent_0 + TILE_SIZE_DIM0 - STENCIL_DIM0) / 106 ∧
    tile_num_dim1 a.var_processed_buffer.extent_1 =
      (a.var_processed_buffer.extent_1 + TILE_SIZE_DIM1 - STENCIL_DIM1) / 110 ∧
    (∀ t, 0 ≤ t → t < tile_num_dim0 a.var_processed_buffer.extent_0 →
      Unpack.actual_tile_size_dim0 a.var_processed_buffer t =
        if t < tile_num_dim0 a.var_processed_buffer.extent_0 - 1 then 106
        else a.var_processed_buffer.extent_0 - 106 * t) ∧
    (∀ t, 0 ≤ t → t < tile_num_dim1 a.var_processed_buffer.extent_1 →
      Unpack.actual_tile_size_dim1 a.var_processed_buffer t =
        if t < tile_num_dim1 a.var_processed_buffer.extent_1 - 1 then 110
        else a.var_processed_buffer.extent_1 - 110 * t) ∧
    (∀ ty tx j i, Unpack.iterates a.var_processed_buffer ty tx j i →
      Unpack.p tx i = tx * 106 + i ∧ Unpack.q ty j = ty * 110 + j ∧
      0 ≤ Unpack.p tx i ∧ Unpack.p tx i < a.var_processed_buffer.extent_0 ∧
      0 ≤ Unpack.q ty j ∧ Unpack.q ty j < a.var_processed_buffer.extent_1) ∧
    (∀ p q, 0 ≤ p → p < a.var_processed_buffer.extent_0 →
      0 ≤ q → q < a.var_processed_buffer.extent_1 →
      ∃ ty tx j i, Unpack.iterates a.var_processed_buffer ty tx j i ∧
        Unpack.p tx i = p ∧ Unpack.q ty j = q ∧
        ∀ ty' tx' j' i', Unpack.iterates a.var_processed_buffer ty' tx' j' i' →
          Unpack.p tx' i' = p → Unpack.q ty' j' = q →
          ty' = ty ∧ tx' = tx ∧ j' = j ∧ i' = i) := by
  obtain ⟨-, -, hc, hl1, hl2⟩ := untiling_reached fl env a hrun
  obtain ⟨-, -, -, -, -, -, -, -, c58, -, -, -⟩ := (checks_none_iff _ _).1 hc
  obtain ⟨oe0, oe1, -⟩ := hout
  have m : wrap64 2147483647 = 2147483647 := by decide
  simp only [assign_58, assign_38, assign_36, assign_37, m, wrap64_of_int32 oe1,
    wrap64_of_int32 oe0, wrap64_mul_of_int32 oe1 oe0, decide_eq_true_eq] at c58
  rw [Int.mul_comm] at c58
  obtain ⟨b0, b1⟩ := extents_of_allocated_tiles a.var_processed_buffer h0 h1 oe0.2 oe1.2
    c58 hl1 hl2
  exact tiles_partition_below_bound a.var_processed_buffer h0 b0 h1 b1

/-- C1 (witness): the call on the 4x4 output and the 6x6 input, every OpenCL call
succeeding, reaches the unpacking loop; the image is one tile of 4 by 4 pixels. -/
theorem unpack_tiles_partition_witness :
    event.untiling ∈ (curved_wrapped example_float_ops example_environment
      (example_arguments example_inp_6x6 example_out_4x4)).trace ∧
    tile_num_dim0 (example_arguments example_inp_6x6
        example_out_4x4).var_processed_buffer.extent_0 =
      ((example_arguments example_inp_6x6 example_out_4x4).var_processed_buffer.extent_0
        + TILE_SIZE_DIM0 - STENCIL_DIM0) / 106 ∧
    ∀ p q, 0 ≤ p →
      p < (example_arguments example_inp_6x6 example_out_4x4).var_processed_buffer.extent_0 →
      0 ≤ q →
      q < (example_arguments example_inp_6x6 example_out_4x4).var_processed_buffer.extent_1 →
      ∃ ty tx j i, Unpack.iterates
          (example_arguments example_inp_6x6 example_out_4x4).var_processed_buffer ty tx j i ∧
        Unpack.p tx i = p ∧ Unpack.q ty j = q ∧
        ∀ ty' tx' j' i', Unpack.iterates
            (example_arguments example_inp_6x6 example_out_4x4).var_processed_buffer
            ty' tx' j' i' →
          Unpack.p tx' i' = p → Unpack.q ty' j' = q →
          ty' = ty ∧ tx' = tx ∧ j' = j ∧ i' = i :=
  ⟨by decide,
   (unpack_tiles_partition example_float_ops example_environment
      (example_arguments example_inp_6x6 example_out_4x4) (by decide) (by decide)
      (by decide) (by decide)).1,
   (unpack_tiles_partition example_float_ops example_environment
      (example_arguments example_inp_6x6 example_out_4x4) (by decide) (by decide)
      (by decide) (by decide)).2.2.2.2.2⟩

end Curved
